import Mathlib

/-!
The JNI bridge of mapbox-gl-native (`android/cpp/jni.cpp`).

A shallow embedding of the marshalling helpers, the exception translator and
the bridge entry points of `android/cpp/jni.cpp`, with the properties of the
bridge proved over it.

Conventions of the embedding:

* a native string (`std::string`) is the list of its bytes, a managed string
  the list of its UTF-16 code units; a `jstring` is an `Option` of the latter,
  `none` being the null reference;
* the managed runtime behind `JNIEnv*` is a state (`JNIEnv`): the pending
  exception, the trace of the runtime calls made, and the outcomes of the
  coming fallible runtime calls;
* the map engine behind `NativeMapView*` is a parameter (`Engine`): every engine
  method either returns or raises a native exception, and may change the state
  of the instance; a bridge operation runs in a `World`, which holds the
  runtime, the trace of the engine calls and the live engine instances;
* code that can raise a native (C++) exception returns an `Except`.
-/

namespace Jni

/-! ## The string codec

`std::wstring_convert<std::codecvt_utf8_utf16<char16_t>, char16_t>` is a
standard-library facility: `from_bytes` decodes UTF-8 to UTF-16 code units and
`to_bytes` encodes UTF-16 code units as UTF-8.  Without an error string (the
converter is default-constructed in the source) a conversion failure raises
`std::range_error`; here a failure is `none`.
-/

/-- A UTF-8 continuation byte: `10xxxxxx`. -/
def isCont (c : Nat) : Bool := 0x80 ≤ c && c < 0xC0

/-- Modelled from the spec: the decoder behind `from_bytes` ("UTF-8 byte
semantics" to "a UTF-16-equivalent intermediate representation"), which is the
standard library's and not in the sources.  Strict UTF-8 (no overlong form, no
encoded surrogate, nothing above U+10FFFF) to UTF-16 code units; `none` is the
conversion failure, which a sequence cut short at the end of the string is
too. -/
def utf8_to_utf16 : List Nat → Option (List Nat)
  | [] => some []
  | c1 :: rest =>
    if c1 < 0x80 then
      (utf8_to_utf16 rest).map (fun u => c1 :: u)
    else if c1 < 0xC2 then none
    else if c1 < 0xE0 then
      match rest with
      | c2 :: rest2 =>
        if isCont c2 then
          (utf8_to_utf16 rest2).map (fun u => ((c1 - 0xC0) * 64 + (c2 - 0x80)) :: u)
        else none
      | [] => none
    else if c1 < 0xF0 then
      match rest with
      | c2 :: c3 :: rest3 =>
        if isCont c2 && isCont c3 && (c1 != 0xE0 || 0xA0 ≤ c2) && (c1 != 0xED || c2 < 0xA0) then
          (utf8_to_utf16 rest3).map
            (fun u => ((c1 - 0xE0) * 4096 + (c2 - 0x80) * 64 + (c3 - 0x80)) :: u)
        else none
      | _ => none
    else if c1 < 0xF5 then
      match rest with
      | c2 :: c3 :: c4 :: rest4 =>
        if isCont c2 && isCont c3 && isCont c4
            && (c1 != 0xF0 || 0x90 ≤ c2) && (c1 != 0xF4 || c2 < 0x90) then
          let cp := (c1 - 0xF0) * 262144 + (c2 - 0x80) * 4096 + (c3 - 0x80) * 64 + (c4 - 0x80)
          (utf8_to_utf16 rest4).map
            (fun u => (0xD800 + (cp - 0x10000) / 1024) :: (0xDC00 + (cp - 0x10000) % 1024) :: u)
        else none
      | _ => none
    else none

/-- Modelled from the spec: the encoder behind `to_bytes`, which is the
standard library's and not in the sources.  UTF-16 code units (16-bit values,
surrogates only in pairs) to UTF-8; `none` is the conversion failure, which an
unpaired surrogate is, also at the end of the string. -/
def utf16_to_utf8 : List Nat → Option (List Nat)
  | [] => some []
  | w1 :: rest =>
    if w1 < 0x80 then
      (utf16_to_utf8 rest).map (fun s => w1 :: s)
    else if w1 < 0x800 then
      (utf16_to_utf8 rest).map (fun s => (0xC0 + w1 / 64) :: (0x80 + w1 % 64) :: s)
    else if w1 < 0xD800 then
      (utf16_to_utf8 rest).map
        (fun s => (0xE0 + w1 / 4096) :: (0x80 + w1 / 64 % 64) :: (0x80 + w1 % 64) :: s)
    else if w1 < 0xDC00 then
      match rest with
      | w2 :: rest2 =>
        if 0xDC00 ≤ w2 && w2 < 0xE000 then
          let cp := 0x10000 + (w1 - 0xD800) * 1024 + (w2 - 0xDC00)
          (utf16_to_utf8 rest2).map
            (fun s => (0xF0 + cp / 262144) :: (0x80 + cp / 4096 % 64)
              :: (0x80 + cp / 64 % 64) :: (0x80 + cp % 64) :: s)
        else none
      | [] => none
    else if w1 < 0xE000 then none
    else if w1 < 0x10000 then
      (utf16_to_utf8 rest).map
        (fun s => (0xE0 + w1 / 4096) :: (0x80 + w1 / 64 % 64) :: (0x80 + w1 % 64) :: s)
    else none


/-! ## Native exceptions -/

/-- A native exception of a class derived from `std::exception`.

`what` is the text `what()` gives on the raised object.  `slicedWhat` is the
text `what()` gives on the copy a handler `catch(std::exception e)` holds: the
handler of `CPP_TRY_JNI` catches by value, its copy has the dynamic type
`std::exception`, and whether that copy keeps the text of the raised object is
the C++ implementation's choice. -/
structure CppException where
  what : String
  slicedWhat : String
  deriving DecidableEq

deriving instance DecidableEq for Except

/-- The `std::range_error` that `from_bytes` and `to_bytes` raise on a
conversion failure (its text is the implementation's). -/
def range_error : CppException :=
  { what := "wstring_convert: conversion error", slicedWhat := "std::exception" }

/-! ## The managed runtime behind `JNIEnv*` -/

/-- The classes of managed exceptions.  `runtimeException` and
`nullPointerException` are the classes the load entry point caches in
`runtimeExceptionClass` and `nullPointerExceptionClass`; `other` stands for
what the runtime raises by itself (an out-of-memory error, an exception of a
called managed method). -/
inductive JClass
  | runtimeException
  | nullPointerException
  | other (name : String)
  deriving DecidableEq

/-- A managed exception: its class and its message. -/
structure Throwable where
  cls : JClass
  message : String
  deriving DecidableEq

/-- A `jstring`: `none` is the null reference, `some u` a managed string with
the UTF-16 code units `u`. -/
abbrev jstring := Option (List Nat)

/-- A `jobject` that refers to a managed list (or to the array `toArray` makes
of it): `none` is the null reference, `some l` a list with the elements `l`. -/
abbrev jlist := Option (List jstring)

/-- The runtime calls of the bridge, as recorded in the trace. -/
inductive JniCall
  | ThrowNew (cls : JClass) (msg : String)
  | ExceptionDescribe
  | ExceptionCheck
  | GetStringLength
  | GetStringChars
  | ReleaseStringChars
  | NewString (units : List Nat)
  | CallObjectMethod
  | GetArrayLength
  | GetObjectArrayElement
  | NewObject
  | CallBooleanMethod (element : jstring)
  | GetDoubleField
  | NewObjectLonLat (lon lat : Nat)
  | NewObjectLonLatZoom (lon lat zoom : Nat)
  deriving DecidableEq

/-- The state of the managed runtime as the bridge sees it through `JNIEnv*`.

* `pending`: the pending managed exception, if any;
* `calls`: the trace of the runtime calls made so far, oldest first;
* `failures`: the outcomes of the coming fallible runtime calls, in order:
  `none` succeeds, `some t` fails and leaves `t` pending; once the list is
  used up every call succeeds. -/
structure JNIEnv where
  pending : Option Throwable
  calls : List JniCall
  failures : List (Option Throwable)
  deriving DecidableEq

namespace JNIEnv

/-- Records a runtime call in the trace. -/
def log (env : JNIEnv) (c : JniCall) : JNIEnv :=
  { env with calls := env.calls ++ [c] }

/-- The outcome of the next fallible runtime call. -/
def outcome (env : JNIEnv) : Option Throwable :=
  env.failures.headD none

/-- The runtime after a fallible call consumed its outcome. -/
def advance (env : JNIEnv) : JNIEnv :=
  match env.outcome with
  | none => { env with failures := env.failures.tail }
  | some t => { env with failures := env.failures.tail, pending := some t }

/-- None of the coming runtime calls fails. -/
def calm (env : JNIEnv) : Prop :=
  ∀ f ∈ env.failures, f = none

/-- No runtime call has failed or fails: no exception is pending and none of
the coming calls fails. -/
def quiet (env : JNIEnv) : Prop :=
  env.pending = none ∧ env.calm

instance (env : JNIEnv) : Decidable env.calm := by
  unfold calm
  infer_instance

instance (env : JNIEnv) : Decidable env.quiet := by
  unfold quiet
  infer_instance

/-- The `ThrowNew` calls of the trace, oldest first. -/
def thrown (env : JNIEnv) : List Throwable :=
  env.calls.filterMap fun c =>
    match c with
    | .ThrowNew cls msg => some { cls := cls, message := msg }
    | _ => none

/-- A runtime in which nothing has happened and nothing fails. -/
def fresh : JNIEnv :=
  { pending := none, calls := [], failures := [] }

end JNIEnv

/-- `env->ThrowNew(cls, msg)`: raises a new exception of class `cls` with the
message `msg`, which becomes the pending exception (in place of an earlier
one); returns 0, or a negative value when the exception could not be raised. -/
def ThrowNew (env : JNIEnv) (cls : JClass) (msg : String) : Int × JNIEnv :=
  let env1 := env.log (.ThrowNew cls msg)
  match env1.outcome with
  | none => (0, { env1.advance with pending := some { cls := cls, message := msg } })
  | some _ => (-1, env1.advance)

/-- `env->ExceptionDescribe()`: prints the pending exception, if any, to the
system's error channel. -/
def ExceptionDescribe (env : JNIEnv) : JNIEnv :=
  env.log .ExceptionDescribe

/-- `env->ExceptionCheck()`: whether an exception is pending. -/
def ExceptionCheck (env : JNIEnv) : Bool × JNIEnv :=
  (env.pending.isSome, env.log .ExceptionCheck)

/-- `env->GetStringLength(jstr)` on a non-null string. -/
def GetStringLength (env : JNIEnv) (units : List Nat) : Int × JNIEnv :=
  ((units.length : Int), env.log .GetStringLength)

/-- `env->GetStringChars(jstr, nullptr)` on a non-null string: the code units,
or null when the runtime cannot provide them. -/
def GetStringChars (env : JNIEnv) (units : List Nat) : Option (List Nat) × JNIEnv :=
  let env1 := env.log .GetStringChars
  match env1.outcome with
  | none => (some units, env1.advance)
  | some _ => (none, env1.advance)

/-- `env->ReleaseStringChars(jstr, chars)`. -/
def ReleaseStringChars (env : JNIEnv) : JNIEnv :=
  env.log .ReleaseStringChars

/-- `env->NewString(units, len)`: a new managed string, or null when the
allocation fails. -/
def NewString (env : JNIEnv) (units : List Nat) : jstring × JNIEnv :=
  let env1 := env.log (.NewString units)
  match env1.outcome with
  | none => (some units, env1.advance)
  | some _ => (none, env1.advance)

/-- `env->CallObjectMethod(jlist, listToArrayId)` on a non-null list: the array
of its elements, or null when `toArray` raises. -/
def CallObjectMethod (env : JNIEnv) (elements : List jstring) : jlist × JNIEnv :=
  let env1 := env.log .CallObjectMethod
  match env1.outcome with
  | none => (some elements, env1.advance)
  | some _ => (none, env1.advance)

/-- `env->GetArrayLength(array)`. -/
def GetArrayLength (env : JNIEnv) (array : List jstring) : Int × JNIEnv :=
  ((array.length : Int), env.log .GetArrayLength)

/-- `env->GetObjectArrayElement(array, i)` for an index `i` of the array whose
element is `element`: a null element is returned as null, with no exception. -/
def GetObjectArrayElement (env : JNIEnv) (element : jstring) : jstring × JNIEnv :=
  (element, env.log .GetObjectArrayElement)

/-- `env->NewObject(arrayListClass, arrayListConstructorId)`: a new empty
managed list, or null when the construction fails. -/
def NewObject (env : JNIEnv) : jlist × JNIEnv :=
  let env1 := env.log .NewObject
  match env1.outcome with
  | none => (some [], env1.advance)
  | some _ => (none, env1.advance)

/-- `env->CallBooleanMethod(jlist, arrayListAddId, element)` on the list with
the elements `elements`: the elements after the call (the element is appended
unless `add` raises). -/
def CallBooleanMethod (env : JNIEnv) (elements : List jstring) (element : jstring) :
    List jstring × JNIEnv :=
  let env1 := env.log (.CallBooleanMethod element)
  match env1.outcome with
  | none => (elements ++ [element], env1.advance)
  | some _ => (elements, env1.advance)

/-! ## The marshalling layer (`jni.cpp`, lines 65-170) -/

/-- `bool throw_error(JNIEnv* env, const char* msg)`. -/
def throw_error (env : JNIEnv) (msg : String) : Bool × JNIEnv :=
  let t := ThrowNew env .runtimeException msg
  if t.1 < 0 then
    (false, ExceptionDescribe t.2)
  else
    (true, t.2)

/-- `std::string std_string_from_jstring(JNIEnv* env, jstring jstr)`. -/
def std_string_from_jstring (env : JNIEnv) (jstr : jstring) :
    Except CppException (List Nat) × JNIEnv :=
  match jstr with
  | none =>
    let t := ThrowNew env .nullPointerException "String cannot be null."
    if t.1 < 0 then
      (.ok [], ExceptionDescribe t.2)
    else
      (.ok [], t.2)
  | some units =>
    let len := GetStringLength env units
    if len.1 < 0 then
      (.ok [], ExceptionDescribe len.2)
    else
      let chars := GetStringChars len.2 units
      match chars.1 with
      | none => (.ok [], ExceptionDescribe chars.2)
      | some cs =>
        let ustr := cs.take len.1.toNat
        let env1 := ReleaseStringChars chars.2
        match utf16_to_utf8 ustr with
        | none => (.error range_error, env1)
        | some str => (.ok str, env1)

/-- `jstring std_string_to_jstring(JNIEnv* env, std::string str)`. -/
def std_string_to_jstring (env : JNIEnv) (str : List Nat) :
    Except CppException jstring × JNIEnv :=
  match utf8_to_utf16 str with
  | none => (.error range_error, env)
  | some ustr =>
    let jstr := NewString env ustr
    match jstr.1 with
    | none => (.ok none, ExceptionDescribe jstr.2)
    | some u => (.ok (some u), jstr.2)

/-- The loop of `std_vector_string_from_jobject` (lines 141-149) over the
elements of the array that are still to be read; `vector` holds the strings
that were imported so far. -/
def std_vector_string_from_jobject_loop :
    List jstring → JNIEnv → List (List Nat) → Except CppException (List (List Nat)) × JNIEnv
  | [], env, vector => (.ok vector, env)
  | element :: rest, env, vector =>
    let jstr := GetObjectArrayElement env element
    match jstr.1 with
    | none => (.ok vector, ExceptionDescribe jstr.2)
    | some u =>
      match std_string_from_jstring jstr.2 (some u) with
      | (.error e, env1) => (.error e, env1)
      | (.ok str, env1) => std_vector_string_from_jobject_loop rest env1 (vector ++ [str])

/-- `std::vector<std::string> std_vector_string_from_jobject(JNIEnv* env, jobject jlist)`. -/
def std_vector_string_from_jobject (env : JNIEnv) (jlist : jlist) :
    Except CppException (List (List Nat)) × JNIEnv :=
  match jlist with
  | none =>
    let t := ThrowNew env .nullPointerException "List cannot be null."
    if t.1 < 0 then
      (.ok [], ExceptionDescribe t.2)
    else
      (.ok [], t.2)
  | some elements =>
    let array := CallObjectMethod env elements
    let check := ExceptionCheck array.2
    match check.1, array.1 with
    | false, some arr =>
      let len := GetArrayLength check.2 arr
      if len.1 < 0 then
        (.ok [], ExceptionDescribe len.2)
      else
        std_vector_string_from_jobject_loop (arr.take len.1.toNat) len.2 []
    | _, _ => (.ok [], ExceptionDescribe check.2)

/-- The loop of `std_vector_string_to_jobject` (lines 161-167) over the strings
that are still to be exported; `elements` are the elements of the managed list
so far. -/
def std_vector_string_to_jobject_loop :
    List (List Nat) → JNIEnv → List jstring → Except CppException jlist × JNIEnv
  | [], env, elements => (.ok (some elements), env)
  | str :: rest, env, elements =>
    match std_string_to_jstring env str with
    | (.error e, env1) => (.error e, env1)
    | (.ok jstr, env1) =>
      let added := CallBooleanMethod env1 elements jstr
      let check := ExceptionCheck added.2
      if check.1 then
        (.ok none, ExceptionDescribe check.2)
      else
        std_vector_string_to_jobject_loop rest check.2 added.1

/-- `jobject std_vector_string_to_jobject(JNIEnv* env, std::vector<std::string> vector)`. -/
def std_vector_string_to_jobject (env : JNIEnv) (vector : List (List Nat)) :
    Except CppException jlist × JNIEnv :=
  let jlist := NewObject env
  match jlist.1 with
  | none => (.ok none, ExceptionDescribe jlist.2)
  | some elements => std_vector_string_to_jobject_loop vector jlist.2 elements

/-! ## The map engine behind `NativeMapView*` -/

/-- The non-null address of an object made by a `new` expression. -/
structure Pointer where
  addr : Nat
  nonnull : addr ≠ 0

/-- A `jdouble`, by its 64-bit pattern; 0 is the pattern of `0.0`.  The bridge
only passes doubles on. -/
abbrev jdouble := Nat

/-- A `jfloat`, by its 32-bit pattern.  The bridge only passes floats on. -/
abbrev jfloat := Nat

/-- The engine calls of the bridge, as recorded in the trace. -/
inductive EngineCall
  | construct
  | initializeDisplay
  | terminateDisplay
  | initializeContext
  | createSurface
  | setAppliedClasses (classes : List (List Nat))
  | getAppliedClasses
  | setStyleURL (url : List Nat)
  | setAccessToken (token : List Nat)
  | terminateContext
  | destroySurface
  | start
  | stop
  | pause
  | resume
  | run
  | rerender
  | update
  | terminate
  | swapped
  | cancelTransitions
  | startPanning
  | stopPanning
  | resetPosition
  | resetZoom
  | startScaling
  | stopScaling
  | resetNorth
  | startRotating
  | stopRotating
  | toggleDebug
  | resize3 (width : Nat) (height : Nat) (ratio : jfloat)
  | resize5 (width : Nat) (height : Nat) (ratio : jfloat) (fbWidth : Nat) (fbHeight : Nat)
  | setDefaultTransitionDuration (milliseconds : Int)
  | setStyleJSON (json : List Nat) (base : List Nat)
  | moveBy (dx : jdouble) (dy : jdouble) (duration : jdouble)
  | setLonLat (lon : jdouble) (lat : jdouble) (duration : jdouble)
  | scaleBy (ds : jdouble) (cx : jdouble) (cy : jdouble) (duration : jdouble)
  | setScale (scale : jdouble) (cx : jdouble) (cy : jdouble) (duration : jdouble)
  | setZoom (zoom : jdouble) (duration : jdouble)
  | setLonLatZoom (lon : jdouble) (lat : jdouble) (zoom : jdouble) (duration : jdouble)
  | rotateBy (sx : jdouble) (sy : jdouble) (ex : jdouble) (ey : jdouble) (duration : jdouble)
  | setBearing2 (degrees : jdouble) (duration : jdouble)
  | setBearing3 (degrees : jdouble) (cx : jdouble) (cy : jdouble)
  | setDebug (debug : Bool)
  | enableFps (enable : Bool)
  | setReachability (status : Bool)
  | needsSwap
  | getDefaultTransitionDuration
  | getStyleJSON
  | getAccessToken
  | getLonLat
  | getLonLatZoom
  | getScale
  | getZoom
  | getMinZoom
  | getMaxZoom
  | getBearing
  | getDebug
  | destroy

/-- The place of an engine call in the declaration of `EngineCall`, with its
arguments listed by type: the numbers, the strings, the booleans and the
signed integers. -/
def EngineCall.code : EngineCall → Nat × List Nat × List (List Nat) × List Bool × List Int
  | .construct => (0, [], [], [], [])
  | .initializeDisplay => (1, [], [], [], [])
  | .terminateDisplay => (2, [], [], [], [])
  | .initializeContext => (3, [], [], [], [])
  | .createSurface => (4, [], [], [], [])
  | .setAppliedClasses classes => (5, [], classes, [], [])
  | .getAppliedClasses => (6, [], [], [], [])
  | .setStyleURL url => (7, [], [url], [], [])
  | .setAccessToken token => (8, [], [token], [], [])
  | .terminateContext => (9, [], [], [], [])
  | .destroySurface => (10, [], [], [], [])
  | .start => (11, [], [], [], [])
  | .stop => (12, [], [], [], [])
  | .pause => (13, [], [], [], [])
  | .resume => (14, [], [], [], [])
  | .run => (15, [], [], [], [])
  | .rerender => (16, [], [], [], [])
  | .update => (17, [], [], [], [])
  | .terminate => (18, [], [], [], [])
  | .swapped => (19, [], [], [], [])
  | .cancelTransitions => (20, [], [], [], [])
  | .startPanning => (21, [], [], [], [])
  | .stopPanning => (22, [], [], [], [])
  | .resetPosition => (23, [], [], [], [])
  | .resetZoom => (24, [], [], [], [])
  | .startScaling => (25, [], [], [], [])
  | .stopScaling => (26, [], [], [], [])
  | .resetNorth => (27, [], [], [], [])
  | .startRotating => (28, [], [], [], [])
  | .stopRotating => (29, [], [], [], [])
  | .toggleDebug => (30, [], [], [], [])
  | .resize3 width height ratio => (31, [width, height, ratio], [], [], [])
  | .resize5 width height ratio fbWidth fbHeight => (32, [width, height, ratio, fbWidth, fbHeight], [], [], [])
  | .setDefaultTransitionDuration milliseconds => (33, [], [], [], [milliseconds])
  | .setStyleJSON json base => (34, [], [json, base], [], [])
  | .moveBy dx dy duration => (35, [dx, dy, duration], [], [], [])
  | .setLonLat lon lat duration => (36, [lon, lat, duration], [], [], [])
  | .scaleBy ds cx cy duration => (37, [ds, cx, cy, duration], [], [], [])
  | .setScale scale cx cy duration => (38, [scale, cx, cy, duration], [], [], [])
  | .setZoom zoom duration => (39, [zoom, duration], [], [], [])
  | .setLonLatZoom lon lat zoom duration => (40, [lon, lat, zoom, duration], [], [], [])
  | .rotateBy sx sy ex ey duration => (41, [sx, sy, ex, ey, duration], [], [], [])
  | .setBearing2 degrees duration => (42, [degrees, duration], [], [], [])
  | .setBearing3 degrees cx cy => (43, [degrees, cx, cy], [], [], [])
  | .setDebug debug => (44, [], [], [debug], [])
  | .enableFps enable => (45, [], [], [enable], [])
  | .setReachability status => (46, [], [], [status], [])
  | .needsSwap => (47, [], [], [], [])
  | .getDefaultTransitionDuration => (48, [], [], [], [])
  | .getStyleJSON => (49, [], [], [], [])
  | .getAccessToken => (50, [], [], [], [])
  | .getLonLat => (51, [], [], [], [])
  | .getLonLatZoom => (52, [], [], [], [])
  | .getScale => (53, [], [], [], [])
  | .getZoom => (54, [], [], [], [])
  | .getMinZoom => (55, [], [], [], [])
  | .getMaxZoom => (56, [], [], [], [])
  | .getBearing => (57, [], [], [], [])
  | .getDebug => (58, [], [], [], [])
  | .destroy => (59, [], [], [], [])

/-- The engine call a code stands for. -/
def EngineCall.decode (c : Nat × List Nat × List (List Nat) × List Bool × List Int) :
    EngineCall :=
  if c.1 = 0 then .construct
  else if c.1 = 1 then .initializeDisplay
  else if c.1 = 2 then .terminateDisplay
  else if c.1 = 3 then .initializeContext
  else if c.1 = 4 then .createSurface
  else if c.1 = 5 then .setAppliedClasses c.2.2.1
  else if c.1 = 6 then .getAppliedClasses
  else if c.1 = 7 then .setStyleURL (c.2.2.1.getD 0 [])
  else if c.1 = 8 then .setAccessToken (c.2.2.1.getD 0 [])
  else if c.1 = 9 then .terminateContext
  else if c.1 = 10 then .destroySurface
  else if c.1 = 11 then .start
  else if c.1 = 12 then .stop
  else if c.1 = 13 then .pause
  else if c.1 = 14 then .resume
  else if c.1 = 15 then .run
  else if c.1 = 16 then .rerender
  else if c.1 = 17 then .update
  else if c.1 = 18 then .terminate
  else if c.1 = 19 then .swapped
  else if c.1 = 20 then .cancelTransitions
  else if c.1 = 21 then .startPanning
  else if c.1 = 22 then .stopPanning
  else if c.1 = 23 then .resetPosition
  else if c.1 = 24 then .resetZoom
  else if c.1 = 25 then .startScaling
  else if c.1 = 26 then .stopScaling
  else if c.1 = 27 then .resetNorth
  else if c.1 = 28 then .startRotating
  else if c.1 = 29 then .stopRotating
  else if c.1 = 30 then .toggleDebug
  else if c.1 = 31 then .resize3 (c.2.1.getD 0 0) (c.2.1.getD 1 0) (c.2.1.getD 2 0)
  else if c.1 = 32 then .resize5 (c.2.1.getD 0 0) (c.2.1.getD 1 0) (c.2.1.getD 2 0) (c.2.1.getD 3 0) (c.2.1.getD 4 0)
  else if c.1 = 33 then .setDefaultTransitionDuration (c.2.2.2.2.getD 0 0)
  else if c.1 = 34 then .setStyleJSON (c.2.2.1.getD 0 []) (c.2.2.1.getD 1 [])
  else if c.1 = 35 then .moveBy (c.2.1.getD 0 0) (c.2.1.getD 1 0) (c.2.1.getD 2 0)
  else if c.1 = 36 then .setLonLat (c.2.1.getD 0 0) (c.2.1.getD 1 0) (c.2.1.getD 2 0)
  else if c.1 = 37 then .scaleBy (c.2.1.getD 0 0) (c.2.1.getD 1 0) (c.2.1.getD 2 0) (c.2.1.getD 3 0)
  else if c.1 = 38 then .setScale (c.2.1.getD 0 0) (c.2.1.getD 1 0) (c.2.1.getD 2 0) (c.2.1.getD 3 0)
  else if c.1 = 39 then .setZoom (c.2.1.getD 0 0) (c.2.1.getD 1 0)
  else if c.1 = 40 then .setLonLatZoom (c.2.1.getD 0 0) (c.2.1.getD 1 0) (c.2.1.getD 2 0) (c.2.1.getD 3 0)
  else if c.1 = 41 then .rotateBy (c.2.1.getD 0 0) (c.2.1.getD 1 0) (c.2.1.getD 2 0) (c.2.1.getD 3 0) (c.2.1.getD 4 0)
  else if c.1 = 42 then .setBearing2 (c.2.1.getD 0 0) (c.2.1.getD 1 0)
  else if c.1 = 43 then .setBearing3 (c.2.1.getD 0 0) (c.2.1.getD 1 0) (c.2.1.getD 2 0)
  else if c.1 = 44 then .setDebug (c.2.2.2.1.getD 0 false)
  else if c.1 = 45 then .enableFps (c.2.2.2.1.getD 0 false)
  else if c.1 = 46 then .setReachability (c.2.2.2.1.getD 0 false)
  else if c.1 = 47 then .needsSwap
  else if c.1 = 48 then .getDefaultTransitionDuration
  else if c.1 = 49 then .getStyleJSON
  else if c.1 = 50 then .getAccessToken
  else if c.1 = 51 then .getLonLat
  else if c.1 = 52 then .getLonLatZoom
  else if c.1 = 53 then .getScale
  else if c.1 = 54 then .getZoom
  else if c.1 = 55 then .getMinZoom
  else if c.1 = 56 then .getMaxZoom
  else if c.1 = 57 then .getBearing
  else if c.1 = 58 then .getDebug
  else .destroy

instance : DecidableEq EngineCall := fun a b =>
  decidable_of_iff (a.code = b.code)
    ⟨fun h =>
      have ha : EngineCall.decode a.code = a := by cases a <;> rfl
      have hb : EngineCall.decode b.code = b := by cases b <;> rfl
      ha.symm.trans ((congrArg EngineCall.decode h).trans hb),
     fun h => congrArg EngineCall.code h⟩

/-- The map engine (`NativeMapView`, its `Map` and its `FileSource`), which the
bridge only calls: `σ` is the state of an engine instance, and each method
either returns or raises a native exception, and leaves the instance in a new
state.  `construct` is the expression `new NativeMapView(env, obj)`, which
either raises or gives the non-null address of the new instance and its
state.  The two overloads of `resize` are `resize3` and `resize5`, those of
`setBearing` are `setBearing2` and `setBearing3`; `getLonLat` and
`getLonLatZoom` give the values they write to their reference parameters, and
write none when they raise. -/
structure Engine (σ : Type) where
  construct : Except CppException (Pointer × σ)
  initializeDisplay : σ → Except CppException Bool × σ
  terminateDisplay : σ → Except CppException Unit × σ
  initializeContext : σ → Except CppException Bool × σ
  createSurface : Option Nat → σ → Except CppException Bool × σ
  setAppliedClasses : List (List Nat) → σ → Except CppException Unit × σ
  getAppliedClasses : σ → Except CppException (List (List Nat)) × σ
  setStyleURL : List Nat → σ → Except CppException Unit × σ
  setAccessToken : List Nat → σ → Except CppException Unit × σ
  terminateContext : σ → Except CppException Unit × σ
  destroySurface : σ → Except CppException Unit × σ
  start : σ → Except CppException Unit × σ
  stop : σ → Except CppException Unit × σ
  pause : σ → Except CppException Unit × σ
  resume : σ → Except CppException Unit × σ
  run : σ → Except CppException Unit × σ
  rerender : σ → Except CppException Unit × σ
  update : σ → Except CppException Unit × σ
  terminate : σ → Except CppException Unit × σ
  swapped : σ → Except CppException Unit × σ
  cancelTransitions : σ → Except CppException Unit × σ
  startPanning : σ → Except CppException Unit × σ
  stopPanning : σ → Except CppException Unit × σ
  resetPosition : σ → Except CppException Unit × σ
  resetZoom : σ → Except CppException Unit × σ
  startScaling : σ → Except CppException Unit × σ
  stopScaling : σ → Except CppException Unit × σ
  resetNorth : σ → Except CppException Unit × σ
  startRotating : σ → Except CppException Unit × σ
  stopRotating : σ → Except CppException Unit × σ
  toggleDebug : σ → Except CppException Unit × σ
  resize3 : Nat → Nat → jfloat → σ → Except CppException Unit × σ
  resize5 : Nat → Nat → jfloat → Nat → Nat → σ → Except CppException Unit × σ
  setDefaultTransitionDuration : Int → σ → Except CppException Unit × σ
  setStyleJSON : (List Nat) → (List Nat) → σ → Except CppException Unit × σ
  moveBy : jdouble → jdouble → jdouble → σ → Except CppException Unit × σ
  setLonLat : jdouble → jdouble → jdouble → σ → Except CppException Unit × σ
  scaleBy : jdouble → jdouble → jdouble → jdouble → σ → Except CppException Unit × σ
  setScale : jdouble → jdouble → jdouble → jdouble → σ → Except CppException Unit × σ
  setZoom : jdouble → jdouble → σ → Except CppException Unit × σ
  setLonLatZoom : jdouble → jdouble → jdouble → jdouble → σ → Except CppException Unit × σ
  rotateBy : jdouble → jdouble → jdouble → jdouble → jdouble → σ → Except CppException Unit × σ
  setBearing2 : jdouble → jdouble → σ → Except CppException Unit × σ
  setBearing3 : jdouble → jdouble → jdouble → σ → Except CppException Unit × σ
  setDebug : Bool → σ → Except CppException Unit × σ
  enableFps : Bool → σ → Except CppException Unit × σ
  setReachability : Bool → σ → Except CppException Unit × σ
  needsSwap : σ → Except CppException Bool × σ
  getDefaultTransitionDuration : σ → Except CppException Int × σ
  getStyleJSON : σ → Except CppException (List Nat) × σ
  getAccessToken : σ → Except CppException (List Nat) × σ
  getLonLat : σ → Except CppException (jdouble × jdouble) × σ
  getLonLatZoom : σ → Except CppException (jdouble × jdouble × jdouble) × σ
  getScale : σ → Except CppException jdouble × σ
  getZoom : σ → Except CppException jdouble × σ
  getMinZoom : σ → Except CppException jdouble × σ
  getMaxZoom : σ → Except CppException jdouble × σ
  getBearing : σ → Except CppException jdouble × σ
  getDebug : σ → Except CppException Bool × σ

/-- The state a bridge operation runs in: the managed runtime, the trace of
the engine calls made so far (oldest first), the live engine instances by
address, and the three global path strings. -/
structure World (σ : Type) where
  env : JNIEnv
  engineLog : List EngineCall
  views : Nat → Option σ
  cachePath : List Nat
  dataPath : List Nat
  apkPath : List Nat

namespace World

/-- The world with the managed runtime in the state `env`. -/
def withEnv {σ : Type} (w : World σ) (env : JNIEnv) : World σ :=
  { w with env := env }

/-- A call `nativeMapView->m(...)` of an engine method on the instance at
`ptr`: the call is recorded, and the state the method leaves is stored; `r` is
what the method does on the state of the instance. -/
def invoke {σ α : Type} (w : World σ) (ptr : Nat) (c : EngineCall)
    (r : Except CppException α × σ) : Except CppException α × World σ :=
  (r.1, { w with engineLog := w.engineLog ++ [c],
                 views := Function.update w.views ptr (some r.2) })

/-- The expression `new NativeMapView(env, obj)`: on success the new instance is
live at the address returned. -/
def construct {σ : Type} (w : World σ) (E : Engine σ) : Except CppException Pointer × World σ :=
  match E.construct with
  | .error e => (.error e, { w with engineLog := w.engineLog ++ [.construct] })
  | .ok (p, s) =>
    (.ok p, { w with engineLog := w.engineLog ++ [.construct],
                     views := Function.update w.views p.addr (some s) })

/-- A world with no live instance, in which nothing has happened and nothing
fails. -/
def fresh (σ : Type) : World σ :=
  { env := JNIEnv.fresh, engineLog := [], views := fun _ => none,
    cachePath := [], dataPath := [], apkPath := [] }

end World

/-- How a bridge operation ends. -/
inductive Outcome (α σ : Type)
  /-- An assertion of the operation failed: the process aborts. -/
  | assertionFailed
  /-- The handle is not the address of a live instance: undefined behaviour. -/
  | undefined
  /-- A native exception left the operation uncaught. -/
  | uncaught (e : CppException)
  /-- The operation returned `ret` to the host. -/
  | returned (ret : α) (w : World σ)

namespace Outcome

/-- The value returned to the host, if the operation returned. -/
def ret {α σ : Type} : Outcome α σ → Option α
  | returned r _ => some r
  | _ => none

/-- The world the operation leaves, if it returned. -/
def world {α σ : Type} : Outcome α σ → Option (World σ)
  | returned _ w => some w
  | _ => none

/-- The runtime calls made up to the return of the operation. -/
def calls {α σ : Type} (o : Outcome α σ) : List JniCall :=
  match o with
  | returned _ w => w.env.calls
  | _ => []

/-- The managed exceptions thrown by `ThrowNew` up to the return of the
operation. -/
def thrown {α σ : Type} (o : Outcome α σ) : List Throwable :=
  match o with
  | returned _ w => w.env.thrown
  | _ => []

/-- The exception pending when the operation returns. -/
def pending {α σ : Type} (o : Outcome α σ) : Option Throwable :=
  match o with
  | returned _ w => w.env.pending
  | _ => none

/-- Whether the operation ended in a failed assertion. -/
def aborted {α σ : Type} : Outcome α σ → Bool
  | assertionFailed => true
  | _ => false

/-- The engine calls made up to the return of the operation. -/
def engineLog {α σ : Type} (o : Outcome α σ) : List EngineCall :=
  match o with
  | returned _ w => w.engineLog
  | _ => []

end Outcome

/-! ## The exception translator (`jni.cpp`, lines 25-32) -/

/-- The macro `CPP_TRY_JNI(ENV, CODE)`: `code` is the statement `CODE`; the result
is `none` when the handler ran, in which case a variable assigned in `CODE`
keeps the value it had. -/
def CPP_TRY_JNI {σ α : Type} (code : World σ → Except CppException α × World σ)
    (w : World σ) : Option α × World σ :=
  match code w with
  | (.ok a, w1) => (some a, w1)
  | (.error e, w1) =>
    (none, w1.withEnv (throw_error w1.env ("Unhandled C++ exception: " ++ e.slicedWhat)).2)

/-- Modelled from the spec: the macro `COFFEE_TRY_JNI(ENV, CODE)` of the
coffeecatch library, the "outer protective boundary" against low-level faults
(signals), which is not in the sources.  In a run without such a fault it
executes `CODE`. -/
def COFFEE_TRY_JNI {σ β : Type} (code : World σ → β) (w : World σ) : β :=
  code w

/-! ## The bridge operations (`jni.cpp`, lines 179-696) -/

/-- `jlong nativeCreate(JNIEnv* env, jobject obj, jstring cachePath_, jstring dataPath_,
jstring apkPath_)`. -/
def nativeCreate {σ : Type} (E : Engine σ) (w : World σ)
    (cachePath_ dataPath_ apkPath_ : jstring) : Outcome Nat σ :=
  match std_string_from_jstring w.env cachePath_ with
  | (.error e, _) => .uncaught e
  | (.ok cachePath, env1) =>
    match std_string_from_jstring env1 dataPath_ with
    | (.error e, _) => .uncaught e
    | (.ok dataPath, env2) =>
      match std_string_from_jstring env2 apkPath_ with
      | (.error e, _) => .uncaught e
      | (.ok apkPath, env3) =>
        let w1 : World σ :=
          { w with env := env3, cachePath := cachePath, dataPath := dataPath, apkPath := apkPath }
        let r := COFFEE_TRY_JNI (CPP_TRY_JNI fun w2 => w2.construct E) w1
        let nativeMapView : Option Pointer := r.1
        match nativeMapView with
        | none =>
          .returned 0 (r.2.withEnv (throw_error r.2.env "Unable to create NativeMapView.").2)
        | some p => .returned p.addr r.2

/-- `void nativeInitializeDisplay(JNIEnv* env, jobject obj, jlong nativeMapViewPtr)`. -/
def nativeInitializeDisplay {σ : Type} (E : Engine σ) (w : World σ) (nativeMapViewPtr : Nat) :
    Outcome Unit σ :=
  if nativeMapViewPtr = 0 then .assertionFailed
  else
    match w.views nativeMapViewPtr with
    | none => .undefined
    | some nativeMapView =>
      let r := COFFEE_TRY_JNI
        (CPP_TRY_JNI fun w1 =>
          w1.invoke nativeMapViewPtr .initializeDisplay (E.initializeDisplay nativeMapView)) w
      let ret : Bool := r.1.getD false
      if !ret then
        .returned () (r.2.withEnv (throw_error r.2.env "Unable to initialize GL display.").2)
      else
        .returned () r.2

/-- `void nativeTerminateDisplay(JNIEnv* env, jobject obj, jlong nativeMapViewPtr)`. -/
def nativeTerminateDisplay {σ : Type} (E : Engine σ) (w : World σ) (nativeMapViewPtr : Nat) :
    Outcome Unit σ :=
  if nativeMapViewPtr = 0 then .assertionFailed
  else
    match w.views nativeMapViewPtr with
    | none => .undefined
    | some nativeMapView =>
      let r := COFFEE_TRY_JNI
        (CPP_TRY_JNI fun w1 =>
          w1.invoke nativeMapViewPtr .terminateDisplay (E.terminateDisplay nativeMapView)) w
      .returned () r.2

/-- `void nativeInitializeContext(JNIEnv* env, jobject obj, jlong nativeMapViewPtr)`. -/
def nativeInitializeContext {σ : Type} (E : Engine σ) (w : World σ) (nativeMapViewPtr : Nat) :
    Outcome Unit σ :=
  if nativeMapViewPtr = 0 then .assertionFailed
  else
    match w.views nativeMapViewPtr with
    | none => .undefined
    | some nativeMapView =>
      let r := COFFEE_TRY_JNI
        (CPP_TRY_JNI fun w1 =>
          w1.invoke nativeMapViewPtr .initializeContext (E.initializeContext nativeMapView)) w
      let ret : Bool := r.1.getD false
      if !ret then
        .returned () (r.2.withEnv (throw_error r.2.env "Unable to initialize GL context.").2)
      else
        .returned () r.2

/-- `void nativeCreateSurface(JNIEnv* env, jobject obj, jlong nativeMapViewPtr, jobject surface)`;
`surface` is an opaque reference, and so is the native window
`ANativeWindow_fromSurface` makes of it. -/
def nativeCreateSurface {σ : Type} (E : Engine σ) (w : World σ) (nativeMapViewPtr : Nat)
    (surface : Option Nat) : Outcome Unit σ :=
  if nativeMapViewPtr = 0 then .assertionFailed
  else
    match w.views nativeMapViewPtr with
    | none => .undefined
    | some nativeMapView =>
      let r := COFFEE_TRY_JNI
        (CPP_TRY_JNI fun w1 =>
          w1.invoke nativeMapViewPtr .createSurface (E.createSurface surface nativeMapView)) w
      let ret : Bool := r.1.getD false
      if !ret then
        .returned () (r.2.withEnv (throw_error r.2.env "Unable to create GL surface.").2)
      else
        .returned () r.2

/-- `void nativeSetAppliedClasses(JNIEnv* env, jobject obj, jlong nativeMapViewPtr,
jobject classes)`. -/
def nativeSetAppliedClasses {σ : Type} (E : Engine σ) (w : World σ) (nativeMapViewPtr : Nat)
    (classes : jlist) : Outcome Unit σ :=
  if nativeMapViewPtr = 0 then .assertionFailed
  else
    match w.views nativeMapViewPtr with
    | none => .undefined
    | some nativeMapView =>
      let r := COFFEE_TRY_JNI
        (CPP_TRY_JNI fun w1 =>
          match std_vector_string_from_jobject w1.env classes with
          | (.error e, env1) => (.error e, w1.withEnv env1)
          | (.ok vector, env1) =>
            (w1.withEnv env1).invoke nativeMapViewPtr (.setAppliedClasses vector)
              (E.setAppliedClasses vector nativeMapView)) w
      .returned () r.2

/-- `jobject nativeGetAppliedClasses(JNIEnv* env, jobject obj, jlong nativeMapViewPtr)`. -/
def nativeGetAppliedClasses {σ : Type} (E : Engine σ) (w : World σ) (nativeMapViewPtr : Nat) :
    Outcome jlist σ :=
  if nativeMapViewPtr = 0 then .assertionFailed
  else
    match w.views nativeMapViewPtr with
    | none => .undefined
    | some nativeMapView =>
      let r := COFFEE_TRY_JNI
        (CPP_TRY_JNI fun w1 =>
          match w1.invoke nativeMapViewPtr .getAppliedClasses
              (E.getAppliedClasses nativeMapView) with
          | (.error e, w2) => (.error e, w2)
          | (.ok vector, w2) =>
            match std_vector_string_to_jobject w2.env vector with
            | (.error e, env1) => (.error e, w2.withEnv env1)
            | (.ok jlist, env1) => (.ok jlist, w2.withEnv env1)) w
      let ret : jlist := r.1.getD none
      .returned ret r.2

/-- `void nativeSetStyleURL(JNIEnv* env, jobject obj, jlong nativeMapViewPtr, jstring url)`. -/
def nativeSetStyleURL {σ : Type} (E : Engine σ) (w : World σ) (nativeMapViewPtr : Nat)
    (url : jstring) : Outcome Unit σ :=
  if nativeMapViewPtr = 0 then .assertionFailed
  else
    match w.views nativeMapViewPtr with
    | none => .undefined
    | some nativeMapView =>
      let r := COFFEE_TRY_JNI
        (CPP_TRY_JNI fun w1 =>
          match std_string_from_jstring w1.env url with
          | (.error e, env1) => (.error e, w1.withEnv env1)
          | (.ok str, env1) =>
            (w1.withEnv env1).invoke nativeMapViewPtr (.setStyleURL str)
              (E.setStyleURL str nativeMapView)) w
      .returned () r.2

/-- `void nativeSetAccessToken(JNIEnv* env, jobject obj, jlong nativeMapViewPtr,
jstring accessToken)`. -/
def nativeSetAccessToken {σ : Type} (E : Engine σ) (w : World σ) (nativeMapViewPtr : Nat)
    (accessToken : jstring) : Outcome Unit σ :=
  if nativeMapViewPtr = 0 then .assertionFailed
  else
    match w.views nativeMapViewPtr with
    | none => .undefined
    | some nativeMapView =>
      let r := COFFEE_TRY_JNI
        (CPP_TRY_JNI fun w1 =>
          match std_string_from_jstring w1.env accessToken with
          | (.error e, env1) => (.error e, w1.withEnv env1)
          | (.ok str, env1) =>
            (w1.withEnv env1).invoke nativeMapViewPtr (.setAccessToken str)
              (E.setAccessToken str nativeMapView)) w
      .returned () r.2

/-! ### The remaining operations

Most operations have the same body: the assertion on the handle, the cast of
the handle to the instance, and one engine call inside
`COFFEE_TRY_JNI(env, CPP_TRY_JNI(env, ...))`. -/

/-- The body of an operation that forwards one engine call and returns nothing:
`assert(nativeMapViewPtr != 0)`, the cast of the handle, and
`COFFEE_TRY_JNI(env, CPP_TRY_JNI(env, nativeMapView->m(...)))`, where `c` names
the call and `m` is what the engine method does. -/
def forward {σ : Type} (w : World σ) (nativeMapViewPtr : Nat) (c : EngineCall)
    (m : σ → Except CppException Unit × σ) : Outcome Unit σ :=
  if nativeMapViewPtr = 0 then .assertionFailed
  else
    match w.views nativeMapViewPtr with
    | none => .undefined
    | some nativeMapView =>
      let r := COFFEE_TRY_JNI
        (CPP_TRY_JNI fun w1 => w1.invoke nativeMapViewPtr c (m nativeMapView)) w
      .returned () r.2

/-- The body of an operation that returns what one engine call gives:
`assert(nativeMapViewPtr != 0)`, the cast of the handle, `T ret = init`,
`COFFEE_TRY_JNI(env, CPP_TRY_JNI(env, ret = nativeMapView->m()))` and
`return ret`. -/
def forwardResult {σ α : Type} (w : World σ) (nativeMapViewPtr : Nat) (c : EngineCall)
    (init : α) (m : σ → Except CppException α × σ) : Outcome α σ :=
  if nativeMapViewPtr = 0 then .assertionFailed
  else
    match w.views nativeMapViewPtr with
    | none => .undefined
    | some nativeMapView =>
      let r := COFFEE_TRY_JNI
        (CPP_TRY_JNI fun w1 => w1.invoke nativeMapViewPtr c (m nativeMapView)) w
      let ret : α := r.1.getD init
      .returned ret r.2

/-- `void nativeDestroy(JNIEnv* env, jobject obj, jlong nativeMapViewPtr)`: the
instance is deleted, and is live no more. -/
def nativeDestroy {σ : Type} (w : World σ) (nativeMapViewPtr : Nat) : Outcome Unit σ :=
  if nativeMapViewPtr = 0 then .assertionFailed
  else
    match w.views nativeMapViewPtr with
    | none => .undefined
    | some _ =>
      .returned () { w with engineLog := w.engineLog ++ [.destroy],
                            views := Function.update w.views nativeMapViewPtr none }

/-- `void nativeTerminateContext(JNIEnv* env, jobject obj, jlong nativeMapViewPtr)`. -/
def nativeTerminateContext {σ : Type} (E : Engine σ) (w : World σ) (nativeMapViewPtr : Nat) :
    Outcome Unit σ :=
  forward w nativeMapViewPtr .terminateContext E.terminateContext

/-- `void nativeDestroySurface(JNIEnv* env, jobject obj, jlong nativeMapViewPtr)`. -/
def nativeDestroySurface {σ : Type} (E : Engine σ) (w : World σ) (nativeMapViewPtr : Nat) :
    Outcome Unit σ :=
  forward w nativeMapViewPtr .destroySurface E.destroySurface

/-- `void nativeStart(JNIEnv* env, jobject obj, jlong nativeMapViewPtr)`. -/
def nativeStart {σ : Type} (E : Engine σ) (w : World σ) (nativeMapViewPtr : Nat) :
    Outcome Unit σ :=
  forward w nativeMapViewPtr .start E.start

/-- `void nativeStop(JNIEnv* env, jobject obj, jlong nativeMapViewPtr)`. -/
def nativeStop {σ : Type} (E : Engine σ) (w : World σ) (nativeMapViewPtr : Nat) :
    Outcome Unit σ :=
  forward w nativeMapViewPtr .stop E.stop

/-- `void nativePause(JNIEnv* env, jobject obj, jlong nativeMapViewPtr)`. -/
def nativePause {σ : Type} (E : Engine σ) (w : World σ) (nativeMapViewPtr : Nat) :
    Outcome Unit σ :=
  forward w nativeMapViewPtr .pause E.pause

/-- `void nativeResume(JNIEnv* env, jobject obj, jlong nativeMapViewPtr)`. -/
def nativeResume {σ : Type} (E : Engine σ) (w : World σ) (nativeMapViewPtr : Nat) :
    Outcome Unit σ :=
  forward w nativeMapViewPtr .resume E.resume

/-- `void nativeRun(JNIEnv* env, jobject obj, jlong nativeMapViewPtr)`. -/
def nativeRun {σ : Type} (E : Engine σ) (w : World σ) (nativeMapViewPtr : Nat) :
    Outcome Unit σ :=
  forward w nativeMapViewPtr .run E.run

/-- `void nativeRerender(JNIEnv* env, jobject obj, jlong nativeMapViewPtr)`. -/
def nativeRerender {σ : Type} (E : Engine σ) (w : World σ) (nativeMapViewPtr : Nat) :
    Outcome Unit σ :=
  forward w nativeMapViewPtr .rerender E.rerender

/-- `void nativeUpdate(JNIEnv* env, jobject obj, jlong nativeMapViewPtr)`. -/
def nativeUpdate {σ : Type} (E : Engine σ) (w : World σ) (nativeMapViewPtr : Nat) :
    Outcome Unit σ :=
  forward w nativeMapViewPtr .update E.update

/-- `void nativeTerminate(JNIEnv* env, jobject obj, jlong nativeMapViewPtr)`. -/
def nativeTerminate {σ : Type} (E : Engine σ) (w : World σ) (nativeMapViewPtr : Nat) :
    Outcome Unit σ :=
  forward w nativeMapViewPtr .terminate E.terminate

/-- `jboolean nativeNeedsSwap(JNIEnv* env, jobject obj, jlong nativeMapViewPtr)`. -/
def nativeNeedsSwap {σ : Type} (E : Engine σ) (w : World σ) (nativeMapViewPtr : Nat) :
    Outcome Bool σ :=
  forwardResult w nativeMapViewPtr .needsSwap false E.needsSwap

/-- `void nativeSwapped(JNIEnv* env, jobject obj, jlong nativeMapViewPtr)`. -/
def nativeSwapped {σ : Type} (E : Engine σ) (w : World σ) (nativeMapViewPtr : Nat) :
    Outcome Unit σ :=
  forward w nativeMapViewPtr .swapped E.swapped

/-- Modelled from the spec: the conversion of a `jint` to the 16-bit unsigned
type of the engine's `resize` parameters ("width/height constrained to a 16-bit
unsigned range"); the declaration of `resize` is not in the sources. -/
def toUint16 (x : Int) : Nat :=
  (x % 65536).toNat

/-- `void nativeResize(JNIEnv* env, jobject obj, jlong nativeMapViewPtr, jint width,
jint height, jfloat ratio)`, the overload with three arguments after the
handle. -/
def nativeResize_JIIF {σ : Type} (E : Engine σ) (w : World σ) (nativeMapViewPtr : Nat)
    (width height : Int) (ratio : jfloat) : Outcome Unit σ :=
  if nativeMapViewPtr = 0 then .assertionFailed
  else if ¬ (width ≥ 0) then .assertionFailed
  else if ¬ (height ≥ 0) then .assertionFailed
  else if ¬ (width ≤ 65535) then .assertionFailed
  else if ¬ (height ≤ 65535) then .assertionFailed
  else
    forward w nativeMapViewPtr (.resize3 (toUint16 width) (toUint16 height) ratio)
      (E.resize3 (toUint16 width) (toUint16 height) ratio)

/-- `void nativeResize(JNIEnv* env, jobject obj, jlong nativeMapViewPtr, jint width,
jint height, jfloat ratio, jint fbWidth, jint fbHeight)`, the overload with five
arguments after the handle. -/
def nativeResize_JIIFII {σ : Type} (E : Engine σ) (w : World σ) (nativeMapViewPtr : Nat)
    (width height : Int) (ratio : jfloat) (fbWidth fbHeight : Int) : Outcome Unit σ :=
  if nativeMapViewPtr = 0 then .assertionFailed
  else if ¬ (width ≥ 0) then .assertionFailed
  else if ¬ (height ≥ 0) then .assertionFailed
  else if ¬ (width ≤ 65535) then .assertionFailed
  else if ¬ (height ≤ 65535) then .assertionFailed
  else if ¬ (fbWidth ≥ 0) then .assertionFailed
  else if ¬ (fbHeight ≥ 0) then .assertionFailed
  else if ¬ (fbWidth ≤ 65535) then .assertionFailed
  else if ¬ (fbHeight ≤ 65535) then .assertionFailed
  else
    forward w nativeMapViewPtr
      (.resize5 (toUint16 width) (toUint16 height) ratio (toUint16 fbWidth) (toUint16 fbHeight))
      (E.resize5 (toUint16 width) (toUint16 height) ratio (toUint16 fbWidth)
        (toUint16 fbHeight))

/-- `void nativeSetDefaultTransitionDuration(JNIEnv* env, jobject obj,
jlong nativeMapViewPtr, jlong milliseconds)`. -/
def nativeSetDefaultTransitionDuration {σ : Type} (E : Engine σ) (w : World σ)
    (nativeMapViewPtr : Nat) (milliseconds : Int) : Outcome Unit σ :=
  if nativeMapViewPtr = 0 then .assertionFailed
  else if ¬ (milliseconds ≥ 0) then .assertionFailed
  else
    forward w nativeMapViewPtr (.setDefaultTransitionDuration milliseconds)
      (E.setDefaultTransitionDuration milliseconds)

/-- `jlong nativeGetDefaultTransitionDuration(JNIEnv* env, jobject obj, jlong nativeMapViewPtr)`. -/
def nativeGetDefaultTransitionDuration {σ : Type} (E : Engine σ) (w : World σ) (nativeMapViewPtr : Nat) :
    Outcome Int σ :=
  forwardResult w nativeMapViewPtr .getDefaultTransitionDuration 0 E.getDefaultTransitionDuration

/-- `void nativeSetStyleJSON(JNIEnv* env, jobject obj, jlong nativeMapViewPtr,
jstring newStyleJson, jstring base)`.  C++ leaves the order in which the two
arguments of `setStyleJSON` are evaluated open; here `newStyleJson` is
imported first. -/
def nativeSetStyleJSON {σ : Type} (E : Engine σ) (w : World σ) (nativeMapViewPtr : Nat)
    (newStyleJson base : jstring) : Outcome Unit σ :=
  if nativeMapViewPtr = 0 then .assertionFailed
  else
    match w.views nativeMapViewPtr with
    | none => .undefined
    | some nativeMapView =>
      let r := COFFEE_TRY_JNI
        (CPP_TRY_JNI fun w1 =>
          match std_string_from_jstring w1.env newStyleJson with
          | (.error e, env1) => (.error e, w1.withEnv env1)
          | (.ok json, env1) =>
            match std_string_from_jstring env1 base with
            | (.error e, env2) => (.error e, w1.withEnv env2)
            | (.ok baseStr, env2) =>
              (w1.withEnv env2).invoke nativeMapViewPtr (.setStyleJSON json baseStr)
                (E.setStyleJSON json baseStr nativeMapView)) w
      .returned () r.2

/-- The body of `nativeGetStyleJSON` and `nativeGetAccessToken`: `jstring ret =
nullptr`, then `ret = std_string_to_jstring(env, nativeMapView->m())` inside the
handlers, and `return ret`. -/
def forwardString {σ : Type} (w : World σ) (nativeMapViewPtr : Nat) (c : EngineCall)
    (m : σ → Except CppException (List Nat) × σ) : Outcome jstring σ :=
  if nativeMapViewPtr = 0 then .assertionFailed
  else
    match w.views nativeMapViewPtr with
    | none => .undefined
    | some nativeMapView =>
      let r := COFFEE_TRY_JNI
        (CPP_TRY_JNI fun w1 =>
          match w1.invoke nativeMapViewPtr c (m nativeMapView) with
          | (.error e, w2) => (.error e, w2)
          | (.ok str, w2) =>
            match std_string_to_jstring w2.env str with
            | (.error e, env1) => (.error e, w2.withEnv env1)
            | (.ok jstr, env1) => (.ok jstr, w2.withEnv env1)) w
      let ret : jstring := r.1.getD none
      .returned ret r.2

/-- `jstring nativeGetStyleJSON(JNIEnv* env, jobject obj, jlong nativeMapViewPtr)`. -/
def nativeGetStyleJSON {σ : Type} (E : Engine σ) (w : World σ) (nativeMapViewPtr : Nat) :
    Outcome jstring σ :=
  forwardString w nativeMapViewPtr .getStyleJSON E.getStyleJSON

/-- `jstring nativeGetAccessToken(JNIEnv* env, jobject obj, jlong nativeMapViewPtr)`. -/
def nativeGetAccessToken {σ : Type} (E : Engine σ) (w : World σ) (nativeMapViewPtr : Nat) :
    Outcome jstring σ :=
  forwardString w nativeMapViewPtr .getAccessToken E.getAccessToken

/-- `void nativeCancelTransitions(JNIEnv* env, jobject obj, jlong nativeMapViewPtr)`. -/
def nativeCancelTransitions {σ : Type} (E : Engine σ) (w : World σ) (nativeMapViewPtr : Nat) :
    Outcome Unit σ :=
  forward w nativeMapViewPtr .cancelTransitions E.cancelTransitions

/-- `void nativeMoveBy(JNIEnv* env, jobject obj, jlong nativeMapViewPtr, jdouble dx, jdouble dy, jdouble duration)`. -/
def nativeMoveBy {σ : Type} (E : Engine σ) (w : World σ) (nativeMapViewPtr : Nat) (dx : jdouble) (dy : jdouble) (duration : jdouble) :
    Outcome Unit σ :=
  forward w nativeMapViewPtr (.moveBy dx dy duration) (E.moveBy dx dy duration)

/-- A managed `LonLat` value object. -/
structure LonLat where
  lon : jdouble
  lat : jdouble
  deriving DecidableEq

/-- A managed `LonLatZoom` value object. -/
structure LonLatZoom where
  lon : jdouble
  lat : jdouble
  zoom : jdouble
  deriving DecidableEq

/-- `env->GetDoubleField(obj, fieldId)` on a non-null object whose field holds
`value`: the value, or 0 with an exception pending when the access fails. -/
def GetDoubleField (env : JNIEnv) (value : jdouble) : jdouble × JNIEnv :=
  let env1 := env.log .GetDoubleField
  match env1.outcome with
  | none => (value, env1.advance)
  | some _ => (0, env1.advance)

/-- `env->NewObject(lonLatClass, lonLatConstructorId, lon, lat)`: a new managed
`LonLat`, or null when the construction fails. -/
def NewObjectLonLat (env : JNIEnv) (lon lat : jdouble) : Option LonLat × JNIEnv :=
  let env1 := env.log (.NewObjectLonLat lon lat)
  match env1.outcome with
  | none => (some { lon := lon, lat := lat }, env1.advance)
  | some _ => (none, env1.advance)

/-- `env->NewObject(lonLatZoomClass, lonLatZoomConstructorId, lon, lat, zoom)`: a
new managed `LonLatZoom`, or null when the construction fails. -/
def NewObjectLonLatZoom (env : JNIEnv) (lon lat zoom : jdouble) :
    Option LonLatZoom × JNIEnv :=
  let env1 := env.log (.NewObjectLonLatZoom lon lat zoom)
  match env1.outcome with
  | none => (some { lon := lon, lat := lat, zoom := zoom }, env1.advance)
  | some _ => (none, env1.advance)

/-- `void nativeSetLonLat(JNIEnv* env, jobject obj, jlong nativeMapViewPtr, jobject lonLat,
jdouble duration)`.  A field access on the null reference is undefined
behaviour. -/
def nativeSetLonLat {σ : Type} (E : Engine σ) (w : World σ) (nativeMapViewPtr : Nat)
    (lonLat : Option LonLat) (duration : jdouble) : Outcome Unit σ :=
  if nativeMapViewPtr = 0 then .assertionFailed
  else
    match w.views nativeMapViewPtr, lonLat with
    | none, _ => .undefined
    | some _, none => .undefined
    | some nativeMapView, some object =>
      let lon := GetDoubleField w.env object.lon
      let check1 := ExceptionCheck lon.2
      if check1.1 then
        .returned () (w.withEnv (ExceptionDescribe check1.2))
      else
        let lat := GetDoubleField check1.2 object.lat
        let check2 := ExceptionCheck lat.2
        if check2.1 then
          .returned () (w.withEnv (ExceptionDescribe check2.2))
        else
          let r := COFFEE_TRY_JNI
            (CPP_TRY_JNI fun w1 =>
              w1.invoke nativeMapViewPtr (.setLonLat lon.1 lat.1 duration)
                (E.setLonLat lon.1 lat.1 duration nativeMapView)) (w.withEnv check2.2)
          .returned () r.2

/-- `jobject nativeGetLonLat(JNIEnv* env, jobject obj, jlong nativeMapViewPtr)`. -/
def nativeGetLonLat {σ : Type} (E : Engine σ) (w : World σ) (nativeMapViewPtr : Nat) :
    Outcome (Option LonLat) σ :=
  if nativeMapViewPtr = 0 then .assertionFailed
  else
    match w.views nativeMapViewPtr with
    | none => .undefined
    | some nativeMapView =>
      let r := COFFEE_TRY_JNI
        (CPP_TRY_JNI fun w1 =>
          w1.invoke nativeMapViewPtr .getLonLat (E.getLonLat nativeMapView)) w
      let lonLat : jdouble × jdouble := r.1.getD (0, 0)
      let ret := NewObjectLonLat r.2.env lonLat.1 lonLat.2
      match ret.1 with
      | none => .returned none (r.2.withEnv (ExceptionDescribe ret.2))
      | some object => .returned (some object) (r.2.withEnv ret.2)

/-- `void nativeStartPanning(JNIEnv* env, jobject obj, jlong nativeMapViewPtr)`. -/
def nativeStartPanning {σ : Type} (E : Engine σ) (w : World σ) (nativeMapViewPtr : Nat) :
    Outcome Unit σ :=
  forward w nativeMapViewPtr .startPanning E.startPanning

/-- `void nativeStopPanning(JNIEnv* env, jobject obj, jlong nativeMapViewPtr)`. -/
def nativeStopPanning {σ : Type} (E : Engine σ) (w : World σ) (nativeMapViewPtr : Nat) :
    Outcome Unit σ :=
  forward w nativeMapViewPtr .stopPanning E.stopPanning

/-- `void nativeResetPosition(JNIEnv* env, jobject obj, jlong nativeMapViewPtr)`. -/
def nativeResetPosition {σ : Type} (E : Engine σ) (w : World σ) (nativeMapViewPtr : Nat) :
    Outcome Unit σ :=
  forward w nativeMapViewPtr .resetPosition E.resetPosition

/-- `void nativeScaleBy(JNIEnv* env, jobject obj, jlong nativeMapViewPtr, jdouble ds, jdouble cx, jdouble cy, jdouble duration)`. -/
def nativeScaleBy {σ : Type} (E : Engine σ) (w : World σ) (nativeMapViewPtr : Nat) (ds : jdouble) (cx : jdouble) (cy : jdouble) (duration : jdouble) :
    Outcome Unit σ :=
  forward w nativeMapViewPtr (.scaleBy ds cx cy duration) (E.scaleBy ds cx cy duration)

/-- `void nativeSetScale(JNIEnv* env, jobject obj, jlong nativeMapViewPtr, jdouble scale, jdouble cx, jdouble cy, jdouble duration)`. -/
def nativeSetScale {σ : Type} (E : Engine σ) (w : World σ) (nativeMapViewPtr : Nat) (scale : jdouble) (cx : jdouble) (cy : jdouble) (duration : jdouble) :
    Outcome Unit σ :=
  forward w nativeMapViewPtr (.setScale scale cx cy duration) (E.setScale scale cx cy duration)

/-- `jdouble nativeGetScale(JNIEnv* env, jobject obj, jlong nativeMapViewPtr)`. -/
def nativeGetScale {σ : Type} (E : Engine σ) (w : World σ) (nativeMapViewPtr : Nat) :
    Outcome jdouble σ :=
  forwardResult w nativeMapViewPtr .getScale 0 E.getScale

/-- `void nativeSetZoom(JNIEnv* env, jobject obj, jlong nativeMapViewPtr, jdouble zoom, jdouble duration)`. -/
def nativeSetZoom {σ : Type} (E : Engine σ) (w : World σ) (nativeMapViewPtr : Nat) (zoom : jdouble) (duration : jdouble) :
    Outcome Unit σ :=
  forward w nativeMapViewPtr (.setZoom zoom duration) (E.setZoom zoom duration)

/-- `jdouble nativeGetZoom(JNIEnv* env, jobject obj, jlong nativeMapViewPtr)`. -/
def nativeGetZoom {σ : Type} (E : Engine σ) (w : World σ) (nativeMapViewPtr : Nat) :
    Outcome jdouble σ :=
  forwardResult w nativeMapViewPtr .getZoom 0 E.getZoom

/-- `void nativeSetLonLatZoom(JNIEnv* env, jobject obj, jlong nativeMapViewPtr,
jobject lonLatZoom, jdouble duration)`.  A field access on the null reference is
undefined behaviour. -/
def nativeSetLonLatZoom {σ : Type} (E : Engine σ) (w : World σ) (nativeMapViewPtr : Nat)
    (lonLatZoom : Option LonLatZoom) (duration : jdouble) : Outcome Unit σ :=
  if nativeMapViewPtr = 0 then .assertionFailed
  else
    match w.views nativeMapViewPtr, lonLatZoom with
    | none, _ => .undefined
    | some _, none => .undefined
    | some nativeMapView, some object =>
      let lon := GetDoubleField w.env object.lon
      let check1 := ExceptionCheck lon.2
      if check1.1 then
        .returned () (w.withEnv (ExceptionDescribe check1.2))
      else
        let lat := GetDoubleField check1.2 object.lat
        let check2 := ExceptionCheck lat.2
        if check2.1 then
          .returned () (w.withEnv (ExceptionDescribe check2.2))
        else
          let zoom := GetDoubleField check2.2 object.zoom
          let check3 := ExceptionCheck zoom.2
          if check3.1 then
            .returned () (w.withEnv (ExceptionDescribe check3.2))
          else
            let r := COFFEE_TRY_JNI
              (CPP_TRY_JNI fun w1 =>
                w1.invoke nativeMapViewPtr (.setLonLatZoom lon.1 lat.1 zoom.1 duration)
                  (E.setLonLatZoom lon.1 lat.1 zoom.1 duration nativeMapView))
              (w.withEnv check3.2)
            .returned () r.2

/-- `jobject nativeGetLonLatZoom(JNIEnv* env, jobject obj, jlong nativeMapViewPtr)`. -/
def nativeGetLonLatZoom {σ : Type} (E : Engine σ) (w : World σ) (nativeMapViewPtr : Nat) :
    Outcome (Option LonLatZoom) σ :=
  if nativeMapViewPtr = 0 then .assertionFailed
  else
    match w.views nativeMapViewPtr with
    | none => .undefined
    | some nativeMapView =>
      let r := COFFEE_TRY_JNI
        (CPP_TRY_JNI fun w1 =>
          w1.invoke nativeMapViewPtr .getLonLatZoom (E.getLonLatZoom nativeMapView)) w
      let lonLatZoom : jdouble × jdouble × jdouble := r.1.getD (0, 0, 0)
      let ret := NewObjectLonLatZoom r.2.env lonLatZoom.1 lonLatZoom.2.1 lonLatZoom.2.2
      match ret.1 with
      | none => .returned none (r.2.withEnv (ExceptionDescribe ret.2))
      | some object => .returned (some object) (r.2.withEnv ret.2)

/-- `void nativeResetZoom(JNIEnv* env, jobject obj, jlong nativeMapViewPtr)`. -/
def nativeResetZoom {σ : Type} (E : Engine σ) (w : World σ) (nativeMapViewPtr : Nat) :
    Outcome Unit σ :=
  forward w nativeMapViewPtr .resetZoom E.resetZoom

/-- `void nativeStartScaling(JNIEnv* env, jobject obj, jlong nativeMapViewPtr)`. -/
def nativeStartScaling {σ : Type} (E : Engine σ) (w : World σ) (nativeMapViewPtr : Nat) :
    Outcome Unit σ :=
  forward w nativeMapViewPtr .startScaling E.startScaling

/-- `void nativeStopScaling(JNIEnv* env, jobject obj, jlong nativeMapViewPtr)`. -/
def nativeStopScaling {σ : Type} (E : Engine σ) (w : World σ) (nativeMapViewPtr : Nat) :
    Outcome Unit σ :=
  forward w nativeMapViewPtr .stopScaling E.stopScaling

/-- `jdouble nativeGetMinZoom(JNIEnv* env, jobject obj, jlong nativeMapViewPtr)`. -/
def nativeGetMinZoom {σ : Type} (E : Engine σ) (w : World σ) (nativeMapViewPtr : Nat) :
    Outcome jdouble σ :=
  forwardResult w nativeMapViewPtr .getMinZoom 0 E.getMinZoom

/-- `jdouble nativeGetMaxZoom(JNIEnv* env, jobject obj, jlong nativeMapViewPtr)`. -/
def nativeGetMaxZoom {σ : Type} (E : Engine σ) (w : World σ) (nativeMapViewPtr : Nat) :
    Outcome jdouble σ :=
  forwardResult w nativeMapViewPtr .getMaxZoom 0 E.getMaxZoom

/-- `void nativeRotateBy(JNIEnv* env, jobject obj, jlong nativeMapViewPtr, jdouble sx, jdouble sy, jdouble ex, jdouble ey, jdouble duration)`. -/
def nativeRotateBy {σ : Type} (E : Engine σ) (w : World σ) (nativeMapViewPtr : Nat) (sx : jdouble) (sy : jdouble) (ex : jdouble) (ey : jdouble) (duration : jdouble) :
    Outcome Unit σ :=
  forward w nativeMapViewPtr (.rotateBy sx sy ex ey duration) (E.rotateBy sx sy ex ey duration)

/-- `void nativeSetBearing(JNIEnv* env, jobject obj, jlong nativeMapViewPtr, jdouble degrees, jdouble duration)`, the overload with two
arguments after the handle. -/
def nativeSetBearing_JDD {σ : Type} (E : Engine σ) (w : World σ) (nativeMapViewPtr : Nat) (degrees : jdouble) (duration : jdouble) :
    Outcome Unit σ :=
  forward w nativeMapViewPtr (.setBearing2 degrees duration) (E.setBearing2 degrees duration)

/-- `void nativeSetBearing(JNIEnv* env, jobject obj, jlong nativeMapViewPtr, jdouble degrees, jdouble cx, jdouble cy)`, the overload with three
arguments after the handle. -/
def nativeSetBearing_JDDD {σ : Type} (E : Engine σ) (w : World σ) (nativeMapViewPtr : Nat) (degrees : jdouble) (cx : jdouble) (cy : jdouble) :
    Outcome Unit σ :=
  forward w nativeMapViewPtr (.setBearing3 degrees cx cy) (E.setBearing3 degrees cx cy)

/-- `jdouble nativeGetBearing(JNIEnv* env, jobject obj, jlong nativeMapViewPtr)`. -/
def nativeGetBearing {σ : Type} (E : Engine σ) (w : World σ) (nativeMapViewPtr : Nat) :
    Outcome jdouble σ :=
  forwardResult w nativeMapViewPtr .getBearing 0 E.getBearing

/-- `void nativeResetNorth(JNIEnv* env, jobject obj, jlong nativeMapViewPtr)`. -/
def nativeResetNorth {σ : Type} (E : Engine σ) (w : World σ) (nativeMapViewPtr : Nat) :
    Outcome Unit σ :=
  forward w nativeMapViewPtr .resetNorth E.resetNorth

/-- `void nativeStartRotating(JNIEnv* env, jobject obj, jlong nativeMapViewPtr)`. -/
def nativeStartRotating {σ : Type} (E : Engine σ) (w : World σ) (nativeMapViewPtr : Nat) :
    Outcome Unit σ :=
  forward w nativeMapViewPtr .startRotating E.startRotating

/-- `void nativeStopRotating(JNIEnv* env, jobject obj, jlong nativeMapViewPtr)`. -/
def nativeStopRotating {σ : Type} (E : Engine σ) (w : World σ) (nativeMapViewPtr : Nat) :
    Outcome Unit σ :=
  forward w nativeMapViewPtr .stopRotating E.stopRotating

/-- `void nativeSetDebug(JNIEnv* env, jobject obj, jlong nativeMapViewPtr, jboolean debug)`:
inside the handlers, `setDebug(debug)` and then `enableFps(debug)`. -/
def nativeSetDebug {σ : Type} (E : Engine σ) (w : World σ) (nativeMapViewPtr : Nat)
    (debug : Bool) : Outcome Unit σ :=
  if nativeMapViewPtr = 0 then .assertionFailed
  else
    match w.views nativeMapViewPtr with
    | none => .undefined
    | some nativeMapView =>
      let r := COFFEE_TRY_JNI
        (CPP_TRY_JNI fun w1 =>
          let set := E.setDebug debug nativeMapView
          match w1.invoke nativeMapViewPtr (.setDebug debug) set with
          | (.error e, w2) => (.error e, w2)
          | (.ok _, w2) => w2.invoke nativeMapViewPtr (.enableFps debug) (E.enableFps debug set.2)) w
      .returned () r.2

/-- `void nativeToggleDebug(JNIEnv* env, jobject obj, jlong nativeMapViewPtr)`: inside the
handlers, `toggleDebug()` and then `enableFps(getDebug())`. -/
def nativeToggleDebug {σ : Type} (E : Engine σ) (w : World σ) (nativeMapViewPtr : Nat) :
    Outcome Unit σ :=
  if nativeMapViewPtr = 0 then .assertionFailed
  else
    match w.views nativeMapViewPtr with
    | none => .undefined
    | some nativeMapView =>
      let r := COFFEE_TRY_JNI
        (CPP_TRY_JNI fun w1 =>
          let toggle := E.toggleDebug nativeMapView
          match w1.invoke nativeMapViewPtr .toggleDebug toggle with
          | (.error e, w2) => (.error e, w2)
          | (.ok _, w2) =>
            let get := E.getDebug toggle.2
            match w2.invoke nativeMapViewPtr .getDebug get with
            | (.error e, w3) => (.error e, w3)
            | (.ok debug, w3) =>
              w3.invoke nativeMapViewPtr (.enableFps debug) (E.enableFps debug get.2)) w
      .returned () r.2

/-- `jboolean nativeGetDebug(JNIEnv* env, jobject obj, jlong nativeMapViewPtr)`. -/
def nativeGetDebug {σ : Type} (E : Engine σ) (w : World σ) (nativeMapViewPtr : Nat) :
    Outcome Bool σ :=
  forwardResult w nativeMapViewPtr .getDebug false E.getDebug

/-- `void nativeSetReachability(JNIEnv* env, jobject obj, jlong nativeMapViewPtr, jboolean status)`. -/
def nativeSetReachability {σ : Type} (E : Engine σ) (w : World σ) (nativeMapViewPtr : Nat) (status : Bool) :
    Outcome Unit σ :=
  forward w nativeMapViewPtr (.setReachability status) (E.setReachability status)

/-! ## The call dispatch table (`jni.cpp`, lines 829-889) -/

/-- The C types of the parameters and results of the handlers. -/
inductive CType
  | jlong
  | jint
  | jfloat
  | jdouble
  | jboolean
  | jstring
  | jobject
  | void
  deriving DecidableEq

/-- The types a signature string denotes: `J` a 64-bit integer, `I` a 32-bit
integer, `F` a float, `D` a double, `Z` a boolean, `L...;` an object reference,
`V` void. -/
inductive JType
  | long
  | int
  | float
  | double
  | boolean
  | object
  | void
  deriving DecidableEq

/-- What a C type of a handler is on the managed side; `jstring` and `jobject`
are object references. -/
def CType.jtype : CType → JType
  | .jlong => .long
  | .jint => .int
  | .jfloat => .float
  | .jdouble => .double
  | .jboolean => .boolean
  | .jstring => .object
  | .jobject => .object
  | .void => .void

/-- Decodes a sequence of type descriptors; the flag tells whether the
characters read are inside a class name `L...;`. -/
def decodeTypes : Bool → List Char → Option (List JType)
  | false, [] => some []
  | true, [] => none
  | true, c :: rest => if c = ';' then decodeTypes false rest else decodeTypes true rest
  | false, c :: rest =>
    if c = 'J' then (decodeTypes false rest).map (fun ts => .long :: ts)
    else if c = 'I' then (decodeTypes false rest).map (fun ts => .int :: ts)
    else if c = 'F' then (decodeTypes false rest).map (fun ts => .float :: ts)
    else if c = 'D' then (decodeTypes false rest).map (fun ts => .double :: ts)
    else if c = 'Z' then (decodeTypes false rest).map (fun ts => .boolean :: ts)
    else if c = 'V' then (decodeTypes false rest).map (fun ts => .void :: ts)
    else if c = 'L' then (decodeTypes true rest).map (fun ts => .object :: ts)
    else none

/-- Decodes a method signature `(parameters)result`: the types of the
parameters, none of them void, and the type of the result. -/
def decodeSignature (signature : String) : Option (List JType × JType) :=
  match signature.toList with
  | '(' :: rest =>
    match decodeTypes false (rest.takeWhile fun c => c ≠ ')'),
          decodeTypes false ((rest.dropWhile fun c => c ≠ ')').drop 1) with
    | some params, some [result] => if JType.void ∈ params then none else some (params, result)
    | _, _ => none
  | _ => none

/-- A pointer to a handler, by the type of the function it points to. -/
inductive Fn (σ : Type)
  /-- A function `jlong (*)(JNIEnv*, jobject, jstring, jstring, jstring)`. -/
  | create (f : Engine σ → World σ → jstring → jstring → jstring → Outcome Nat σ)
  /-- A function `void (*)(JNIEnv*, jobject, jlong)`. -/
  | handle (f : Engine σ → World σ → Nat → Outcome Unit σ)
  /-- A function `void (*)(JNIEnv*, jobject, jlong, jobject)`, the object a surface. -/
  | surface (f : Engine σ → World σ → Nat → Option Nat → Outcome Unit σ)
  /-- A function `void (*)(JNIEnv*, jobject, jlong, jobject)`, the object a list. -/
  | setList (f : Engine σ → World σ → Nat → jlist → Outcome Unit σ)
  /-- A function `jobject (*)(JNIEnv*, jobject, jlong)`, the object a list. -/
  | getList (f : Engine σ → World σ → Nat → Outcome jlist σ)
  /-- A function `jboolean (*)(JNIEnv*, jobject, jlong)`. -/
  | getBoolean (f : Engine σ → World σ → Nat → Outcome Bool σ)
  /-- A function `void (*)(JNIEnv*, jobject, jlong, jboolean)`. -/
  | setBoolean (f : Engine σ → World σ → Nat → Bool → Outcome Unit σ)
  /-- A function `void (*)(JNIEnv*, jobject, jlong, jint, jint, jfloat)`. -/
  | resize3 (f : Engine σ → World σ → Nat → Int → Int → jfloat → Outcome Unit σ)
  /-- A function `void (*)(JNIEnv*, jobject, jlong, jint, jint, jfloat, jint, jint)`. -/
  | resize5 (f : Engine σ → World σ → Nat → Int → Int → jfloat → Int → Int → Outcome Unit σ)
  /-- A function `void (*)(JNIEnv*, jobject, jlong, jlong)`. -/
  | setLong (f : Engine σ → World σ → Nat → Int → Outcome Unit σ)
  /-- A function `jlong (*)(JNIEnv*, jobject, jlong)`. -/
  | getLong (f : Engine σ → World σ → Nat → Outcome Int σ)
  /-- A function `void (*)(JNIEnv*, jobject, jlong, jstring)`. -/
  | setString (f : Engine σ → World σ → Nat → jstring → Outcome Unit σ)
  /-- A function `void (*)(JNIEnv*, jobject, jlong, jstring, jstring)`. -/
  | setString2 (f : Engine σ → World σ → Nat → jstring → jstring → Outcome Unit σ)
  /-- A function `jstring (*)(JNIEnv*, jobject, jlong)`. -/
  | getString (f : Engine σ → World σ → Nat → Outcome jstring σ)
  /-- A function `void (*)(JNIEnv*, jobject, jlong, jobject, jdouble)`, the object a `LonLat`. -/
  | setLonLat (f : Engine σ → World σ → Nat → Option LonLat → jdouble → Outcome Unit σ)
  /-- A function `jobject (*)(JNIEnv*, jobject, jlong)`, the object a `LonLat`. -/
  | getLonLat (f : Engine σ → World σ → Nat → Outcome (Option LonLat) σ)
  /-- A function `void (*)(JNIEnv*, jobject, jlong, jobject, jdouble)`, the object a `LonLatZoom`. -/
  | setLonLatZoom (f : Engine σ → World σ → Nat → Option LonLatZoom → jdouble → Outcome Unit σ)
  /-- A function `jobject (*)(JNIEnv*, jobject, jlong)`, the object a `LonLatZoom`. -/
  | getLonLatZoom (f : Engine σ → World σ → Nat → Outcome (Option LonLatZoom) σ)
  /-- A function `jdouble (*)(JNIEnv*, jobject, jlong)`. -/
  | getDouble (f : Engine σ → World σ → Nat → Outcome jdouble σ)
  /-- A function `void (*)(JNIEnv*, jobject, jlong, jdouble, jdouble)`. -/
  | double2 (f : Engine σ → World σ → Nat → jdouble → jdouble → Outcome Unit σ)
  /-- A function `void (*)(JNIEnv*, jobject, jlong, jdouble, jdouble, jdouble)`. -/
  | double3 (f : Engine σ → World σ → Nat → jdouble → jdouble → jdouble → Outcome Unit σ)
  /-- A function `void (*)(JNIEnv*, jobject, jlong, jdouble, jdouble, jdouble, jdouble)`. -/
  | double4 (f : Engine σ → World σ → Nat → jdouble → jdouble → jdouble → jdouble → Outcome Unit σ)
  /-- A function `void (*)(JNIEnv*, jobject, jlong, jdouble, jdouble, jdouble, jdouble, jdouble)`. -/
  | double5 (f : Engine σ → World σ → Nat → jdouble → jdouble → jdouble → jdouble → jdouble → Outcome Unit σ)

/-- The parameter types, after the two fixed leading parameters `JNIEnv*` and
`jobject`, and the result type of the function a pointer points to. -/
def Fn.ctype {σ : Type} : Fn σ → List CType × CType
  | .create _ => ([.jstring, .jstring, .jstring], .jlong)
  | .handle _ => ([.jlong], .void)
  | .surface _ => ([.jlong, .jobject], .void)
  | .setList _ => ([.jlong, .jobject], .void)
  | .getList _ => ([.jlong], .jobject)
  | .getBoolean _ => ([.jlong], .jboolean)
  | .setBoolean _ => ([.jlong, .jboolean], .void)
  | .resize3 _ => ([.jlong, .jint, .jint, .jfloat], .void)
  | .resize5 _ => ([.jlong, .jint, .jint, .jfloat, .jint, .jint], .void)
  | .setLong _ => ([.jlong, .jlong], .void)
  | .getLong _ => ([.jlong], .jlong)
  | .setString _ => ([.jlong, .jstring], .void)
  | .setString2 _ => ([.jlong, .jstring, .jstring], .void)
  | .getString _ => ([.jlong], .jstring)
  | .setLonLat _ => ([.jlong, .jobject, .jdouble], .void)
  | .getLonLat _ => ([.jlong], .jobject)
  | .setLonLatZoom _ => ([.jlong, .jobject, .jdouble], .void)
  | .getLonLatZoom _ => ([.jlong], .jobject)
  | .getDouble _ => ([.jlong], .jdouble)
  | .double2 _ => ([.jlong, .jdouble, .jdouble], .void)
  | .double3 _ => ([.jlong, .jdouble, .jdouble, .jdouble], .void)
  | .double4 _ => ([.jlong, .jdouble, .jdouble, .jdouble, .jdouble], .void)
  | .double5 _ => ([.jlong, .jdouble, .jdouble, .jdouble, .jdouble, .jdouble], .void)

/-- The handlers: the native functions of lines 179-696; the overloads of
`nativeResize` and `nativeSetBearing` are told apart by their parameter types. -/
inductive Handler
  | nativeCreate
  | nativeDestroy
  | nativeInitializeDisplay
  | nativeTerminateDisplay
  | nativeInitializeContext
  | nativeTerminateContext
  | nativeCreateSurface
  | nativeDestroySurface
  | nativeStart
  | nativeStop
  | nativePause
  | nativeResume
  | nativeRun
  | nativeRerender
  | nativeUpdate
  | nativeTerminate
  | nativeNeedsSwap
  | nativeSwapped
  | nativeResize_JIIF
  | nativeResize_JIIFII
  | nativeSetAppliedClasses
  | nativeGetAppliedClasses
  | nativeSetDefaultTransitionDuration
  | nativeGetDefaultTransitionDuration
  | nativeSetStyleURL
  | nativeSetStyleJSON
  | nativeGetStyleJSON
  | nativeSetAccessToken
  | nativeGetAccessToken
  | nativeCancelTransitions
  | nativeMoveBy
  | nativeSetLonLat
  | nativeGetLonLat
  | nativeStartPanning
  | nativeStopPanning
  | nativeResetPosition
  | nativeScaleBy
  | nativeSetScale
  | nativeGetScale
  | nativeSetZoom
  | nativeGetZoom
  | nativeSetLonLatZoom
  | nativeGetLonLatZoom
  | nativeResetZoom
  | nativeStartScaling
  | nativeStopScaling
  | nativeGetMinZoom
  | nativeGetMaxZoom
  | nativeRotateBy
  | nativeSetBearing_JDD
  | nativeSetBearing_JDDD
  | nativeGetBearing
  | nativeResetNorth
  | nativeStartRotating
  | nativeStopRotating
  | nativeSetDebug
  | nativeToggleDebug
  | nativeGetDebug
  | nativeSetReachability
  deriving DecidableEq

/-- The function a handler is. -/
def Handler.fn (σ : Type) : Handler → Fn σ
  | .nativeCreate => .create Jni.nativeCreate
  | .nativeDestroy => .handle fun _ w nativeMapViewPtr => Jni.nativeDestroy w nativeMapViewPtr
  | .nativeInitializeDisplay => .handle Jni.nativeInitializeDisplay
  | .nativeTerminateDisplay => .handle Jni.nativeTerminateDisplay
  | .nativeInitializeContext => .handle Jni.nativeInitializeContext
  | .nativeTerminateContext => .handle Jni.nativeTerminateContext
  | .nativeCreateSurface => .surface Jni.nativeCreateSurface
  | .nativeDestroySurface => .handle Jni.nativeDestroySurface
  | .nativeStart => .handle Jni.nativeStart
  | .nativeStop => .handle Jni.nativeStop
  | .nativePause => .handle Jni.nativePause
  | .nativeResume => .handle Jni.nativeResume
  | .nativeRun => .handle Jni.nativeRun
  | .nativeRerender => .handle Jni.nativeRerender
  | .nativeUpdate => .handle Jni.nativeUpdate
  | .nativeTerminate => .handle Jni.nativeTerminate
  | .nativeNeedsSwap => .getBoolean Jni.nativeNeedsSwap
  | .nativeSwapped => .handle Jni.nativeSwapped
  | .nativeResize_JIIF => .resize3 Jni.nativeResize_JIIF
  | .nativeResize_JIIFII => .resize5 Jni.nativeResize_JIIFII
  | .nativeSetAppliedClasses => .setList Jni.nativeSetAppliedClasses
  | .nativeGetAppliedClasses => .getList Jni.nativeGetAppliedClasses
  | .nativeSetDefaultTransitionDuration => .setLong Jni.nativeSetDefaultTransitionDuration
  | .nativeGetDefaultTransitionDuration => .getLong Jni.nativeGetDefaultTransitionDuration
  | .nativeSetStyleURL => .setString Jni.nativeSetStyleURL
  | .nativeSetStyleJSON => .setString2 Jni.nativeSetStyleJSON
  | .nativeGetStyleJSON => .getString Jni.nativeGetStyleJSON
  | .nativeSetAccessToken => .setString Jni.nativeSetAccessToken
  | .nativeGetAccessToken => .getString Jni.nativeGetAccessToken
  | .nativeCancelTransitions => .handle Jni.nativeCancelTransitions
  | .nativeMoveBy => .double3 Jni.nativeMoveBy
  | .nativeSetLonLat => .setLonLat Jni.nativeSetLonLat
  | .nativeGetLonLat => .getLonLat Jni.nativeGetLonLat
  | .nativeStartPanning => .handle Jni.nativeStartPanning
  | .nativeStopPanning => .handle Jni.nativeStopPanning
  | .nativeResetPosition => .handle Jni.nativeResetPosition
  | .nativeScaleBy => .double4 Jni.nativeScaleBy
  | .nativeSetScale => .double4 Jni.nativeSetScale
  | .nativeGetScale => .getDouble Jni.nativeGetScale
  | .nativeSetZoom => .double2 Jni.nativeSetZoom
  | .nativeGetZoom => .getDouble Jni.nativeGetZoom
  | .nativeSetLonLatZoom => .setLonLatZoom Jni.nativeSetLonLatZoom
  | .nativeGetLonLatZoom => .getLonLatZoom Jni.nativeGetLonLatZoom
  | .nativeResetZoom => .handle Jni.nativeResetZoom
  | .nativeStartScaling => .handle Jni.nativeStartScaling
  | .nativeStopScaling => .handle Jni.nativeStopScaling
  | .nativeGetMinZoom => .getDouble Jni.nativeGetMinZoom
  | .nativeGetMaxZoom => .getDouble Jni.nativeGetMaxZoom
  | .nativeRotateBy => .double5 Jni.nativeRotateBy
  | .nativeSetBearing_JDD => .double2 Jni.nativeSetBearing_JDD
  | .nativeSetBearing_JDDD => .double3 Jni.nativeSetBearing_JDDD
  | .nativeGetBearing => .getDouble Jni.nativeGetBearing
  | .nativeResetNorth => .handle Jni.nativeResetNorth
  | .nativeStartRotating => .handle Jni.nativeStartRotating
  | .nativeStopRotating => .handle Jni.nativeStopRotating
  | .nativeSetDebug => .setBoolean Jni.nativeSetDebug
  | .nativeToggleDebug => .handle Jni.nativeToggleDebug
  | .nativeGetDebug => .getBoolean Jni.nativeGetDebug
  | .nativeSetReachability => .setBoolean Jni.nativeSetReachability

/-- An entry of the table (`JNINativeMethod`): the name of the operation, its
signature, and the pointer to the handler. -/
structure JNINativeMethod where
  name : String
  signature : String
  fnPtr : Handler
  deriving DecidableEq

/-- The table `methods` that `JNI_OnLoad` registers; a `static_cast` to a
function type selects the overload of that type. -/
def methods : List JNINativeMethod :=
  [{ name := "nativeCreate", signature := "(Ljava/lang/String;Ljava/lang/String;Ljava/lang/String;)J",
      fnPtr := .nativeCreate },
    { name := "nativeDestroy", signature := "(J)V",
      fnPtr := .nativeDestroy },
    { name := "nativeInitializeDisplay", signature := "(J)V",
      fnPtr := .nativeInitializeDisplay },
    { name := "nativeTerminateDisplay", signature := "(J)V",
      fnPtr := .nativeTerminateDisplay },
    { name := "nativeInitializeContext", signature := "(J)V",
      fnPtr := .nativeInitializeContext },
    { name := "nativeTerminateContext", signature := "(J)V",
      fnPtr := .nativeTerminateContext },
    { name := "nativeCreateSurface", signature := "(JLandroid/view/Surface;)V",
      fnPtr := .nativeCreateSurface },
    { name := "nativeDestroySurface", signature := "(J)V",
      fnPtr := .nativeDestroySurface },
    { name := "nativeStart", signature := "(J)V",
      fnPtr := .nativeStart },
    { name := "nativeStop", signature := "(J)V",
      fnPtr := .nativeStop },
    { name := "nativePause", signature := "(J)V",
      fnPtr := .nativePause },
    { name := "nativeResume", signature := "(J)V",
      fnPtr := .nativeResume },
    { name := "nativeRun", signature := "(J)V",
      fnPtr := .nativeRun },
    { name := "nativeRerender", signature := "(J)V",
      fnPtr := .nativeRerender },
    { name := "nativeUpdate", signature := "(J)V",
      fnPtr := .nativeUpdate },
    { name := "nativeTerminate", signature := "(J)V",
      fnPtr := .nativeTerminate },
    { name := "nativeNeedsSwap", signature := "(J)Z",
      fnPtr := .nativeNeedsSwap },
    { name := "nativeSwapped", signature := "(J)V",
      fnPtr := .nativeSwapped },
    { name := "nativeResize", signature := "(JIIF)V",
      fnPtr := .nativeResize_JIIF },
    { name := "nativeResize", signature := "(JIIFII)V",
      fnPtr := .nativeResize_JIIFII },
    { name := "nativeSetAppliedClasses", signature := "(JLjava/util/List;)V",
      fnPtr := .nativeSetAppliedClasses },
    { name := "nativeGetAppliedClasses", signature := "(J)Ljava/util/List;",
      fnPtr := .nativeGetAppliedClasses },
    { name := "nativeSetDefaultTransitionDuration", signature := "(JJ)V",
      fnPtr := .nativeSetDefaultTransitionDuration },
    { name := "nativeGetDefaultTransitionDuration", signature := "(J)J",
      fnPtr := .nativeGetDefaultTransitionDuration },
    { name := "nativeSetStyleUrl", signature := "(JLjava/lang/String;)V",
      fnPtr := .nativeSetStyleURL },
    { name := "nativeSetStyleJson", signature := "(JLjava/lang/String;Ljava/lang/String;)V",
      fnPtr := .nativeSetStyleJSON },
    { name := "nativeGetStyleJson", signature := "(J)Ljava/lang/String;",
      fnPtr := .nativeGetStyleJSON },
    { name := "nativeSetAccessToken", signature := "(JLjava/lang/String;)V",
      fnPtr := .nativeSetAccessToken },
    { name := "nativeGetAccessToken", signature := "(J)Ljava/lang/String;",
      fnPtr := .nativeGetAccessToken },
    { name := "nativeCancelTransitions", signature := "(J)V",
      fnPtr := .nativeCancelTransitions },
    { name := "nativeMoveBy", signature := "(JDDD)V",
      fnPtr := .nativeMoveBy },
    { name := "nativeSetLonLat", signature := "(JLcom/mapbox/mapboxgl/lib/LonLat;D)V",
      fnPtr := .nativeSetLonLat },
    { name := "nativeGetLonLat", signature := "(J)Lcom/mapbox/mapboxgl/lib/LonLat;",
      fnPtr := .nativeGetLonLat },
    { name := "nativeStartPanning", signature := "(J)V",
      fnPtr := .nativeStartPanning },
    { name := "nativeStopPanning", signature := "(J)V",
      fnPtr := .nativeStopPanning },
    { name := "nativeResetPosition", signature := "(J)V",
      fnPtr := .nativeResetPosition },
    { name := "nativeScaleBy", signature := "(JDDDD)V",
      fnPtr := .nativeScaleBy },
    { name := "nativeSetScale", signature := "(JDDDD)V",
      fnPtr := .nativeSetScale },
    { name := "nativeGetScale", signature := "(J)D",
      fnPtr := .nativeGetScale },
    { name := "nativeSetZoom", signature := "(JDD)V",
      fnPtr := .nativeSetZoom },
    { name := "nativeGetZoom", signature := "(J)D",
      fnPtr := .nativeGetZoom },
    { name := "nativeSetLonLatZoom", signature := "(JLcom/mapbox/mapboxgl/lib/LonLatZoom;D)V",
      fnPtr := .nativeSetLonLatZoom },
    { name := "nativeGetLonLatZoom", signature := "(J)Lcom/mapbox/mapboxgl/lib/LonLatZoom;",
      fnPtr := .nativeGetLonLatZoom },
    { name := "nativeResetZoom", signature := "(J)V",
      fnPtr := .nativeResetZoom },
    { name := "nativeStartPanning", signature := "(J)V",
      fnPtr := .nativeStartScaling },
    { name := "nativeStopPanning", signature := "(J)V",
      fnPtr := .nativeStopScaling },
    { name := "nativeGetMinZoom", signature := "(J)D",
      fnPtr := .nativeGetMinZoom },
    { name := "nativeGetMaxZoom", signature := "(J)D",
      fnPtr := .nativeGetMaxZoom },
    { name := "nativeRotateBy", signature := "(JDDDDD)V",
      fnPtr := .nativeRotateBy },
    { name := "nativeSetBearing", signature := "(JDD)V",
      fnPtr := .nativeSetBearing_JDD },
    { name := "nativeSetBearing", signature := "(JDDD)V",
      fnPtr := .nativeSetBearing_JDDD },
    { name := "nativeGetBearing", signature := "(J)D",
      fnPtr := .nativeGetBearing },
    { name := "nativeResetNorth", signature := "(J)V",
      fnPtr := .nativeResetNorth },
    { name := "nativeStartRotating", signature := "(J)V",
      fnPtr := .nativeStartRotating },
    { name := "nativeStopRotating", signature := "(J)V",
      fnPtr := .nativeStopRotating },
    { name := "nativeSetDebug", signature := "(JZ)V",
      fnPtr := .nativeSetDebug },
    { name := "nativeToggleDebug", signature := "(J)V",
      fnPtr := .nativeToggleDebug },
    { name := "nativeGetDebug", signature := "(J)Z",
      fnPtr := .nativeGetDebug },
    { name := "nativeSetReachability", signature := "(JZ)V",
      fnPtr := .nativeSetReachability }]

/-- The key of an entry: the name of the operation and its signature. -/
def JNINativeMethod.key (m : JNINativeMethod) : String × String :=
  (m.name, m.signature)

/-- The handlers registered under the key `(name, signature)`, in the order of
the table. -/
def registered (name signature : String) : List Handler :=
  (methods.filter fun m => m.key = (name, signature)).map fun m => m.fnPtr

/-- Whether a call with the handle 0 ends in the assertion failure, whatever
the other arguments, the engine and the world are. -/
def Fn.assertsOnZero {σ : Type} : Fn σ → Prop
  | .create _ => True
  | .handle f => ∀ E w, f E w 0 = .assertionFailed
  | .surface f => ∀ E w surface, f E w 0 surface = .assertionFailed
  | .setList f => ∀ E w classes, f E w 0 classes = .assertionFailed
  | .getList f => ∀ E w, f E w 0 = .assertionFailed
  | .getBoolean f => ∀ E w, f E w 0 = .assertionFailed
  | .setBoolean f => ∀ E w b, f E w 0 b = .assertionFailed
  | .resize3 f => ∀ E w width height ratio, f E w 0 width height ratio = .assertionFailed
  | .resize5 f => ∀ E w width height ratio fbWidth fbHeight,
      f E w 0 width height ratio fbWidth fbHeight = .assertionFailed
  | .setLong f => ∀ E w n, f E w 0 n = .assertionFailed
  | .getLong f => ∀ E w, f E w 0 = .assertionFailed
  | .setString f => ∀ E w s, f E w 0 s = .assertionFailed
  | .setString2 f => ∀ E w s t, f E w 0 s t = .assertionFailed
  | .getString f => ∀ E w, f E w 0 = .assertionFailed
  | .setLonLat f => ∀ E w object duration, f E w 0 object duration = .assertionFailed
  | .getLonLat f => ∀ E w, f E w 0 = .assertionFailed
  | .setLonLatZoom f => ∀ E w object duration, f E w 0 object duration = .assertionFailed
  | .getLonLatZoom f => ∀ E w, f E w 0 = .assertionFailed
  | .getDouble f => ∀ E w, f E w 0 = .assertionFailed
  | .double2 f => ∀ E w a b, f E w 0 a b = .assertionFailed
  | .double3 f => ∀ E w a b c, f E w 0 a b c = .assertionFailed
  | .double4 f => ∀ E w a b c d, f E w 0 a b c d = .assertionFailed
  | .double5 f => ∀ E w a b c d e, f E w 0 a b c d e = .assertionFailed

/-! ## The metadata cache, load and unload (`jni.cpp`, lines 42-63 and 702-977) -/

/-- A reference to a managed class: the local reference a lookup returns, or
the global reference a pinning returns. -/
inductive ClassRef
  | local (name : String)
  | global (name : String)
  deriving DecidableEq

/-- The name of the class a reference refers to. -/
def ClassRef.name : ClassRef → String
  | .local n => n
  | .global n => n

/-- Whether a class reference is a global (pinned) one. -/
def ClassRef.isGlobal : ClassRef → Bool
  | .local _ => false
  | .global _ => true

/-- A method or field identifier (`jmethodID`, `jfieldID`): the class, the name
and the signature of the member. -/
structure MemberId where
  cls : String
  name : String
  signature : String
  deriving DecidableEq

/-- The runtime calls of load and unload, as recorded in the trace. -/
inductive VmCall
  | GetEnv
  | FindClass (name : String)
  | GetMethodID (cls : Option ClassRef) (name signature : String)
  | GetFieldID (cls : Option ClassRef) (name signature : String)
  | RegisterNatives (cls : Option ClassRef) (nMethods : Nat)
  | NewGlobalRef (ref : Option ClassRef)
  | DeleteGlobalRef (ref : Option ClassRef)
  | ExceptionDescribe
  deriving DecidableEq

/-- Whether a runtime call is a pinning (`NewGlobalRef`). -/
def VmCall.isPinning : VmCall → Bool
  | .NewGlobalRef _ => true
  | _ => false

/-- The managed runtime as load and unload see it through `JavaVM*`: the status
`GetEnv` returns, and which lookups, registrations and pinnings succeed. -/
structure JavaVM where
  getEnv : Int
  succeeds : VmCall → Bool

/-- Modelled from the spec: the status code of success of `jni.h`, which is not
in the sources. -/
def JNI_OK : Int := 0

/-- Modelled from the spec: the "failure code" of `jni.h`, which is not in the
sources. -/
def JNI_ERR : Int := -1

/-- Modelled from the spec: the "version/status code" of `jni.h`, which is not
in the sources. -/
def JNI_VERSION_1_6 : Int := 0x00010006

namespace JavaVM

/-- `env->FindClass(name)`: a local reference to the class, or null. -/
def FindClass (vm : JavaVM) (calls : List VmCall) (name : String) :
    Option ClassRef × List VmCall :=
  (if vm.succeeds (.FindClass name) then some (.local name) else none,
   calls ++ [.FindClass name])

/-- `env->GetMethodID(cls, name, signature)`: the identifier of the method, or
null; nothing is found in a null class. -/
def GetMethodID (vm : JavaVM) (calls : List VmCall) (cls : Option ClassRef)
    (name signature : String) : Option MemberId × List VmCall :=
  (match cls with
   | none => none
   | some c =>
     if vm.succeeds (.GetMethodID cls name signature) then
       some { cls := c.name, name := name, signature := signature }
     else none,
   calls ++ [.GetMethodID cls name signature])

/-- `env->GetFieldID(cls, name, signature)`: the identifier of the field, or
null; nothing is found in a null class. -/
def GetFieldID (vm : JavaVM) (calls : List VmCall) (cls : Option ClassRef)
    (name signature : String) : Option MemberId × List VmCall :=
  (match cls with
   | none => none
   | some c =>
     if vm.succeeds (.GetFieldID cls name signature) then
       some { cls := c.name, name := name, signature := signature }
     else none,
   calls ++ [.GetFieldID cls name signature])

/-- `env->RegisterNatives(cls, methods, nMethods)`: 0, or a negative value on
failure. -/
def RegisterNatives (vm : JavaVM) (calls : List VmCall) (cls : Option ClassRef)
    (nMethods : Nat) : Int × List VmCall :=
  (if vm.succeeds (.RegisterNatives cls nMethods) then 0 else -1,
   calls ++ [.RegisterNatives cls nMethods])

/-- `env->NewGlobalRef(ref)`: a global reference to the same class, or null;
the global reference of null is null. -/
def NewGlobalRef (vm : JavaVM) (calls : List VmCall) (ref : Option ClassRef) :
    Option ClassRef × List VmCall :=
  (match ref with
   | none => none
   | some r => if vm.succeeds (.NewGlobalRef ref) then some (.global r.name) else none,
   calls ++ [.NewGlobalRef ref])

end JavaVM

/-- The cached globals of lines 42-63: five class references and twelve method
and field identifiers. -/
structure Cache where
  onMapChangedId : Option MemberId
  onFpsChangedId : Option MemberId
  lonLatClass : Option ClassRef
  lonLatConstructorId : Option MemberId
  lonLatLonId : Option MemberId
  lonLatLatId : Option MemberId
  lonLatZoomClass : Option ClassRef
  lonLatZoomConstructorId : Option MemberId
  lonLatZoomLonId : Option MemberId
  lonLatZoomLatId : Option MemberId
  lonLatZoomZoomId : Option MemberId
  runtimeExceptionClass : Option ClassRef
  nullPointerExceptionClass : Option ClassRef
  listToArrayId : Option MemberId
  arrayListClass : Option ClassRef
  arrayListConstructorId : Option MemberId
  arrayListAddId : Option MemberId
  deriving DecidableEq

/-- The cache with every entry null: the state before load. -/
def Cache.empty : Cache :=
  { onMapChangedId := none,
    onFpsChangedId := none,
    lonLatClass := none,
    lonLatConstructorId := none,
    lonLatLonId := none,
    lonLatLatId := none,
    lonLatZoomClass := none,
    lonLatZoomConstructorId := none,
    lonLatZoomLonId := none,
    lonLatZoomLatId := none,
    lonLatZoomZoomId := none,
    runtimeExceptionClass := none,
    nullPointerExceptionClass := none,
    listToArrayId := none,
    arrayListClass := none,
    arrayListConstructorId := none,
    arrayListAddId := none }

/-- Whether every entry of the cache is non-null. -/
def Cache.nonNull (c : Cache) : Bool :=
  c.onMapChangedId.isSome &&
  c.onFpsChangedId.isSome &&
  c.lonLatClass.isSome &&
  c.lonLatConstructorId.isSome &&
  c.lonLatLonId.isSome &&
  c.lonLatLatId.isSome &&
  c.lonLatZoomClass.isSome &&
  c.lonLatZoomConstructorId.isSome &&
  c.lonLatZoomLonId.isSome &&
  c.lonLatZoomLatId.isSome &&
  c.lonLatZoomZoomId.isSome &&
  c.runtimeExceptionClass.isSome &&
  c.nullPointerExceptionClass.isSome &&
  c.listToArrayId.isSome &&
  c.arrayListClass.isSome &&
  c.arrayListConstructorId.isSome &&
  c.arrayListAddId.isSome

/-- The five cached class references, in the order in which load pins them. -/
def Cache.classes (c : Cache) : List (Option ClassRef) :=
  [c.lonLatClass, c.lonLatZoomClass, c.runtimeExceptionClass, c.nullPointerExceptionClass,
   c.arrayListClass]

/-- What load returns and leaves: the status code, the cache, and the trace of
its runtime calls, oldest first. -/
structure LoadResult where
  code : Int
  cache : Cache
  calls : List VmCall

/-- `jint JNI_OnLoad(JavaVM *vm, void *reserved)`. -/
def JNI_OnLoad (vm : JavaVM) (cache : Cache) : LoadResult :=
  let calls : List VmCall := [.GetEnv]
  if vm.getEnv ≠ JNI_OK then { code := JNI_ERR, cache := cache, calls := calls }
  else
  let r1 := vm.FindClass calls "com/mapbox/mapboxgl/lib/LonLat"
  let cache := { cache with lonLatClass := r1.1 }
  if cache.lonLatClass.isNone then { code := JNI_ERR, cache := cache, calls := r1.2 ++ [.ExceptionDescribe] }
  else
  let r2 := vm.GetMethodID r1.2 cache.lonLatClass "<init>" "(DD)V"
  let cache := { cache with lonLatConstructorId := r2.1 }
  if cache.lonLatConstructorId.isNone then { code := JNI_ERR, cache := cache, calls := r2.2 ++ [.ExceptionDescribe] }
  else
  let r3 := vm.GetFieldID r2.2 cache.lonLatClass "lon" "D"
  let cache := { cache with lonLatLonId := r3.1 }
  if cache.lonLatLonId.isNone then { code := JNI_ERR, cache := cache, calls := r3.2 ++ [.ExceptionDescribe] }
  else
  let r4 := vm.GetFieldID r3.2 cache.lonLatClass "lat" "D"
  let cache := { cache with lonLatLatId := r4.1 }
  if cache.lonLatLatId.isNone then { code := JNI_ERR, cache := cache, calls := r4.2 ++ [.ExceptionDescribe] }
  else
  let r5 := vm.FindClass r4.2 "com/mapbox/mapboxgl/lib/LonLatZoom"
  let cache := { cache with lonLatZoomClass := r5.1 }
  if cache.lonLatClass.isNone then { code := JNI_ERR, cache := cache, calls := r5.2 ++ [.ExceptionDescribe] }
  else
  let r6 := vm.GetMethodID r5.2 cache.lonLatZoomClass "<init>" "(DDD)V"
  let cache := { cache with lonLatZoomConstructorId := r6.1 }
  if cache.lonLatZoomConstructorId.isNone then { code := JNI_ERR, cache := cache, calls := r6.2 ++ [.ExceptionDescribe] }
  else
  let r7 := vm.GetFieldID r6.2 cache.lonLatZoomClass "lon" "D"
  let cache := { cache with lonLatZoomLonId := r7.1 }
  if cache.lonLatZoomLonId.isNone then { code := JNI_ERR, cache := cache, calls := r7.2 ++ [.ExceptionDescribe] }
  else
  let r8 := vm.GetFieldID r7.2 cache.lonLatZoomClass "lat" "D"
  let cache := { cache with lonLatZoomLatId := r8.1 }
  if cache.lonLatZoomLatId.isNone then { code := JNI_ERR, cache := cache, calls := r8.2 ++ [.ExceptionDescribe] }
  else
  let r9 := vm.GetFieldID r8.2 cache.lonLatZoomClass "zoom" "D"
  let cache := { cache with lonLatZoomZoomId := r9.1 }
  if cache.lonLatZoomZoomId.isNone then { code := JNI_ERR, cache := cache, calls := r9.2 ++ [.ExceptionDescribe] }
  else
  let r10 := vm.FindClass r9.2 "com/mapbox/mapboxgl/lib/NativeMapView"
  let nativeMapViewClass := r10.1
  if nativeMapViewClass.isNone then { code := JNI_ERR, cache := cache, calls := r10.2 ++ [.ExceptionDescribe] }
  else
  let r11 := vm.GetMethodID r10.2 nativeMapViewClass "onMapChanged" "()V"
  let cache := { cache with onMapChangedId := r11.1 }
  if cache.onMapChangedId.isNone then { code := JNI_ERR, cache := cache, calls := r11.2 ++ [.ExceptionDescribe] }
  else
  let r12 := vm.GetMethodID r11.2 nativeMapViewClass "onFpsChanged" "(D)V"
  let cache := { cache with onFpsChangedId := r12.1 }
  if cache.onFpsChangedId.isNone then { code := JNI_ERR, cache := cache, calls := r12.2 ++ [.ExceptionDescribe] }
  else
  let r13 := vm.FindClass r12.2 "java/lang/RuntimeException"
  let cache := { cache with runtimeExceptionClass := r13.1 }
  if cache.runtimeExceptionClass.isNone then { code := JNI_ERR, cache := cache, calls := r13.2 ++ [.ExceptionDescribe] }
  else
  let r14 := vm.FindClass r13.2 "java/lang/NullPointerException"
  let cache := { cache with nullPointerExceptionClass := r14.1 }
  if cache.nullPointerExceptionClass.isNone then { code := JNI_ERR, cache := cache, calls := r14.2 ++ [.ExceptionDescribe] }
  else
  let r15 := vm.FindClass r14.2 "java/util/List"
  let listClass := r15.1
  if listClass.isNone then { code := JNI_ERR, cache := cache, calls := r15.2 ++ [.ExceptionDescribe] }
  else
  let r16 := vm.GetMethodID r15.2 listClass "toArray" "()[Ljava/lang/Object;"
  let cache := { cache with listToArrayId := r16.1 }
  if cache.listToArrayId.isNone then { code := JNI_ERR, cache := cache, calls := r16.2 ++ [.ExceptionDescribe] }
  else
  let r17 := vm.FindClass r16.2 "java/util/ArrayList"
  let cache := { cache with arrayListClass := r17.1 }
  if cache.arrayListClass.isNone then { code := JNI_ERR, cache := cache, calls := r17.2 ++ [.ExceptionDescribe] }
  else
  let r18 := vm.GetMethodID r17.2 cache.arrayListClass "<init>" "()V"
  let cache := { cache with arrayListConstructorId := r18.1 }
  if cache.arrayListConstructorId.isNone then { code := JNI_ERR, cache := cache, calls := r18.2 ++ [.ExceptionDescribe] }
  else
  let r19 := vm.GetMethodID r18.2 cache.arrayListClass "add" "(Ljava/lang/Object;)Z"
  let cache := { cache with arrayListAddId := r19.1 }
  if cache.arrayListAddId.isNone then { code := JNI_ERR, cache := cache, calls := r19.2 ++ [.ExceptionDescribe] }
  else
  let r20 := vm.RegisterNatives r19.2 nativeMapViewClass methods.length
  if r20.1 < 0 then { code := JNI_ERR, cache := cache, calls := r20.2 ++ [.ExceptionDescribe] }
  else
  let r21 := vm.NewGlobalRef r20.2 cache.lonLatClass
  let cache := { cache with lonLatClass := r21.1 }
  if cache.lonLatClass.isNone then
    { code := JNI_ERR, cache := cache, calls := r21.2 ++ [.ExceptionDescribe] }
  else
  let r22 := vm.NewGlobalRef r21.2 cache.lonLatZoomClass
  let cache := { cache with lonLatZoomClass := r22.1 }
  if cache.lonLatZoomClass.isNone then
    { code := JNI_ERR, cache := cache, calls := r22.2 ++ [.ExceptionDescribe, .DeleteGlobalRef cache.lonLatClass] }
  else
  let r23 := vm.NewGlobalRef r22.2 cache.runtimeExceptionClass
  let cache := { cache with runtimeExceptionClass := r23.1 }
  if cache.runtimeExceptionClass.isNone then
    { code := JNI_ERR, cache := cache, calls := r23.2 ++ [.ExceptionDescribe, .DeleteGlobalRef cache.lonLatClass, .DeleteGlobalRef cache.lonLatZoomClass] }
  else
  let r24 := vm.NewGlobalRef r23.2 cache.nullPointerExceptionClass
  let cache := { cache with nullPointerExceptionClass := r24.1 }
  if cache.nullPointerExceptionClass.isNone then
    { code := JNI_ERR, cache := cache, calls := r24.2 ++ [.ExceptionDescribe, .DeleteGlobalRef cache.lonLatClass, .DeleteGlobalRef cache.lonLatZoomClass, .DeleteGlobalRef cache.runtimeExceptionClass] }
  else
  let r25 := vm.NewGlobalRef r24.2 cache.arrayListClass
  let cache := { cache with arrayListClass := r25.1 }
  if cache.arrayListClass.isNone then
    { code := JNI_ERR, cache := cache, calls := r25.2 ++ [.ExceptionDescribe, .DeleteGlobalRef cache.lonLatClass, .DeleteGlobalRef cache.lonLatZoomClass, .DeleteGlobalRef cache.runtimeExceptionClass, .DeleteGlobalRef cache.nullPointerExceptionClass] }
  else
  { code := JNI_VERSION_1_6, cache := cache, calls := r25.2 }

/-- What unload leaves: the cache, and the trace of its runtime calls. -/
structure UnloadResult where
  cache : Cache
  calls : List VmCall

/-- `void JNI_OnUnload(JavaVM *vm, void *reserved)`. -/
def JNI_OnUnload (vm : JavaVM) (cache : Cache) : UnloadResult :=
  let calls : List VmCall := [.GetEnv]
  if vm.getEnv ≠ JNI_OK then { cache := cache, calls := calls }
  else
  let calls := calls ++ [.DeleteGlobalRef cache.lonLatClass]
  let cache := { cache with lonLatClass := none, lonLatConstructorId := none,
                            lonLatLonId := none, lonLatLatId := none }
  let calls := calls ++ [.DeleteGlobalRef cache.lonLatZoomClass]
  let cache := { cache with lonLatZoomClass := none, lonLatZoomConstructorId := none,
                            lonLatZoomLonId := none, lonLatZoomLatId := none,
                            lonLatZoomZoomId := none }
  let cache := { cache with onMapChangedId := none, onFpsChangedId := none }
  let calls := calls ++ [.DeleteGlobalRef cache.runtimeExceptionClass]
  let cache := { cache with runtimeExceptionClass := none }
  let calls := calls ++ [.DeleteGlobalRef cache.nullPointerExceptionClass]
  let cache := { cache with nullPointerExceptionClass := none }
  let cache := { cache with listToArrayId := none }
  let calls := calls ++ [.DeleteGlobalRef cache.arrayListClass]
  let cache := { cache with arrayListClass := none, arrayListConstructorId := none,
                            arrayListAddId := none }
  { cache := cache, calls := calls }

/-- The references given to `NewGlobalRef`, in the order of the calls. -/
def pinRequests (calls : List VmCall) : List (Option ClassRef) :=
  calls.filterMap fun c =>
    match c with
    | .NewGlobalRef ref => some ref
    | _ => none

/-- The global references the pinnings of a trace gave, in the order of the
calls. -/
def pinned (vm : JavaVM) (calls : List VmCall) : List ClassRef :=
  calls.filterMap fun c =>
    match c with
    | .NewGlobalRef ref => (vm.NewGlobalRef [] ref).1
    | _ => none

/-- The references given to `DeleteGlobalRef`, in the order of the calls. -/
def released (calls : List VmCall) : List (Option ClassRef) :=
  calls.filterMap fun c =>
    match c with
    | .DeleteGlobalRef ref => some ref
    | _ => none

/-- A runtime in which obtaining the environment and every lookup,
registration and pinning succeed. -/
def JavaVM.sound : JavaVM :=
  { getEnv := JNI_OK, succeeds := fun _ => true }

/-- A runtime that differs from `JavaVM.sound` in that the call `c` fails. -/
def JavaVM.failing (c : VmCall) : JavaVM :=
  { getEnv := JNI_OK, succeeds := fun d => d != c }

/-- A runtime in which obtaining the environment fails with the status
`status`. -/
def JavaVM.detached (status : Int) : JavaVM :=
  { getEnv := status, succeeds := fun _ => true }

/-! ## Engines and inputs of the examples -/

/-- An engine whose every call raises the native exception `e`. -/
def raisingEngine (e : CppException) : Engine Unit :=
  { construct := .error e
    initializeDisplay := fun s => (.error e, s)
    terminateDisplay := fun s => (.error e, s)
    initializeContext := fun s => (.error e, s)
    createSurface := fun _ s => (.error e, s)
    setAppliedClasses := fun _ s => (.error e, s)
    getAppliedClasses := fun s => (.error e, s)
    setStyleURL := fun _ s => (.error e, s)
    setAccessToken := fun _ s => (.error e, s)
    terminateContext := fun s => (.error e, s)
    destroySurface := fun s => (.error e, s)
    start := fun s => (.error e, s)
    stop := fun s => (.error e, s)
    pause := fun s => (.error e, s)
    resume := fun s => (.error e, s)
    run := fun s => (.error e, s)
    rerender := fun s => (.error e, s)
    update := fun s => (.error e, s)
    terminate := fun s => (.error e, s)
    swapped := fun s => (.error e, s)
    cancelTransitions := fun s => (.error e, s)
    startPanning := fun s => (.error e, s)
    stopPanning := fun s => (.error e, s)
    resetPosition := fun s => (.error e, s)
    resetZoom := fun s => (.error e, s)
    startScaling := fun s => (.error e, s)
    stopScaling := fun s => (.error e, s)
    resetNorth := fun s => (.error e, s)
    startRotating := fun s => (.error e, s)
    stopRotating := fun s => (.error e, s)
    toggleDebug := fun s => (.error e, s)
    resize3 := fun _ _ _ s => (.error e, s)
    resize5 := fun _ _ _ _ _ s => (.error e, s)
    setDefaultTransitionDuration := fun _ s => (.error e, s)
    setStyleJSON := fun _ _ s => (.error e, s)
    moveBy := fun _ _ _ s => (.error e, s)
    setLonLat := fun _ _ _ s => (.error e, s)
    scaleBy := fun _ _ _ _ s => (.error e, s)
    setScale := fun _ _ _ _ s => (.error e, s)
    setZoom := fun _ _ s => (.error e, s)
    setLonLatZoom := fun _ _ _ _ s => (.error e, s)
    rotateBy := fun _ _ _ _ _ s => (.error e, s)
    setBearing2 := fun _ _ s => (.error e, s)
    setBearing3 := fun _ _ _ s => (.error e, s)
    setDebug := fun _ s => (.error e, s)
    enableFps := fun _ s => (.error e, s)
    setReachability := fun _ s => (.error e, s)
    needsSwap := fun s => (.error e, s)
    getDefaultTransitionDuration := fun s => (.error e, s)
    getStyleJSON := fun s => (.error e, s)
    getAccessToken := fun s => (.error e, s)
    getLonLat := fun s => (.error e, s)
    getLonLatZoom := fun s => (.error e, s)
    getScale := fun s => (.error e, s)
    getZoom := fun s => (.error e, s)
    getMinZoom := fun s => (.error e, s)
    getMaxZoom := fun s => (.error e, s)
    getBearing := fun s => (.error e, s)
    getDebug := fun s => (.error e, s) }

/-- An engine that stores the applied classes it is given and returns them
unchanged; the state of an instance is its applied classes.  Every other call
returns, and `new` gives the address 4096. -/
def storingEngine : Engine (List (List Nat)) :=
  { construct := .ok ({ addr := 4096, nonnull := by decide }, [])
    initializeDisplay := fun s => (.ok true, s)
    terminateDisplay := fun s => (.ok (), s)
    initializeContext := fun s => (.ok true, s)
    createSurface := fun _ s => (.ok true, s)
    setAppliedClasses := fun classes _ => (.ok (), classes)
    getAppliedClasses := fun s => (.ok s, s)
    setStyleURL := fun _ s => (.ok (), s)
    setAccessToken := fun _ s => (.ok (), s)
    terminateContext := fun s => (.ok (), s)
    destroySurface := fun s => (.ok (), s)
    start := fun s => (.ok (), s)
    stop := fun s => (.ok (), s)
    pause := fun s => (.ok (), s)
    resume := fun s => (.ok (), s)
    run := fun s => (.ok (), s)
    rerender := fun s => (.ok (), s)
    update := fun s => (.ok (), s)
    terminate := fun s => (.ok (), s)
    swapped := fun s => (.ok (), s)
    cancelTransitions := fun s => (.ok (), s)
    startPanning := fun s => (.ok (), s)
    stopPanning := fun s => (.ok (), s)
    resetPosition := fun s => (.ok (), s)
    resetZoom := fun s => (.ok (), s)
    startScaling := fun s => (.ok (), s)
    stopScaling := fun s => (.ok (), s)
    resetNorth := fun s => (.ok (), s)
    startRotating := fun s => (.ok (), s)
    stopRotating := fun s => (.ok (), s)
    toggleDebug := fun s => (.ok (), s)
    resize3 := fun _ _ _ s => (.ok (), s)
    resize5 := fun _ _ _ _ _ s => (.ok (), s)
    setDefaultTransitionDuration := fun _ s => (.ok (), s)
    setStyleJSON := fun _ _ s => (.ok (), s)
    moveBy := fun _ _ _ s => (.ok (), s)
    setLonLat := fun _ _ _ s => (.ok (), s)
    scaleBy := fun _ _ _ _ s => (.ok (), s)
    setScale := fun _ _ _ _ s => (.ok (), s)
    setZoom := fun _ _ s => (.ok (), s)
    setLonLatZoom := fun _ _ _ _ s => (.ok (), s)
    rotateBy := fun _ _ _ _ _ s => (.ok (), s)
    setBearing2 := fun _ _ s => (.ok (), s)
    setBearing3 := fun _ _ _ s => (.ok (), s)
    setDebug := fun _ s => (.ok (), s)
    enableFps := fun _ s => (.ok (), s)
    setReachability := fun _ s => (.ok (), s)
    needsSwap := fun s => (.ok false, s)
    getDefaultTransitionDuration := fun s => (.ok 0, s)
    getStyleJSON := fun s => (.ok [], s)
    getAccessToken := fun s => (.ok [], s)
    getLonLat := fun s => (.ok (0, 0), s)
    getLonLatZoom := fun s => (.ok (0, 0, 0), s)
    getScale := fun s => (.ok 0, s)
    getZoom := fun s => (.ok 0, s)
    getMinZoom := fun s => (.ok 0, s)
    getMaxZoom := fun s => (.ok 0, s)
    getBearing := fun s => (.ok 0, s)
    getDebug := fun s => (.ok false, s) }

/-- A world whose only live instance is at the address 4096, in the state `s`;
nothing has happened and nothing fails. -/
def World.single {σ : Type} (s : σ) : World σ :=
  { World.fresh σ with views := fun a => if a = 4096 then some s else none }

/-- A native exception whose text is `m`, also on a by-value copy. -/
def CppException.ofMessage (m : String) : CppException :=
  { what := m, slicedWhat := m }

/-- A string reference the import can convert: null, or a managed string of
well-formed UTF-16. -/
def importable : jstring → Bool
  | none => true
  | some u => (utf16_to_utf8 u).isSome

/-- The engine stores the applied classes it is given and returns them
unchanged: `setAppliedClasses` returns, and `getAppliedClasses` on the state it
leaves returns the classes that were set. -/
def Engine.StoresAppliedClasses {σ : Type} (E : Engine σ) : Prop :=
  ∀ (classes : List (List Nat)) (s : σ), ∃ s1 s2,
    E.setAppliedClasses classes s = (.ok (), s1)
    ∧ E.getAppliedClasses s1 = (.ok classes, s2)

/-- The engine keeps a debug flag and an fps-enabled state, which `debug` and
`fps` read off the state of an instance, and raises nothing in the calls about
them: `setDebug(b)` sets the flag to `b`, `toggleDebug()` inverts it,
`getDebug()` returns it, and `enableFps(b)` sets the fps-enabled state to `b`
and leaves the flag. -/
def Engine.TracksDebug {σ : Type} (E : Engine σ) (debug fps : σ → Bool) : Prop :=
  (∀ b s, ∃ s1, E.setDebug b s = (.ok (), s1) ∧ debug s1 = b)
  ∧ (∀ s, ∃ s1, E.toggleDebug s = (.ok (), s1) ∧ debug s1 = !debug s)
  ∧ (∀ s, ∃ s1, E.getDebug s = (.ok (debug s), s1) ∧ debug s1 = debug s)
  ∧ (∀ b s, ∃ s1, E.enableFps b s = (.ok (), s1) ∧ fps s1 = b ∧ debug s1 = debug s)

/-- An engine whose instances hold a debug flag and an fps-enabled state, in
this order; every call returns. -/
def debugEngine : Engine (Bool × Bool) :=
  { construct := .ok ({ addr := 4096, nonnull := by decide }, (false, false))
    initializeDisplay := fun s => (.ok true, s)
    terminateDisplay := fun s => (.ok (), s)
    initializeContext := fun s => (.ok true, s)
    createSurface := fun _ s => (.ok true, s)
    setAppliedClasses := fun _ s => (.ok (), s)
    getAppliedClasses := fun s => (.ok [], s)
    setStyleURL := fun _ s => (.ok (), s)
    setAccessToken := fun _ s => (.ok (), s)
    terminateContext := fun s => (.ok (), s)
    destroySurface := fun s => (.ok (), s)
    start := fun s => (.ok (), s)
    stop := fun s => (.ok (), s)
    pause := fun s => (.ok (), s)
    resume := fun s => (.ok (), s)
    run := fun s => (.ok (), s)
    rerender := fun s => (.ok (), s)
    update := fun s => (.ok (), s)
    terminate := fun s => (.ok (), s)
    swapped := fun s => (.ok (), s)
    cancelTransitions := fun s => (.ok (), s)
    startPanning := fun s => (.ok (), s)
    stopPanning := fun s => (.ok (), s)
    resetPosition := fun s => (.ok (), s)
    resetZoom := fun s => (.ok (), s)
    startScaling := fun s => (.ok (), s)
    stopScaling := fun s => (.ok (), s)
    resetNorth := fun s => (.ok (), s)
    startRotating := fun s => (.ok (), s)
    stopRotating := fun s => (.ok (), s)
    toggleDebug := fun s => (.ok (), (!s.1, s.2))
    resize3 := fun _ _ _ s => (.ok (), s)
    resize5 := fun _ _ _ _ _ s => (.ok (), s)
    setDefaultTransitionDuration := fun _ s => (.ok (), s)
    setStyleJSON := fun _ _ s => (.ok (), s)
    moveBy := fun _ _ _ s => (.ok (), s)
    setLonLat := fun _ _ _ s => (.ok (), s)
    scaleBy := fun _ _ _ _ s => (.ok (), s)
    setScale := fun _ _ _ _ s => (.ok (), s)
    setZoom := fun _ _ s => (.ok (), s)
    setLonLatZoom := fun _ _ _ _ s => (.ok (), s)
    rotateBy := fun _ _ _ _ _ s => (.ok (), s)
    setBearing2 := fun _ _ s => (.ok (), s)
    setBearing3 := fun _ _ _ s => (.ok (), s)
    setDebug := fun b s => (.ok (), (b, s.2))
    enableFps := fun b s => (.ok (), (s.1, b))
    setReachability := fun _ s => (.ok (), s)
    needsSwap := fun s => (.ok false, s)
    getDefaultTransitionDuration := fun s => (.ok 0, s)
    getStyleJSON := fun s => (.ok [], s)
    getAccessToken := fun s => (.ok [], s)
    getLonLat := fun s => (.ok (0, 0), s)
    getLonLatZoom := fun s => (.ok (0, 0, 0), s)
    getScale := fun s => (.ok 0, s)
    getZoom := fun s => (.ok 0, s)
    getMinZoom := fun s => (.ok 0, s)
    getMaxZoom := fun s => (.ok 0, s)
    getBearing := fun s => (.ok 0, s)
    getDebug := fun s => (.ok s.1, s) }

/-- The out-of-memory error the runtime raises by itself. -/
def outOfMemory : Throwable :=
  { cls := .other "java/lang/OutOfMemoryError", message := "" }

/-! # Properties -/

/-! ## The string codec -/

theorem utf8_to_utf16_cons (c1 : Nat) (rest : List Nat) :
    utf8_to_utf16 (c1 :: rest) =
    if c1 < 0x80 then
      (utf8_to_utf16 rest).map (fun u => c1 :: u)
    else if c1 < 0xC2 then none
    else if c1 < 0xE0 then
      match rest with
      | c2 :: rest2 =>
        if isCont c2 then
          (utf8_to_utf16 rest2).map (fun u => ((c1 - 0xC0) * 64 + (c2 - 0x80)) :: u)
        else none
      | [] => none
    else if c1 < 0xF0 then
      match rest with
      | c2 :: c3 :: rest3 =>
        if isCont c2 && isCont c3 && (c1 != 0xE0 || 0xA0 ≤ c2) && (c1 != 0xED || c2 < 0xA0) then
          (utf8_to_utf16 rest3).map
            (fun u => ((c1 - 0xE0) * 4096 + (c2 - 0x80) * 64 + (c3 - 0x80)) :: u)
        else none
      | _ => none
    else if c1 < 0xF5 then
      match rest with
      | c2 :: c3 :: c4 :: rest4 =>
        if isCont c2 && isCont c3 && isCont c4
            && (c1 != 0xF0 || 0x90 ≤ c2) && (c1 != 0xF4 || c2 < 0x90) then
          let cp := (c1 - 0xF0) * 262144 + (c2 - 0x80) * 4096 + (c3 - 0x80) * 64 + (c4 - 0x80)
          (utf8_to_utf16 rest4).map
            (fun u => (0xD800 + (cp - 0x10000) / 1024) :: (0xDC00 + (cp - 0x10000) % 1024) :: u)
        else none
      | _ => none
    else none := by
  cases rest with
  | nil => rfl
  | cons c2 r2 =>
    cases r2 with
    | nil => rfl
    | cons c3 r3 =>
      cases r3 with
      | nil => rfl
      | cons c4 r4 => rfl

theorem utf16_to_utf8_cons (w1 : Nat) (rest : List Nat) :
    utf16_to_utf8 (w1 :: rest) =
    if w1 < 0x80 then
      (utf16_to_utf8 rest).map (fun s => w1 :: s)
    else if w1 < 0x800 then
      (utf16_to_utf8 rest).map (fun s => (0xC0 + w1 / 64) :: (0x80 + w1 % 64) :: s)
    else if w1 < 0xD800 then
      (utf16_to_utf8 rest).map
        (fun s => (0xE0 + w1 / 4096) :: (0x80 + w1 / 64 % 64) :: (0x80 + w1 % 64) :: s)
    else if w1 < 0xDC00 then
      match rest with
      | w2 :: rest2 =>
        if 0xDC00 ≤ w2 && w2 < 0xE000 then
          let cp := 0x10000 + (w1 - 0xD800) * 1024 + (w2 - 0xDC00)
          (utf16_to_utf8 rest2).map
            (fun s => (0xF0 + cp / 262144) :: (0x80 + cp / 4096 % 64)
              :: (0x80 + cp / 64 % 64) :: (0x80 + cp % 64) :: s)
        else none
      | [] => none
    else if w1 < 0xE000 then none
    else if w1 < 0x10000 then
      (utf16_to_utf8 rest).map
        (fun s => (0xE0 + w1 / 4096) :: (0x80 + w1 / 64 % 64) :: (0x80 + w1 % 64) :: s)
    else none := by
  cases rest with
  | nil => rfl
  | cons c2 r2 => rfl
theorem utf8_to_utf16_nil : utf8_to_utf16 [] = some [] := rfl

theorem utf16_to_utf8_nil : utf16_to_utf8 [] = some [] := rfl

theorem isCont_iff (c : Nat) : isCont c = true ↔ 0x80 ≤ c ∧ c < 0xC0 := by
  simp [isCont]

/-- Encoding what the decoder produced gives the bytes back. -/
theorem utf16_to_utf8_of_utf8_to_utf16 :
    ∀ (n : Nat) (s u : List Nat), s.length ≤ n →
      utf8_to_utf16 s = some u → utf16_to_utf8 u = some s := by
  intro n
  induction n with
  | zero =>
    intro s u hn h
    have hs : s = [] := List.length_eq_zero.mp (Nat.le_zero.mp hn)
    subst hs
    have : u = [] := (Option.some.inj h).symm
    subst this
    rfl
  | succ n ih =>
    intro s u hn h
    match s, hn, h with
    | [], _, h =>
      have : u = [] := (Option.some.inj h).symm
      subst this
      rfl
    | c1 :: rest, hn, h =>
      rw [utf8_to_utf16_cons] at h
      simp only [List.length_cons] at hn
      split at h
      · rename_i h1
        obtain ⟨v, hv, rfl⟩ := Option.map_eq_some'.mp h
        have := ih rest v (by omega) hv
        rw [utf16_to_utf8_cons]
        simp [h1, this]
      · split at h
        · exact absurd h (by simp)
        · split at h
          · rename_i h1 h2 h3
            split at h
            · rename_i c2 rest2
              split at h
              · rename_i hc2
                rw [isCont_iff] at hc2
                obtain ⟨v, hv, rfl⟩ := Option.map_eq_some'.mp h
                simp only [List.length_cons] at hn
                have := ih rest2 v (by omega) hv
                rw [utf16_to_utf8_cons]
                have a1 : ¬ ((c1 - 0xC0) * 64 + (c2 - 0x80) < 0x80) := by omega
                have a2 : (c1 - 0xC0) * 64 + (c2 - 0x80) < 0x800 := by omega
                have e1 : 0xC0 + ((c1 - 0xC0) * 64 + (c2 - 0x80)) / 64 = c1 := by omega
                have e2 : 0x80 + ((c1 - 0xC0) * 64 + (c2 - 0x80)) % 64 = c2 := by omega
                simp only [a1, a2, if_true, if_false, this, Option.map_some', e1, e2]
              · exact absurd h (by simp)
            · exact absurd h (by simp)
          · split at h
            · rename_i h1 h2 h3 h4
              split at h
              · rename_i c2 c3 rest3
                split at h
                · rename_i hc
                  simp only [Bool.and_eq_true, Bool.or_eq_true, bne_iff_ne, ne_eq,
                    decide_eq_true_eq, isCont_iff] at hc
                  obtain ⟨v, hv, rfl⟩ := Option.map_eq_some'.mp h
                  simp only [List.length_cons] at hn
                  have := ih rest3 v (by omega) hv
                  rw [utf16_to_utf8_cons]
                  generalize hw : (c1 - 0xE0) * 4096 + (c2 - 0x80) * 64 + (c3 - 0x80) = w
                  have a1 : ¬ (w < 0x80) := by omega
                  have a2 : ¬ (w < 0x800) := by omega
                  have e1 : 0xE0 + w / 4096 = c1 := by omega
                  have e2 : 0x80 + w / 64 % 64 = c2 := by omega
                  have e3 : 0x80 + w % 64 = c3 := by omega
                  by_cases a3 : w < 0xD800
                  · simp only [a1, a2, a3, if_true, if_false, this, Option.map_some', e1, e2, e3]
                  · have a4 : ¬ (w < 0xDC00) := by omega
                    have a5 : ¬ (w < 0xE000) := by omega
                    have a6 : w < 0x10000 := by omega
                    simp only [a1, a2, a3, a4, a5, a6, if_true, if_false, this, Option.map_some',
                      e1, e2, e3]
                · exact absurd h (by simp)
              · exact absurd h (by simp)
            · split at h
              · rename_i h1 h2 h3 h4 h5
                split at h
                · rename_i c2 c3 c4 rest4
                  split at h
                  · rename_i hc
                    simp only [Bool.and_eq_true, Bool.or_eq_true, bne_iff_ne, ne_eq,
                      decide_eq_true_eq, isCont_iff] at hc
                    simp only [] at h
                    obtain ⟨v, hv, rfl⟩ := Option.map_eq_some'.mp h
                    simp only [List.length_cons] at hn
                    have := ih rest4 v (by omega) hv
                    rw [utf16_to_utf8_cons]
                    generalize hcp : (c1 - 0xF0) * 262144 + (c2 - 0x80) * 4096 + (c3 - 0x80) * 64
                      + (c4 - 0x80) = cp
                    generalize hhi : 0xD800 + (cp - 0x10000) / 1024 = hi
                    generalize hlo : 0xDC00 + (cp - 0x10000) % 1024 = lo
                    have a1 : ¬ (hi < 0x80) := by omega
                    have a2 : ¬ (hi < 0x800) := by omega
                    have a3 : ¬ (hi < 0xD800) := by omega
                    have a4 : hi < 0xDC00 := by omega
                    have b1 : (decide (0xDC00 ≤ lo) && decide (lo < 0xE000)) = true := by
                      simp only [Bool.and_eq_true, decide_eq_true_eq]; omega
                    have ecp : 0x10000 + (hi - 0xD800) * 1024 + (lo - 0xDC00) = cp := by omega
                    have e1 : 0xF0 + cp / 262144 = c1 := by omega
                    have e2 : 0x80 + cp / 4096 % 64 = c2 := by omega
                    have e3 : 0x80 + cp / 64 % 64 = c3 := by omega
                    have e4 : 0x80 + cp % 64 = c4 := by omega
                    simp only [a1, a2, a3, a4, b1, if_true, if_false, this, Option.map_some',
                      ecp, e1, e2, e3, e4]
                  · exact absurd h (by simp)
                · exact absurd h (by simp)
              · exact absurd h (by simp)

theorem utf8_to_utf16_three (w : Nat) (v rest : List Nat) (h1 : 0x800 ≤ w) (h2 : w < 0x10000)
    (h3 : w < 0xD800 ∨ 0xE000 ≤ w) (hv : utf8_to_utf16 v = some rest) :
    utf8_to_utf16 ((0xE0 + w / 4096) :: (0x80 + w / 64 % 64) :: (0x80 + w % 64) :: v)
      = some (w :: rest) := by
  rw [utf8_to_utf16_cons]
  have a1 : ¬ (0xE0 + w / 4096 < 0x80) := by omega
  have a2 : ¬ (0xE0 + w / 4096 < 0xC2) := by omega
  have a3 : ¬ (0xE0 + w / 4096 < 0xE0) := by omega
  have a4 : 0xE0 + w / 4096 < 0xF0 := by omega
  have b1 : isCont (0x80 + w / 64 % 64) = true := by rw [isCont_iff]; omega
  have b2 : isCont (0x80 + w % 64) = true := by rw [isCont_iff]; omega
  have b3 : ((0xE0 + w / 4096 != 0xE0) || decide (0xA0 ≤ 0x80 + w / 64 % 64)) = true := by
    simp only [Bool.or_eq_true, bne_iff_ne, ne_eq, decide_eq_true_eq]; omega
  have b4 : ((0xE0 + w / 4096 != 0xED) || decide (0x80 + w / 64 % 64 < 0xA0)) = true := by
    simp only [Bool.or_eq_true, bne_iff_ne, ne_eq, decide_eq_true_eq]; omega
  have e1 : (0xE0 + w / 4096 - 0xE0) * 4096 + (0x80 + w / 64 % 64 - 0x80) * 64
      + (0x80 + w % 64 - 0x80) = w := by omega
  simp only [a1, a2, a3, a4, b1, b2, b3, b4, Bool.and_self, if_true, if_false, hv,
    Option.map_some', e1]

/-- Decoding what the encoder produced gives the code units back. -/
theorem utf8_to_utf16_of_utf16_to_utf8 :
    ∀ (n : Nat) (u s : List Nat), u.length ≤ n →
      utf16_to_utf8 u = some s → utf8_to_utf16 s = some u := by
  intro n
  induction n with
  | zero =>
    intro u s hn h
    have hu : u = [] := List.length_eq_zero.mp (Nat.le_zero.mp hn)
    subst hu
    have : s = [] := (Option.some.inj h).symm
    subst this
    rfl
  | succ n ih =>
    intro u s hn h
    match u, hn, h with
    | [], _, h =>
      have : s = [] := (Option.some.inj h).symm
      subst this
      rfl
    | w1 :: rest, hn, h =>
      rw [utf16_to_utf8_cons] at h
      simp only [List.length_cons] at hn
      split at h
      · rename_i h1
        obtain ⟨v, hv, rfl⟩ := Option.map_eq_some'.mp h
        have := ih rest v (by omega) hv
        rw [utf8_to_utf16_cons]
        simp [h1, this]
      · split at h
        · rename_i h1 h2
          obtain ⟨v, hv, rfl⟩ := Option.map_eq_some'.mp h
          have := ih rest v (by omega) hv
          rw [utf8_to_utf16_cons]
          have a1 : ¬ (0xC0 + w1 / 64 < 0x80) := by omega
          have a2 : ¬ (0xC0 + w1 / 64 < 0xC2) := by omega
          have a3 : 0xC0 + w1 / 64 < 0xE0 := by omega
          have b1 : isCont (0x80 + w1 % 64) = true := by rw [isCont_iff]; omega
          have e1 : (0xC0 + w1 / 64 - 0xC0) * 64 + (0x80 + w1 % 64 - 0x80) = w1 := by omega
          simp only [a1, a2, a3, b1, if_true, if_false, this, Option.map_some', e1]
        · split at h
          · rename_i h1 h2 h3
            obtain ⟨v, hv, rfl⟩ := Option.map_eq_some'.mp h
            exact utf8_to_utf16_three w1 v rest (by omega) (by omega) (by omega)
              (ih rest v (by omega) hv)
          · split at h
            · rename_i h1 h2 h3 h4
              split at h
              · rename_i w2 rest2
                split at h
                · rename_i hc
                  simp only [Bool.and_eq_true, decide_eq_true_eq] at hc
                  simp only [] at h
                  obtain ⟨v, hv, rfl⟩ := Option.map_eq_some'.mp h
                  simp only [List.length_cons] at hn
                  have := ih rest2 v (by omega) hv
                  rw [utf8_to_utf16_cons]
                  generalize hcp : 0x10000 + (w1 - 0xD800) * 1024 + (w2 - 0xDC00) = cp
                  have a1 : ¬ (0xF0 + cp / 262144 < 0x80) := by omega
                  have a2 : ¬ (0xF0 + cp / 262144 < 0xC2) := by omega
                  have a3 : ¬ (0xF0 + cp / 262144 < 0xE0) := by omega
                  have a4 : ¬ (0xF0 + cp / 262144 < 0xF0) := by omega
                  have a5 : 0xF0 + cp / 262144 < 0xF5 := by omega
                  have b1 : isCont (0x80 + cp / 4096 % 64) = true := by rw [isCont_iff]; omega
                  have b2 : isCont (0x80 + cp / 64 % 64) = true := by rw [isCont_iff]; omega
                  have b3 : isCont (0x80 + cp % 64) = true := by rw [isCont_iff]; omega
                  have b4 : ((0xF0 + cp / 262144 != 0xF0)
                      || decide (0x90 ≤ 0x80 + cp / 4096 % 64)) = true := by
                    simp only [Bool.or_eq_true, bne_iff_ne, ne_eq, decide_eq_true_eq]; omega
                  have b5 : ((0xF0 + cp / 262144 != 0xF4)
                      || decide (0x80 + cp / 4096 % 64 < 0x90)) = true := by
                    simp only [Bool.or_eq_true, bne_iff_ne, ne_eq, decide_eq_true_eq]; omega
                  have e0 : (0xF0 + cp / 262144 - 0xF0) * 262144 + (0x80 + cp / 4096 % 64 - 0x80) * 4096
                      + (0x80 + cp / 64 % 64 - 0x80) * 64 + (0x80 + cp % 64 - 0x80) = cp := by omega
                  have e1 : 0xD800 + (cp - 0x10000) / 1024 = w1 := by omega
                  have e2 : 0xDC00 + (cp - 0x10000) % 1024 = w2 := by omega
                  simp only [a1, a2, a3, a4, a5, b1, b2, b3, b4, b5, Bool.and_self, if_true,
                    if_false, this, Option.map_some', e0, e1, e2]
                · exact absurd h (by simp)
              · exact absurd h (by simp)
            · split at h
              · exact absurd h (by simp)
              · split at h
                · rename_i h1 h2 h3 h4 h5 h6
                  obtain ⟨v, hv, rfl⟩ := Option.map_eq_some'.mp h
                  exact utf8_to_utf16_three w1 v rest (by omega) (by omega) (by omega)
                    (ih rest v (by omega) hv)
                · exact absurd h (by simp)


/-! ## The managed runtime -/

theorem JNIEnv.outcome_log (env : JNIEnv) (c : JniCall) : (env.log c).outcome = env.outcome := rfl

theorem JNIEnv.outcome_of_calm {env : JNIEnv} (h : env.calm) : env.outcome = none := by
  unfold JNIEnv.outcome
  cases hf : env.failures with
  | nil => rfl
  | cons f r => exact h f (by rw [hf]; exact List.mem_cons_self f r)

theorem JNIEnv.advance_of_none {env : JNIEnv} (h : env.outcome = none) :
    env.advance = { env with failures := env.failures.tail } := by
  unfold JNIEnv.advance
  rw [h]

theorem JNIEnv.advance_of_some {env : JNIEnv} {t : Throwable} (h : env.outcome = some t) :
    env.advance = { env with failures := env.failures.tail, pending := some t } := by
  unfold JNIEnv.advance
  rw [h]

theorem JNIEnv.calm_log {env : JNIEnv} (h : env.calm) (c : JniCall) : (env.log c).calm := h

theorem JNIEnv.calm_advance {env : JNIEnv} (h : env.calm) : env.advance.calm := by
  intro f hf
  apply h f
  unfold JNIEnv.advance at hf
  rw [JNIEnv.outcome_of_calm h] at hf
  exact List.mem_of_mem_tail hf

theorem JNIEnv.pending_advance {env : JNIEnv} (h : env.calm) :
    env.advance.pending = env.pending := by
  unfold JNIEnv.advance
  rw [JNIEnv.outcome_of_calm h]

theorem JNIEnv.thrown_log_ThrowNew (env : JNIEnv) (cls : JClass) (msg : String) :
    (env.log (.ThrowNew cls msg)).thrown = env.thrown ++ [{ cls := cls, message := msg }] := by
  simp [JNIEnv.thrown, JNIEnv.log, List.filterMap_append]

theorem JNIEnv.thrown_advance (env : JNIEnv) : env.advance.thrown = env.thrown := by
  unfold JNIEnv.advance
  cases env.outcome <;> rfl

theorem thrown_ThrowNew (env : JNIEnv) (cls : JClass) (msg : String) :
    (ThrowNew env cls msg).2.thrown = env.thrown ++ [{ cls := cls, message := msg }] := by
  unfold ThrowNew
  simp only [JNIEnv.outcome_log]
  cases h : env.outcome with
  | none =>
    show ((env.log (.ThrowNew cls msg)).advance).thrown = _
    rw [JNIEnv.thrown_advance, JNIEnv.thrown_log_ThrowNew]
  | some t =>
    show ((env.log (.ThrowNew cls msg)).advance).thrown = _
    rw [JNIEnv.thrown_advance, JNIEnv.thrown_log_ThrowNew]

theorem thrown_throw_error (env : JNIEnv) (msg : String) :
    (throw_error env msg).2.thrown
      = env.thrown ++ [{ cls := .runtimeException, message := msg }] := by
  unfold throw_error
  simp only
  split
  · show (ExceptionDescribe _).thrown = _
    have : ∀ e : JNIEnv, (ExceptionDescribe e).thrown = e.thrown := by
      intro e
      simp [ExceptionDescribe, JNIEnv.thrown, JNIEnv.log, List.filterMap_append]
    rw [this, thrown_ThrowNew]
  · exact thrown_ThrowNew env _ msg

theorem ThrowNew_ok {env : JNIEnv} (h : env.outcome = none) (cls : JClass) (msg : String) :
    ThrowNew env cls msg
      = (0, { pending := some { cls := cls, message := msg },
              calls := env.calls ++ [.ThrowNew cls msg],
              failures := env.failures.tail }) := by
  have h1 : (env.log (.ThrowNew cls msg)).outcome = none := h
  simp only [ThrowNew, h1, JNIEnv.advance_of_none h1]
  rfl

theorem ThrowNew_fail {env : JNIEnv} {t : Throwable} (h : env.outcome = some t)
    (cls : JClass) (msg : String) :
    ThrowNew env cls msg
      = (-1, { pending := some t,
               calls := env.calls ++ [.ThrowNew cls msg],
               failures := env.failures.tail }) := by
  have h1 : (env.log (.ThrowNew cls msg)).outcome = some t := h
  simp only [ThrowNew, h1, JNIEnv.advance_of_some h1]
  rfl

/-! ## The exception translator -/

/-- C1 (as the claim states it, refuted): `nativeTerminateDisplay` wraps the
engine call `terminateDisplay`; when that call raises a native exception with
the message "boom" (kept on a by-value copy), the managed exception the
wrapper raises has the message "Unhandled C++ exception: boom", which is not
"Unhandled native exception: " followed by "boom". -/
theorem wrapper_prefix_is_not_native :
    (nativeTerminateDisplay (raisingEngine (CppException.ofMessage "boom"))
        (World.single ()) 4096).pending
      = some { cls := .runtimeException, message := "Unhandled C++ exception: boom" }
    ∧ (nativeTerminateDisplay (raisingEngine (CppException.ofMessage "boom"))
        (World.single ()) 4096).pending
      ≠ some { cls := .runtimeException, message := "Unhandled native exception: " ++ "boom" } := by
  decide

/-- C1 (amended): for every statement `code` wrapped by `CPP_TRY_JNI`, as the
engine call of every bridge operation is: if `code` raises a native exception
`e` and the runtime carries out the throw, the wrapper makes one `ThrowNew`
call, of the runtime-exception class, and the exception then pending has the
message "Unhandled C++ exception: " followed by the text `what()` gives on the
handler's copy of `e`. -/
theorem CPP_TRY_JNI_message {σ α : Type} (code : World σ → Except CppException α × World σ)
    (w w1 : World σ) (e : CppException) (hraise : code w = (.error e, w1))
    (hthrow : w1.env.outcome = none) :
    (CPP_TRY_JNI code w).1 = none
    ∧ (CPP_TRY_JNI code w).2.env.pending
        = some { cls := .runtimeException,
                 message := "Unhandled C++ exception: " ++ e.slicedWhat }
    ∧ (CPP_TRY_JNI code w).2.env.calls
        = w1.env.calls
          ++ [.ThrowNew .runtimeException ("Unhandled C++ exception: " ++ e.slicedWhat)] := by
  unfold CPP_TRY_JNI
  rw [hraise]
  simp [World.withEnv, throw_error, ThrowNew_ok hthrow]

/-- C1 (amended), at an engine call that raises "boom" in a world where nothing
fails. -/
theorem CPP_TRY_JNI_message_witness :
    (CPP_TRY_JNI (fun w1 : World Unit =>
        w1.invoke 4096 .terminateDisplay
          ((raisingEngine (CppException.ofMessage "boom")).terminateDisplay ()))
      (World.single ())).2.env.pending
      = some { cls := .runtimeException, message := "Unhandled C++ exception: " ++ "boom" } :=
  (CPP_TRY_JNI_message
    (fun w1 : World Unit =>
      w1.invoke 4096 .terminateDisplay
        ((raisingEngine (CppException.ofMessage "boom")).terminateDisplay ()))
    (World.single ()) _ (CppException.ofMessage "boom") rfl rfl).2.1

/-- C2 (the code at the failing inputs): when the engine call raises a native
exception with the message "boom", each of `nativeInitializeDisplay`,
`nativeInitializeContext`, `nativeCreateSurface` and `nativeCreate` performs
the runtime-exception throw twice: once in the handler of `CPP_TRY_JNI`, and
once more because the result variable still holds its initial value. -/
theorem native_exception_thrown_twice :
    (nativeInitializeDisplay (raisingEngine (CppException.ofMessage "boom"))
        (World.single ()) 4096).thrown
      = [{ cls := .runtimeException, message := "Unhandled C++ exception: boom" },
         { cls := .runtimeException, message := "Unable to initialize GL display." }]
    ∧ (nativeInitializeContext (raisingEngine (CppException.ofMessage "boom"))
        (World.single ()) 4096).thrown
      = [{ cls := .runtimeException, message := "Unhandled C++ exception: boom" },
         { cls := .runtimeException, message := "Unable to initialize GL context." }]
    ∧ (nativeCreateSurface (raisingEngine (CppException.ofMessage "boom"))
        (World.single ()) 4096 (some 1)).thrown
      = [{ cls := .runtimeException, message := "Unhandled C++ exception: boom" },
         { cls := .runtimeException, message := "Unable to create GL surface." }]
    ∧ (nativeCreate (raisingEngine (CppException.ofMessage "boom"))
        (World.fresh Unit) (some [47]) (some [47]) (some [47])).thrown
      = [{ cls := .runtimeException, message := "Unhandled C++ exception: boom" },
         { cls := .runtimeException, message := "Unable to create NativeMapView." }] := by
  decide

/-! ## Null arguments -/

/-- C3 (the code at the failing inputs): with a null string or list reference,
`nativeSetStyleURL`, `nativeSetAccessToken` and `nativeSetAppliedClasses`
raise the null-argument exception and then call the engine method all the
same, with the empty string or the empty sequence. -/
theorem null_argument_reaches_engine :
    ((nativeSetStyleURL storingEngine (World.single []) 4096 none).pending
        = some { cls := .nullPointerException, message := "String cannot be null." }
      ∧ (nativeSetStyleURL storingEngine (World.single []) 4096 none).engineLog
        = [.setStyleURL []])
    ∧ ((nativeSetAccessToken storingEngine (World.single []) 4096 none).pending
        = some { cls := .nullPointerException, message := "String cannot be null." }
      ∧ (nativeSetAccessToken storingEngine (World.single []) 4096 none).engineLog
        = [.setAccessToken []])
    ∧ ((nativeSetAppliedClasses storingEngine (World.single []) 4096 none).pending
        = some { cls := .nullPointerException, message := "List cannot be null." }
      ∧ (nativeSetAppliedClasses storingEngine (World.single []) 4096 none).engineLog
        = [.setAppliedClasses []]) := by
  decide

/-- C4: string import of a null reference returns the empty string, and the
only runtime call it makes is `ThrowNew` of the null-argument class with the
message "String cannot be null." (followed by `ExceptionDescribe` if the
runtime could not raise it): no length or character access.  When the runtime
carries out the throw, the exception pending is that one. -/
theorem std_string_from_jstring_null (env : JNIEnv) :
    (std_string_from_jstring env none).1 = .ok []
    ∧ (std_string_from_jstring env none).2.calls
        = env.calls ++ (.ThrowNew .nullPointerException "String cannot be null."
            :: (if env.outcome = none then [] else [.ExceptionDescribe]))
    ∧ (std_string_from_jstring env none).2.pending
        = (match env.outcome with
           | none => some { cls := .nullPointerException, message := "String cannot be null." }
           | some t => some t) := by
  unfold std_string_from_jstring
  cases h : env.outcome with
  | none => simp [ThrowNew_ok h]
  | some t => simp [ThrowNew_fail h, ExceptionDescribe, JNIEnv.log]

/-- C5 (the code at the failing input): for the managed list `["a", null, "b"]`,
in a runtime where nothing fails, list import returns the sequence `["a"]` as a
normal result and no exception is pending (no `ThrowNew` was made): the null
element ends the import silently. -/
theorem null_element_ends_import_silently :
    (std_vector_string_from_jobject JNIEnv.fresh (some [some [97], none, some [98]])).1
      = .ok [[97]]
    ∧ (std_vector_string_from_jobject JNIEnv.fresh (some [some [97], none, some [98]])).2.pending
      = none
    ∧ (std_vector_string_from_jobject JNIEnv.fresh (some [some [97], none, some [98]])).2.thrown
      = []
    ∧ (nativeSetAppliedClasses storingEngine (World.single [])
        4096 (some [some [97], none, some [98]])).engineLog = [.setAppliedClasses [[97]]]
    ∧ (nativeSetAppliedClasses storingEngine (World.single [])
        4096 (some [some [97], none, some [98]])).pending = none := by
  decide

/-! ## Round trips -/

theorem JNIEnv.outcome_log_of_calm {env : JNIEnv} (h : env.calm) (c : JniCall) :
    (env.log c).outcome = none :=
  JNIEnv.outcome_of_calm (JNIEnv.calm_log h c)

theorem JNIEnv.pending_log_advance {env : JNIEnv} (h : env.calm) (c : JniCall) :
    (env.log c).advance.pending = env.pending := by
  rw [JNIEnv.pending_advance (JNIEnv.calm_log h c)]
  rfl

theorem std_string_to_jstring_calm {env : JNIEnv} (hcalm : env.calm) {s u : List Nat}
    (hs : utf8_to_utf16 s = some u) :
    ∃ env1, std_string_to_jstring env s = (.ok (some u), env1)
      ∧ env1.calm ∧ env1.pending = env.pending := by
  unfold std_string_to_jstring
  simp only [hs, NewString, JNIEnv.outcome_log_of_calm hcalm]
  exact ⟨_, rfl, JNIEnv.calm_advance (JNIEnv.calm_log hcalm _),
    JNIEnv.pending_log_advance hcalm _⟩

theorem std_string_from_jstring_calm {env : JNIEnv} (hcalm : env.calm) {u s : List Nat}
    (hu : utf16_to_utf8 u = some s) :
    ∃ env1, std_string_from_jstring env (some u) = (.ok s, env1)
      ∧ env1.calm ∧ env1.pending = env.pending := by
  unfold std_string_from_jstring
  have hlen : ¬ ((u.length : Int) < 0) := by omega
  have hc1 : (env.log .GetStringLength).calm := JNIEnv.calm_log hcalm _
  simp only [GetStringLength, hlen, if_false, GetStringChars,
    JNIEnv.outcome_log_of_calm hc1, Int.toNat_ofNat, List.take_length, hu]
  refine ⟨_, rfl, ?_, ?_⟩
  · exact JNIEnv.calm_log (JNIEnv.calm_advance (JNIEnv.calm_log hc1 _)) _
  · show ((env.log .GetStringLength).log .GetStringChars).advance.pending = env.pending
    rw [JNIEnv.pending_log_advance hc1]
    rfl

/-- C6 (as the claim states it, refuted).  First, the native string made of
the single byte 0xFF is not UTF-8: its export raises `std::range_error` and
gives no managed string, though no allocation fails.  Second, for the native
string "a", when the allocation of the managed string succeeds and the later
`GetStringChars` of the import fails, the import gives the empty string. -/
theorem ill_formed_string_breaks_export :
    (JNIEnv.fresh.calm ∧ (std_string_to_jstring JNIEnv.fresh [0xFF]).1 = .error range_error)
    ∧ ((std_string_to_jstring
          { JNIEnv.fresh with failures := [none, some outOfMemory] } [97]).1 = .ok (some [97])
      ∧ (std_string_from_jstring
          (std_string_to_jstring
            { JNIEnv.fresh with failures := [none, some outOfMemory] } [97]).2 (some [97])).1
        = .ok []) := by
  decide

/-- C6 (amended): for every native string `s` that is well-formed UTF-8, when
none of the coming runtime calls fails, the export of `s` gives a managed
string, and the import of that managed string gives back `s` byte for byte;
the pending-exception state is left as it was. -/
theorem string_round_trip (env : JNIEnv) (s : List Nat) (hs : utf8_to_utf16 s ≠ none)
    (hcalm : env.calm) :
    ∃ jstr env1 env2, std_string_to_jstring env s = (.ok (some jstr), env1)
      ∧ std_string_from_jstring env1 (some jstr) = (.ok s, env2)
      ∧ env2.pending = env.pending := by
  obtain ⟨u, hu⟩ := Option.ne_none_iff_exists'.mp hs
  obtain ⟨env1, h1, hc1, hp1⟩ := std_string_to_jstring_calm hcalm hu
  have hback : utf16_to_utf8 u = some s := utf16_to_utf8_of_utf8_to_utf16 s.length s u (le_refl _) hu
  obtain ⟨env2, h2, _, hp2⟩ := std_string_from_jstring_calm hc1 hback
  exact ⟨u, env1, env2, h1, h2, by rw [hp2, hp1]⟩

/-- C6 (amended) at the native string "day" in a runtime where nothing fails. -/
theorem string_round_trip_witness :
    ∃ jstr env1 env2, std_string_to_jstring JNIEnv.fresh [100, 97, 121] = (.ok (some jstr), env1)
      ∧ std_string_from_jstring env1 (some jstr) = (.ok [100, 97, 121], env2)
      ∧ env2.pending = JNIEnv.fresh.pending :=
  string_round_trip JNIEnv.fresh [100, 97, 121] (by decide) (by intro f hf; cases hf)

theorem exists_forall₂_of_ne_none {α β : Type} (f : α → Option β) :
    ∀ l : List α, (∀ a ∈ l, f a ≠ none) → ∃ bs, List.Forall₂ (fun a b => f a = some b) l bs := by
  intro l
  induction l with
  | nil => intro _; exact ⟨[], List.Forall₂.nil⟩
  | cons a l ih =>
    intro h
    obtain ⟨b, hb⟩ := Option.ne_none_iff_exists'.mp (h a (List.mem_cons_self a l))
    obtain ⟨bs, hbs⟩ := ih (fun x hx => h x (List.mem_cons_of_mem a hx))
    exact ⟨b :: bs, List.Forall₂.cons hb hbs⟩

theorem std_vector_string_to_jobject_loop_quiet {ss us : List (List Nat)}
    (h : List.Forall₂ (fun s u => utf8_to_utf16 s = some u) ss us) :
    ∀ (env : JNIEnv) (elements : List jstring), env.quiet →
      ∃ env1, std_vector_string_to_jobject_loop ss env elements
          = (.ok (some (elements ++ us.map some)), env1) ∧ env1.quiet := by
  induction h with
  | nil =>
    intro env elements hq
    exact ⟨env, by simp [std_vector_string_to_jobject_loop], hq⟩
  | @cons s u l1 l2 hsu _ ih =>
    intro env elements hq
    obtain ⟨env1, h1, hc1, hp1⟩ := std_string_to_jstring_calm hq.2 hsu
    have hpend : env1.pending = none := by rw [hp1]; exact hq.1
    have hadd : ((env1.log (.CallBooleanMethod (some u))).advance).pending = none := by
      rw [JNIEnv.pending_log_advance hc1]; exact hpend
    rw [std_vector_string_to_jobject_loop, h1]
    simp only [CallBooleanMethod, JNIEnv.outcome_log_of_calm hc1, ExceptionCheck, hadd,
      Option.isSome_none, Bool.false_eq_true, if_false]
    obtain ⟨env2, h2, hq2⟩ := ih ((env1.log (.CallBooleanMethod (some u))).advance.log
      .ExceptionCheck) (elements ++ [some u])
      ⟨hadd, JNIEnv.calm_log (JNIEnv.calm_advance (JNIEnv.calm_log hc1 _)) _⟩
    refine ⟨env2, ?_, hq2⟩
    rw [h2]
    simp

theorem std_vector_string_to_jobject_quiet {ss us : List (List Nat)}
    (h : List.Forall₂ (fun s u => utf8_to_utf16 s = some u) ss us)
    {env : JNIEnv} (hq : env.quiet) :
    ∃ env1, std_vector_string_to_jobject env ss = (.ok (some (us.map some)), env1)
      ∧ env1.quiet := by
  unfold std_vector_string_to_jobject
  simp only [NewObject, JNIEnv.outcome_log_of_calm hq.2]
  obtain ⟨env1, h1, hq1⟩ := std_vector_string_to_jobject_loop_quiet h
    ((env.log .NewObject).advance) []
    ⟨by rw [JNIEnv.pending_log_advance hq.2]; exact hq.1,
      JNIEnv.calm_advance (JNIEnv.calm_log hq.2 _)⟩
  exact ⟨env1, by rw [h1]; simp, hq1⟩

theorem std_vector_string_from_jobject_loop_calm {us ss : List (List Nat)}
    (h : List.Forall₂ (fun u s => utf16_to_utf8 u = some s) us ss) :
    ∀ (env : JNIEnv) (vector : List (List Nat)), env.calm →
      ∃ env1, std_vector_string_from_jobject_loop (us.map some) env vector
          = (.ok (vector ++ ss), env1) ∧ env1.calm ∧ env1.pending = env.pending := by
  induction h with
  | nil =>
    intro env vector hc
    exact ⟨env, by simp [std_vector_string_from_jobject_loop], hc, rfl⟩
  | @cons u s l1 l2 hus _ ih =>
    intro env vector hc
    obtain ⟨env1, h1, hc1, hp1⟩ :=
      std_string_from_jstring_calm (JNIEnv.calm_log hc .GetObjectArrayElement) hus
    obtain ⟨env2, h2, hc2, hp2⟩ := ih env1 (vector ++ [s]) hc1
    refine ⟨env2, ?_, hc2, ?_⟩
    · rw [List.map_cons, std_vector_string_from_jobject_loop]
      simp only [GetObjectArrayElement, h1, h2]
      simp
    · rw [hp2, hp1]
      rfl

theorem std_vector_string_from_jobject_quiet {us ss : List (List Nat)}
    (h : List.Forall₂ (fun u s => utf16_to_utf8 u = some s) us ss)
    {env : JNIEnv} (hq : env.quiet) :
    ∃ env1, std_vector_string_from_jobject env (some (us.map some)) = (.ok ss, env1)
      ∧ env1.quiet := by
  unfold std_vector_string_from_jobject
  have hp : (env.log .CallObjectMethod).advance.pending = none := by
    rw [JNIEnv.pending_log_advance hq.2]; exact hq.1
  have hc : (((env.log .CallObjectMethod).advance.log .ExceptionCheck).log
      .GetArrayLength).calm :=
    JNIEnv.calm_log (JNIEnv.calm_log (JNIEnv.calm_advance (JNIEnv.calm_log hq.2 _)) _) _
  have hlen : ¬ (((us.map some).length : Int) < 0) := by omega
  simp only [CallObjectMethod, JNIEnv.outcome_log_of_calm hq.2, ExceptionCheck, hp,
    Option.isSome_none, GetArrayLength, hlen, if_false, Int.toNat_ofNat, List.take_length]
  obtain ⟨env1, h1, hc1, hp1⟩ := std_vector_string_from_jobject_loop_calm h _ [] hc
  refine ⟨env1, ?_, ?_, hc1⟩
  · rw [h1]; simp
  · rw [hp1]; exact hp

theorem forall₂_utf16_of_utf8 {ss us : List (List Nat)}
    (h : List.Forall₂ (fun s u => utf8_to_utf16 s = some u) ss us) :
    List.Forall₂ (fun u s => utf16_to_utf8 u = some s) us ss := by
  induction h with
  | nil => exact List.Forall₂.nil
  | @cons s u l1 l2 hsu _ ih =>
    exact List.Forall₂.cons (utf16_to_utf8_of_utf8_to_utf16 s.length s u (le_refl _) hsu) ih

theorem forall₂_utf8_of_utf16 {us ss : List (List Nat)}
    (h : List.Forall₂ (fun u s => utf16_to_utf8 u = some s) us ss) :
    List.Forall₂ (fun s u => utf8_to_utf16 s = some u) ss us := by
  induction h with
  | nil => exact List.Forall₂.nil
  | @cons u s l1 l2 hus _ ih =>
    exact List.Forall₂.cons (utf8_to_utf16_of_utf16_to_utf8 u.length u s (le_refl _) hus) ih

/-- C7 (as the claim states it, refuted): the native sequence whose only string
is the single byte 0xFF, in a runtime where no call has failed or fails.  The
string is not UTF-8: the export raises `std::range_error` and gives no managed
list. -/
theorem ill_formed_string_breaks_list_export :
    JNIEnv.fresh.quiet
    ∧ (std_vector_string_to_jobject JNIEnv.fresh [[0xFF]]).1 = .error range_error := by
  decide

/-- C7 (amended): for every native sequence `v` of well-formed UTF-8 strings,
when no runtime call has failed or fails, the export of `v` gives a managed
list, and the import of that list gives back `v`: the same strings, as many,
in the same order. -/
theorem list_round_trip (env : JNIEnv) (v : List (List Nat))
    (hv : ∀ s ∈ v, utf8_to_utf16 s ≠ none) (hq : env.quiet) :
    ∃ elements env1 env2, std_vector_string_to_jobject env v = (.ok (some elements), env1)
      ∧ std_vector_string_from_jobject env1 (some elements) = (.ok v, env2)
      ∧ env2.quiet := by
  obtain ⟨us, hus⟩ := exists_forall₂_of_ne_none utf8_to_utf16 v hv
  obtain ⟨env1, h1, hq1⟩ := std_vector_string_to_jobject_quiet hus hq
  obtain ⟨env2, h2, hq2⟩ := std_vector_string_from_jobject_quiet (forall₂_utf16_of_utf8 hus) hq1
  exact ⟨us.map some, env1, env2, h1, h2, hq2⟩

/-- C7 (amended) at the native sequence `["day", "night"]` in a runtime where
nothing fails. -/
theorem list_round_trip_witness :
    ∃ elements env1 env2,
      std_vector_string_to_jobject JNIEnv.fresh [[100, 97, 121], [110, 105, 103, 104, 116]]
        = (.ok (some elements), env1)
      ∧ std_vector_string_from_jobject env1 (some elements)
        = (.ok [[100, 97, 121], [110, 105, 103, 104, 116]], env2)
      ∧ env2.quiet :=
  list_round_trip JNIEnv.fresh [[100, 97, 121], [110, 105, 103, 104, 116]] (by decide)
    ⟨rfl, by intro f hf; cases hf⟩

/-- C8 (as the claim states it, refuted), over the storing engine, the live
handle 4096 and an instance with no applied classes.  First, for the list
whose only string is the lone surrogate U+DC00 (a non-null managed string that
is not well-formed UTF-16): the import raises `std::range_error`, the engine
is never given the list, and `getAppliedClasses` then returns the empty list.
Second, for the list `["day"]` when the runtime's `toArray` call fails: the
engine is given the empty sequence, and `getAppliedClasses` returns the empty
list. -/
theorem ill_formed_list_breaks_applied_classes :
    ((nativeSetAppliedClasses storingEngine (World.single ([] : List (List Nat))) 4096
          (some [some [0xDC00]])).engineLog = []
      ∧ ((nativeSetAppliedClasses storingEngine (World.single ([] : List (List Nat))) 4096
          (some [some [0xDC00]])).world.map
            fun w1 => (nativeGetAppliedClasses storingEngine w1 4096).ret)
        = some (some (some [])))
    ∧ ((nativeSetAppliedClasses storingEngine
          ((World.single ([] : List (List Nat))).withEnv
            { JNIEnv.fresh with failures := [some outOfMemory] }) 4096
          (some [some [100, 97, 121]])).engineLog = [.setAppliedClasses []]
      ∧ ((nativeSetAppliedClasses storingEngine
          ((World.single ([] : List (List Nat))).withEnv
            { JNIEnv.fresh with failures := [some outOfMemory] }) 4096
          (some [some [100, 97, 121]])).world.map
            fun w1 => (nativeGetAppliedClasses storingEngine w1 4096).ret)
        = some (some (some []))) := by
  exact ⟨⟨by decide, by decide⟩, by decide, by decide⟩

/-- C8 (amended): over an engine that stores the applied classes it is given
and returns them unchanged, for every live handle `H` and every non-null
managed list `L` of non-null strings of well-formed UTF-16, when no runtime
call has failed or fails: `setAppliedClasses(H, L)` returns, and
`getAppliedClasses(H)` then returns a list equal to `L`, element for element
and in the same order. -/
theorem applied_classes_round_trip {σ : Type} (E : Engine σ) (w : World σ) (H : Nat) (s : σ)
    (L : List (List Nat)) (hE : E.StoresAppliedClasses) (hH : H ≠ 0)
    (hlive : w.views H = some s) (hq : w.env.quiet)
    (hL : ∀ u ∈ L, utf16_to_utf8 u ≠ none) :
    ∃ w1 w2, nativeSetAppliedClasses E w H (some (L.map some)) = .returned () w1
      ∧ nativeGetAppliedClasses E w1 H = .returned (some (L.map some)) w2
      ∧ w2.env.quiet := by
  obtain ⟨ss, hss⟩ := exists_forall₂_of_ne_none utf16_to_utf8 L hL
  obtain ⟨env1, h1, hq1⟩ := std_vector_string_from_jobject_quiet hss hq
  obtain ⟨s1, s2, hset, hget⟩ := hE ss s
  obtain ⟨env2, h2, hq2⟩ := std_vector_string_to_jobject_quiet (forall₂_utf8_of_utf16 hss) hq1
  refine ⟨((w.withEnv env1).invoke H (.setAppliedClasses ss)
    ((Except.ok () : Except CppException Unit), s1)).2, ?_⟩
  have hlive1 : (((w.withEnv env1).invoke H (.setAppliedClasses ss)
      ((Except.ok () : Except CppException Unit), s1)).2).views H = some s1 := by
    simp [World.invoke]
  refine ⟨((((w.withEnv env1).invoke H (.setAppliedClasses ss)
      ((Except.ok () : Except CppException Unit), s1)).2.invoke H .getAppliedClasses
        ((Except.ok ss : Except CppException (List (List Nat))), s2)).2).withEnv env2, ?_, ?_, ?_⟩
  · unfold nativeSetAppliedClasses
    simp only [hH, if_false, hlive, COFFEE_TRY_JNI, CPP_TRY_JNI, h1, hset]
    rfl
  · unfold nativeGetAppliedClasses
    simp only [hH, if_false, hlive1, COFFEE_TRY_JNI, CPP_TRY_JNI, hget]
    have henv : (((w.withEnv env1).invoke H (.setAppliedClasses ss)
        ((Except.ok () : Except CppException Unit), s1)).2.invoke H .getAppliedClasses
          ((Except.ok ss : Except CppException (List (List Nat))), s2)).2.env = env1 := rfl
    simp only [World.invoke, World.withEnv] at henv ⊢
    simp only [h2, Option.getD_some]
  · exact hq2

/-- C8 (amended) at the list `["day", "night"]`, over the storing engine and
the live handle 4096. -/
theorem applied_classes_round_trip_witness :
    ∃ w1 w2, nativeSetAppliedClasses storingEngine (World.single []) 4096
        (some ([[100, 97, 121], [110, 105, 103, 104, 116]].map some)) = .returned () w1
      ∧ nativeGetAppliedClasses storingEngine w1 4096
        = .returned (some ([[100, 97, 121], [110, 105, 103, 104, 116]].map some)) w2
      ∧ w2.env.quiet :=
  applied_classes_round_trip storingEngine (World.single []) 4096 []
    [[100, 97, 121], [110, 105, 103, 104, 116]]
    (fun classes _ => ⟨classes, classes, rfl, rfl⟩) (by decide) rfl
    ⟨rfl, by intro f hf; cases hf⟩ (by decide)

/-! ## Creation of an engine instance -/

theorem std_string_from_jstring_returns (env : JNIEnv) (jstr : jstring)
    (h : importable jstr = true) :
    ∃ str env1, std_string_from_jstring env jstr = (.ok str, env1) := by
  cases jstr with
  | none =>
    unfold std_string_from_jstring
    simp only
    split
    · exact ⟨_, _, rfl⟩
    · exact ⟨_, _, rfl⟩
  | some units =>
    unfold std_string_from_jstring
    simp only [GetStringLength]
    have hlen : ¬ ((units.length : Int) < 0) := by omega
    simp only [hlen, if_false]
    split
    · exact ⟨_, _, rfl⟩
    · rename_i cs hcs
      have hcs2 : cs = units := by
        unfold GetStringChars at hcs
        simp only at hcs
        split at hcs
        · exact (Option.some.inj hcs).symm
        · exact absurd hcs (by simp)
      subst hcs2
      simp only [Int.toNat_ofNat, List.take_length]
      simp only [importable, Option.isSome_iff_exists] at h
      obtain ⟨str, hstr⟩ := h
      rw [hstr]
      exact ⟨_, _, rfl⟩

/-- C9: when the three path strings can be imported (each is null or
well-formed UTF-16), `nativeCreate` returns, and the handle it returns is
non-zero exactly when `new NativeMapView(env, obj)` gave an instance: it is then
the address of that instance.  When the construction raised instead, the
handle is 0 and the last exception thrown is a runtime exception with the
message "Unable to create NativeMapView.". -/
theorem nativeCreate_handle {σ : Type} (E : Engine σ) (w : World σ)
    (cachePath_ dataPath_ apkPath_ : jstring)
    (hc : importable cachePath_ = true) (hd : importable dataPath_ = true)
    (ha : importable apkPath_ = true) :
    ∃ h w1, nativeCreate E w cachePath_ dataPath_ apkPath_ = .returned h w1
      ∧ (h ≠ 0 ↔ ∃ p s, E.construct = .ok (p, s))
      ∧ (∀ p s, E.construct = .ok (p, s) → h = p.addr ∧ w1.views h = some s)
      ∧ (∀ e, E.construct = .error e →
          h = 0 ∧ w1.env.thrown.getLast?
            = some { cls := .runtimeException, message := "Unable to create NativeMapView." }) := by
  obtain ⟨s1, env1, h1⟩ := std_string_from_jstring_returns w.env cachePath_ hc
  obtain ⟨s2, env2, h2⟩ := std_string_from_jstring_returns env1 dataPath_ hd
  obtain ⟨s3, env3, h3⟩ := std_string_from_jstring_returns env2 apkPath_ ha
  unfold nativeCreate
  simp only [h1, h2, h3, COFFEE_TRY_JNI, CPP_TRY_JNI, World.construct]
  cases hE : E.construct with
  | error e =>
    refine ⟨0, _, rfl, ?_, ?_, ?_⟩
    · simp
    · intro p s hps
      exact absurd hps (by simp)
    · intro e1 _
      refine ⟨rfl, ?_⟩
      simp only [World.withEnv]
      rw [thrown_throw_error]
      simp
  | ok ps =>
    obtain ⟨p, s⟩ := ps
    refine ⟨p.addr, _, rfl, ?_, ?_, ?_⟩
    · constructor
      · intro _
        exact ⟨p, s, rfl⟩
      · intro _
        exact p.nonnull
    · intro p1 s1 hps
      have hp : p = p1 ∧ s = s1 := by simpa using hps
      obtain ⟨rfl, rfl⟩ := hp
      exact ⟨rfl, by simp⟩
    · intro e he
      exact absurd he (by simp)

/-- C9 at `create("/cache", "/data", "/apk")` over an engine whose construction
succeeds. -/
theorem nativeCreate_handle_witness :
    ∃ h w1, nativeCreate storingEngine (World.fresh (List (List Nat)))
        (some [47, 99, 97, 99, 104, 101]) (some [47, 100, 97, 116, 97])
        (some [47, 97, 112, 107]) = .returned h w1
      ∧ (h ≠ 0 ↔ ∃ p s, storingEngine.construct = .ok (p, s))
      ∧ (∀ p s, storingEngine.construct = .ok (p, s) → h = p.addr ∧ w1.views h = some s)
      ∧ (∀ e, storingEngine.construct = .error e →
          h = 0 ∧ w1.env.thrown.getLast?
            = some { cls := .runtimeException, message := "Unable to create NativeMapView." }) :=
  nativeCreate_handle storingEngine (World.fresh (List (List Nat)))
    (some [47, 99, 97, 99, 104, 101]) (some [47, 100, 97, 116, 97]) (some [47, 97, 112, 107])
    (by decide) (by decide) (by decide)

/-- C10 (the code at the failing input): `create(null, "/data", "/apk")` over an
engine whose construction succeeds.  The import of the null path raises the
null-argument exception, and `nativeCreate` goes on: it constructs the
engine instance and returns its address, 4096, as the handle, with the
exception still pending. -/
theorem nativeCreate_null_path_constructs :
    (nativeCreate storingEngine (World.fresh (List (List Nat)))
        none (some [47, 100, 97, 116, 97]) (some [47, 97, 112, 107])).ret = some 4096
    ∧ (nativeCreate storingEngine (World.fresh (List (List Nat)))
        none (some [47, 100, 97, 116, 97]) (some [47, 97, 112, 107])).engineLog = [.construct]
    ∧ (nativeCreate storingEngine (World.fresh (List (List Nat)))
        none (some [47, 100, 97, 116, 97]) (some [47, 97, 112, 107])).pending
      = some { cls := .nullPointerException, message := "String cannot be null." } := by
  decide

/-! ## The handle assertion -/

/-- C11: every handler other than `nativeCreate` ends in the assertion failure
when it is called with the handle 0, whatever its other arguments, the engine
and the world are: the assertion comes before any engine call, any
marshalling and any managed exception, none of which the outcome holds. -/
theorem zero_handle_asserts (σ : Type) (h : Handler) (hne : h ≠ .nativeCreate) :
    (h.fn σ).assertsOnZero := by
  cases h <;> first
    | exact absurd rfl hne
    | (simp only [Handler.fn, Fn.assertsOnZero]; intros; rfl)

/-- C11 at `nativeSetLonLat`, which reads the fields of its argument before its
engine call. -/
theorem zero_handle_asserts_witness : (Handler.fn Unit .nativeSetLonLat).assertsOnZero :=
  zero_handle_asserts Unit .nativeSetLonLat (by decide)

/-! ## The call dispatch table -/

theorem methods_length : methods.length = 59 := by decide

theorem ctype_fn (σ : Type) (h : Handler) : (h.fn σ).ctype = (h.fn Unit).ctype := by
  cases h <;> rfl

theorem aborted_assertionFailed {α σ : Type} :
    (Outcome.assertionFailed : Outcome α σ).aborted = true := rfl

theorem forward_engineLog {σ : Type} (w : World σ) (H : Nat) (c : EngineCall)
    (m : σ → Except CppException Unit × σ) (view : σ) (hH : H ≠ 0)
    (hlive : w.views H = some view) :
    (forward w H c m).engineLog = w.engineLog ++ [c] ∧ (forward w H c m).aborted = false := by
  unfold forward
  simp only [hH, if_false, hlive, COFFEE_TRY_JNI, CPP_TRY_JNI, World.invoke]
  cases (m view).1 <;> exact ⟨rfl, rfl⟩

theorem toUint16_of_range (x : Int) (h0 : 0 ≤ x) (h1 : x ≤ 65535) : (toUint16 x : Int) = x := by
  unfold toUint16
  omega

/-- C12 (the code at the failing input, the table itself): the entries of lines
874 and 875 register `nativeStartScaling` and `nativeStopScaling` under the
names "nativeStartPanning" and "nativeStopPanning", so each of these two keys
has two entries, no entry has the name "nativeStartScaling" or
"nativeStopScaling", and the keys of the table are not pairwise distinct. -/
theorem scaling_handlers_registered_as_panning :
    registered "nativeStartPanning" "(J)V" = [.nativeStartPanning, .nativeStartScaling]
    ∧ registered "nativeStopPanning" "(J)V" = [.nativeStopPanning, .nativeStopScaling]
    ∧ registered "nativeStartScaling" "(J)V" = []
    ∧ registered "nativeStopScaling" "(J)V" = []
    ∧ ¬ (methods.map JNINativeMethod.key).Nodup := by
  decide

/-- C13: the table has one entry for each of the keys (nativeResize, "(JIIF)V"),
(nativeResize, "(JIIFII)V"), (nativeSetBearing, "(JDD)V") and (nativeSetBearing,
"(JDDD)V"); the handlers they point to are the overloads that, for a live
handle (and sizes that pass the assertions), call the engine's
`resize(width, height, ratio)`, `resize(width, height, ratio, fbWidth, fbHeight)`,
`setBearing(degrees, duration)` and `setBearing(degrees, cx, cy)`. -/
theorem overloads_dispatch {σ : Type} (E : Engine σ) (w : World σ) (H : Nat) (view : σ)
    (width height fbWidth fbHeight : Int) (ratio : jfloat) (degrees duration cx cy : jdouble)
    (hH : H ≠ 0) (hlive : w.views H = some view)
    (hw : 0 ≤ width ∧ width ≤ 65535) (hh : 0 ≤ height ∧ height ≤ 65535)
    (hfw : 0 ≤ fbWidth ∧ fbWidth ≤ 65535) (hfh : 0 ≤ fbHeight ∧ fbHeight ≤ 65535) :
    (registered "nativeResize" "(JIIF)V" = [.nativeResize_JIIF]
      ∧ Handler.fn σ .nativeResize_JIIF = .resize3 nativeResize_JIIF
      ∧ (nativeResize_JIIF E w H width height ratio).engineLog
        = w.engineLog ++ [.resize3 (toUint16 width) (toUint16 height) ratio])
    ∧ (registered "nativeResize" "(JIIFII)V" = [.nativeResize_JIIFII]
      ∧ Handler.fn σ .nativeResize_JIIFII = .resize5 nativeResize_JIIFII
      ∧ (nativeResize_JIIFII E w H width height ratio fbWidth fbHeight).engineLog
        = w.engineLog ++ [.resize5 (toUint16 width) (toUint16 height) ratio
            (toUint16 fbWidth) (toUint16 fbHeight)])
    ∧ (registered "nativeSetBearing" "(JDD)V" = [.nativeSetBearing_JDD]
      ∧ Handler.fn σ .nativeSetBearing_JDD = .double2 nativeSetBearing_JDD
      ∧ (nativeSetBearing_JDD E w H degrees duration).engineLog
        = w.engineLog ++ [.setBearing2 degrees duration])
    ∧ (registered "nativeSetBearing" "(JDDD)V" = [.nativeSetBearing_JDDD]
      ∧ Handler.fn σ .nativeSetBearing_JDDD = .double3 nativeSetBearing_JDDD
      ∧ (nativeSetBearing_JDDD E w H degrees cx cy).engineLog
        = w.engineLog ++ [.setBearing3 degrees cx cy]) := by
  refine ⟨⟨by decide, rfl, ?_⟩, ⟨by decide, rfl, ?_⟩, ⟨by decide, rfl, ?_⟩, ⟨by decide, rfl, ?_⟩⟩
  · unfold nativeResize_JIIF
    simp only [hH, if_false, ge_iff_le, hw.1, hw.2, hh.1, hh.2, not_true_eq_false]
    exact (forward_engineLog w H _ _ view hH hlive).1
  · unfold nativeResize_JIIFII
    simp only [hH, if_false, ge_iff_le, hw.1, hw.2, hh.1, hh.2, hfw.1, hfw.2, hfh.1, hfh.2,
      not_true_eq_false]
    exact (forward_engineLog w H _ _ view hH hlive).1
  · exact (forward_engineLog w H _ _ view hH hlive).1
  · exact (forward_engineLog w H _ _ view hH hlive).1

/-- C13 at `resize(4096, 800, 600, ratio)` over the storing engine. -/
theorem overloads_dispatch_witness :
    (nativeResize_JIIF storingEngine (World.single ([] : List (List Nat))) 4096 800 600
        1065353216).engineLog
      = (World.single ([] : List (List Nat))).engineLog
        ++ [.resize3 (toUint16 800) (toUint16 600) 1065353216] :=
  (overloads_dispatch storingEngine (World.single ([] : List (List Nat))) 4096 [] 800 600
    1600 1200 1065353216 0 0 0 0 (by decide) rfl (by decide) (by decide) (by decide)
    (by decide)).1.2.2

/-- C14: for every entry of the table, decoding its signature string gives the
parameter types of the handler it points to, after the two fixed leading
parameters and in the same order, and the result type of that handler. -/
theorem signatures_match_handlers (σ : Type) (m : JNINativeMethod) (hm : m ∈ methods) :
    decodeSignature m.signature
      = some ((m.fnPtr.fn σ).ctype.1.map CType.jtype, (m.fnPtr.fn σ).ctype.2.jtype) := by
  rw [ctype_fn]
  revert m
  decide

/-- C14 at the entry of the five-argument `nativeResize`. -/
theorem signatures_match_handlers_witness :
    decodeSignature "(JIIFII)V" = some ([.long, .int, .int, .float, .int, .int], .void) :=
  signatures_match_handlers Unit
    { name := "nativeResize", signature := "(JIIFII)V", fnPtr := .nativeResize_JIIFII }
    (by decide)

/-- C18: for a live handle, the assertions of the three-argument `nativeResize`
pass exactly when `width` and `height` are between 0 and 65535, those of the
five-argument one exactly when `fbWidth` and `fbHeight` are so too; and then
the engine's `resize` is called with the 16-bit values of the arguments, which
are the arguments themselves. -/
theorem nativeResize_range {σ : Type} (E : Engine σ) (w : World σ) (H : Nat) (view : σ)
    (width height fbWidth fbHeight : Int) (ratio : jfloat)
    (hH : H ≠ 0) (hlive : w.views H = some view) :
    ((nativeResize_JIIF E w H width height ratio).aborted = false
        ↔ (0 ≤ width ∧ width ≤ 65535) ∧ (0 ≤ height ∧ height ≤ 65535))
    ∧ ((0 ≤ width ∧ width ≤ 65535) ∧ (0 ≤ height ∧ height ≤ 65535) →
        (nativeResize_JIIF E w H width height ratio).engineLog
          = w.engineLog ++ [.resize3 (toUint16 width) (toUint16 height) ratio]
        ∧ (toUint16 width : Int) = width ∧ (toUint16 height : Int) = height)
    ∧ ((nativeResize_JIIFII E w H width height ratio fbWidth fbHeight).aborted = false
        ↔ ((0 ≤ width ∧ width ≤ 65535) ∧ (0 ≤ height ∧ height ≤ 65535))
          ∧ (0 ≤ fbWidth ∧ fbWidth ≤ 65535) ∧ (0 ≤ fbHeight ∧ fbHeight ≤ 65535))
    ∧ (((0 ≤ width ∧ width ≤ 65535) ∧ (0 ≤ height ∧ height ≤ 65535))
          ∧ (0 ≤ fbWidth ∧ fbWidth ≤ 65535) ∧ (0 ≤ fbHeight ∧ fbHeight ≤ 65535) →
        (nativeResize_JIIFII E w H width height ratio fbWidth fbHeight).engineLog
          = w.engineLog ++ [.resize5 (toUint16 width) (toUint16 height) ratio
              (toUint16 fbWidth) (toUint16 fbHeight)]
        ∧ (toUint16 width : Int) = width ∧ (toUint16 height : Int) = height
        ∧ (toUint16 fbWidth : Int) = fbWidth ∧ (toUint16 fbHeight : Int) = fbHeight) := by
  have f3 := forward_engineLog w H (.resize3 (toUint16 width) (toUint16 height) ratio)
    (E.resize3 (toUint16 width) (toUint16 height) ratio) view hH hlive
  have f5 := forward_engineLog w H
    (.resize5 (toUint16 width) (toUint16 height) ratio (toUint16 fbWidth) (toUint16 fbHeight))
    (E.resize5 (toUint16 width) (toUint16 height) ratio (toUint16 fbWidth) (toUint16 fbHeight))
    view hH hlive
  refine ⟨?_, ?_, ?_, ?_⟩
  · unfold nativeResize_JIIF
    simp only [hH, if_false]
    by_cases a1 : width ≥ 0 <;> by_cases a2 : height ≥ 0 <;> by_cases a3 : width ≤ 65535
      <;> by_cases a4 : height ≤ 65535
      <;> simp [a1, a2, a3, a4, f3.2, aborted_assertionFailed]
  · rintro ⟨⟨a1, a3⟩, a2, a4⟩
    unfold nativeResize_JIIF
    simp only [hH, if_false, ge_iff_le, a1, a2, a3, a4, not_true_eq_false]
    exact ⟨f3.1, toUint16_of_range _ a1 a3, toUint16_of_range _ a2 a4⟩
  · unfold nativeResize_JIIFII
    simp only [hH, if_false]
    by_cases a1 : width ≥ 0 <;> by_cases a2 : height ≥ 0 <;> by_cases a3 : width ≤ 65535
      <;> by_cases a4 : height ≤ 65535 <;> by_cases a5 : fbWidth ≥ 0
      <;> by_cases a6 : fbHeight ≥ 0 <;> by_cases a7 : fbWidth ≤ 65535
      <;> by_cases a8 : fbHeight ≤ 65535
      <;> simp [a1, a2, a3, a4, a5, a6, a7, a8, f5.2, aborted_assertionFailed]
  · rintro ⟨⟨⟨a1, a3⟩, a2, a4⟩, ⟨a5, a7⟩, a6, a8⟩
    unfold nativeResize_JIIFII
    simp only [hH, if_false, ge_iff_le, a1, a2, a3, a4, a5, a6, a7, a8, not_true_eq_false]
    exact ⟨f5.1, toUint16_of_range _ a1 a3, toUint16_of_range _ a2 a4,
      toUint16_of_range _ a5 a7, toUint16_of_range _ a6 a8⟩

/-- C18 at a width above the range: `resize(4096, 65536, 600, ratio)` over the
storing engine ends in the assertion failure. -/
theorem nativeResize_range_witness :
    ((nativeResize_JIIF storingEngine (World.single ([] : List (List Nat))) 4096 65536 600
        1065353216).aborted = false
      ↔ ((0 : Int) ≤ 65536 ∧ (65536 : Int) ≤ 65535) ∧ ((0 : Int) ≤ 600 ∧ (600 : Int) ≤ 65535)) :=
  (nativeResize_range storingEngine (World.single ([] : List (List Nat))) 4096 [] 65536 600
    0 0 1065353216 (by decide) rfl).1

/-! ## Value objects -/

/-- C19 (the code at the failing input): when the engine's `getLonLat` raises a
native exception, `nativeGetLonLat` throws the runtime exception and then still
calls `NewObject` with the placeholder coordinates, and returns the `LonLat`
object (0.0, 0.0) with the exception pending; likewise `nativeGetLonLatZoom`
returns the object (0.0, 0.0, 0.0). -/
theorem raised_getLonLat_builds_placeholder :
    ((nativeGetLonLat (raisingEngine (CppException.ofMessage "boom")) (World.single ()) 4096).ret
        = some (some { lon := 0, lat := 0 })
      ∧ (nativeGetLonLat (raisingEngine (CppException.ofMessage "boom")) (World.single ())
          4096).calls
        = [.ThrowNew .runtimeException "Unhandled C++ exception: boom", .NewObjectLonLat 0 0]
      ∧ (nativeGetLonLat (raisingEngine (CppException.ofMessage "boom")) (World.single ())
          4096).pending
        = some { cls := .runtimeException, message := "Unhandled C++ exception: boom" })
    ∧ ((nativeGetLonLatZoom (raisingEngine (CppException.ofMessage "boom")) (World.single ())
          4096).ret
        = some (some { lon := 0, lat := 0, zoom := 0 })
      ∧ (nativeGetLonLatZoom (raisingEngine (CppException.ofMessage "boom")) (World.single ())
          4096).calls
        = [.ThrowNew .runtimeException "Unhandled C++ exception: boom",
           .NewObjectLonLatZoom 0 0 0]
      ∧ (nativeGetLonLatZoom (raisingEngine (CppException.ofMessage "boom")) (World.single ())
          4096).pending
        = some { cls := .runtimeException, message := "Unhandled C++ exception: boom" }) := by
  exact ⟨⟨by decide, by decide, by decide⟩, by decide, by decide, by decide⟩

/-! ## Debug and frame-rate reporting -/

/-- C21: over an engine that keeps a debug flag and an fps-enabled state and
raises nothing in the calls about them, for a live handle: `nativeSetDebug`
calls the engine's `setDebug(b)` and then `enableFps(b)`; `nativeToggleDebug`
calls `toggleDebug()`, then `getDebug()`, then `enableFps` with the value
`getDebug()` returned, which is the flag after the toggle.  After either
operation the fps-enabled state of the instance equals its debug flag. -/
theorem debug_keeps_fps_in_step {σ : Type} (E : Engine σ) (w : World σ) (H : Nat) (s : σ)
    (b : Bool) (debug fps : σ → Bool) (hE : E.TracksDebug debug fps) (hH : H ≠ 0)
    (hlive : w.views H = some s) :
    (∃ w1 s1, nativeSetDebug E w H b = .returned () w1
      ∧ w1.engineLog = w.engineLog ++ [.setDebug b, .enableFps b]
      ∧ w1.views H = some s1 ∧ debug s1 = b ∧ fps s1 = debug s1)
    ∧ (∃ w1 s1, nativeToggleDebug E w H = .returned () w1
      ∧ w1.engineLog = w.engineLog ++ [.toggleDebug, .getDebug, .enableFps (!debug s)]
      ∧ w1.views H = some s1 ∧ debug s1 = (!debug s) ∧ fps s1 = debug s1) := by
  obtain ⟨hset, htoggle, hget, hfps⟩ := hE
  constructor
  · obtain ⟨s1, e1, d1⟩ := hset b s
    obtain ⟨s2, e2, f2, d2⟩ := hfps b s1
    refine ⟨((w.invoke H (.setDebug b) ((Except.ok () : Except CppException Unit), s1)).2.invoke
      H (.enableFps b) ((Except.ok () : Except CppException Unit), s2)).2, s2, ?_, ?_, ?_, ?_, ?_⟩
    · unfold nativeSetDebug
      simp only [hH, if_false, hlive, COFFEE_TRY_JNI, CPP_TRY_JNI, e1, e2]
      rfl
    · simp [World.invoke]
    · simp [World.invoke]
    · rw [d2, d1]
    · rw [f2, d2, d1]
  · obtain ⟨s1, e1, d1⟩ := htoggle s
    obtain ⟨s2, e2, d2⟩ := hget s1
    obtain ⟨s3, e3, f3, d3⟩ := hfps (debug s1) s2
    refine ⟨(((w.invoke H .toggleDebug ((Except.ok () : Except CppException Unit), s1)).2.invoke
      H .getDebug ((Except.ok (debug s1) : Except CppException Bool), s2)).2.invoke
      H (.enableFps (debug s1)) ((Except.ok () : Except CppException Unit), s3)).2,
      s3, ?_, ?_, ?_, ?_, ?_⟩
    · unfold nativeToggleDebug
      simp only [hH, if_false, hlive, COFFEE_TRY_JNI, CPP_TRY_JNI, World.invoke, e1, e2, e3]
    · simp [World.invoke, d1]
    · simp [World.invoke]
    · rw [d3, d2, d1]
    · rw [f3, d3, d2]

/-- C21 at `setDebug(4096, true)` and `toggleDebug(4096)` over the engine
`debugEngine`, for an instance with the flag and the fps-enabled state off. -/
theorem debug_keeps_fps_in_step_witness :
    (∃ w1 s1, nativeSetDebug debugEngine (World.single (false, false)) 4096 true
        = .returned () w1
      ∧ w1.engineLog = (World.single (false, false)).engineLog
          ++ [.setDebug true, .enableFps true]
      ∧ w1.views 4096 = some s1 ∧ s1.1 = true ∧ s1.2 = s1.1)
    ∧ (∃ w1 s1, nativeToggleDebug debugEngine (World.single (false, false)) 4096
        = .returned () w1
      ∧ w1.engineLog = (World.single (false, false)).engineLog
          ++ [.toggleDebug, .getDebug, .enableFps (!false)]
      ∧ w1.views 4096 = some s1 ∧ s1.1 = (!false) ∧ s1.2 = s1.1) :=
  debug_keeps_fps_in_step debugEngine (World.single (false, false)) 4096 (false, false) true
    (fun s => s.1) (fun s => s.2)
    ⟨fun _ _ => ⟨_, rfl, rfl⟩, fun _ => ⟨_, rfl, rfl⟩, fun _ => ⟨_, rfl, rfl⟩,
      fun _ _ => ⟨_, rfl, rfl, rfl⟩⟩
    (by decide) rfl

/-! ## Load and unload -/

theorem JNI_OnLoad_of_succeeds (vm : JavaVM) (cache : Cache) (hEnv : vm.getEnv = JNI_OK)
    (hok : ∀ c ∈ (JNI_OnLoad JavaVM.sound Cache.empty).calls, vm.succeeds c = true) :
    JNI_OnLoad vm cache = JNI_OnLoad JavaVM.sound Cache.empty := by
  have h1 : vm.succeeds (.FindClass "com/mapbox/mapboxgl/lib/LonLat") = true := hok _ (by decide)
  have h2 : vm.succeeds (.GetMethodID (some (.local "com/mapbox/mapboxgl/lib/LonLat")) "<init>" "(DD)V") = true := hok _ (by decide)
  have h3 : vm.succeeds (.GetFieldID (some (.local "com/mapbox/mapboxgl/lib/LonLat")) "lon" "D") = true := hok _ (by decide)
  have h4 : vm.succeeds (.GetFieldID (some (.local "com/mapbox/mapboxgl/lib/LonLat")) "lat" "D") = true := hok _ (by decide)
  have h5 : vm.succeeds (.FindClass "com/mapbox/mapboxgl/lib/LonLatZoom") = true := hok _ (by decide)
  have h6 : vm.succeeds (.GetMethodID (some (.local "com/mapbox/mapboxgl/lib/LonLatZoom")) "<init>" "(DDD)V") = true := hok _ (by decide)
  have h7 : vm.succeeds (.GetFieldID (some (.local "com/mapbox/mapboxgl/lib/LonLatZoom")) "lon" "D") = true := hok _ (by decide)
  have h8 : vm.succeeds (.GetFieldID (some (.local "com/mapbox/mapboxgl/lib/LonLatZoom")) "lat" "D") = true := hok _ (by decide)
  have h9 : vm.succeeds (.GetFieldID (some (.local "com/mapbox/mapboxgl/lib/LonLatZoom")) "zoom" "D") = true := hok _ (by decide)
  have h10 : vm.succeeds (.FindClass "com/mapbox/mapboxgl/lib/NativeMapView") = true := hok _ (by decide)
  have h11 : vm.succeeds (.GetMethodID (some (.local "com/mapbox/mapboxgl/lib/NativeMapView")) "onMapChanged" "()V") = true := hok _ (by decide)
  have h12 : vm.succeeds (.GetMethodID (some (.local "com/mapbox/mapboxgl/lib/NativeMapView")) "onFpsChanged" "(D)V") = true := hok _ (by decide)
  have h13 : vm.succeeds (.FindClass "java/lang/RuntimeException") = true := hok _ (by decide)
  have h14 : vm.succeeds (.FindClass "java/lang/NullPointerException") = true := hok _ (by decide)
  have h15 : vm.succeeds (.FindClass "java/util/List") = true := hok _ (by decide)
  have h16 : vm.succeeds (.GetMethodID (some (.local "java/util/List")) "toArray" "()[Ljava/lang/Object;") = true := hok _ (by decide)
  have h17 : vm.succeeds (.FindClass "java/util/ArrayList") = true := hok _ (by decide)
  have h18 : vm.succeeds (.GetMethodID (some (.local "java/util/ArrayList")) "<init>" "()V") = true := hok _ (by decide)
  have h19 : vm.succeeds (.GetMethodID (some (.local "java/util/ArrayList")) "add" "(Ljava/lang/Object;)Z") = true := hok _ (by decide)
  have h20 : vm.succeeds (.RegisterNatives (some (.local "com/mapbox/mapboxgl/lib/NativeMapView")) 59) = true := hok _ (by decide)
  have h21 : vm.succeeds (.NewGlobalRef (some (.local "com/mapbox/mapboxgl/lib/LonLat"))) = true := hok _ (by decide)
  have h22 : vm.succeeds (.NewGlobalRef (some (.local "com/mapbox/mapboxgl/lib/LonLatZoom"))) = true := hok _ (by decide)
  have h23 : vm.succeeds (.NewGlobalRef (some (.local "java/lang/RuntimeException"))) = true := hok _ (by decide)
  have h24 : vm.succeeds (.NewGlobalRef (some (.local "java/lang/NullPointerException"))) = true := hok _ (by decide)
  have h25 : vm.succeeds (.NewGlobalRef (some (.local "java/util/ArrayList"))) = true := hok _ (by decide)
  simp [JNI_OnLoad, JavaVM.FindClass, JavaVM.GetMethodID, JavaVM.GetFieldID, JavaVM.RegisterNatives,
    JavaVM.NewGlobalRef, ClassRef.name, methods_length, hEnv, h1, h2, h3, h4, h5, h6, h7, h8, h9,
    h10, h11, h12, h13, h14, h15, h16, h17, h18, h19, h20, h21, h22, h23, h24, h25, JavaVM.sound,
    Cache.empty]

/-- C15 (as the claim states it, refuted): when obtaining the environment fails
(here with the status -2), unload returns at once: the cache a successful load
filled is left as it was, every entry non-null. -/
theorem unload_without_environment_keeps_cache :
    (JNI_OnUnload (JavaVM.detached (-2)) (JNI_OnLoad JavaVM.sound Cache.empty).cache).cache
      = (JNI_OnLoad JavaVM.sound Cache.empty).cache
    ∧ (JNI_OnLoad JavaVM.sound Cache.empty).cache.nonNull = true := by
  decide

/-- C15 (amended): when obtaining the environment succeeds, then after unload
every cached entry (the five class references and the twelve method and field
identifiers) is null, for every state the cache was in. -/
theorem JNI_OnUnload_resets_cache (vm : JavaVM) (cache : Cache) (hEnv : vm.getEnv = JNI_OK) :
    (JNI_OnUnload vm cache).cache = Cache.empty := by
  simp [JNI_OnUnload, hEnv, Cache.empty]

/-- C15 (amended) at the cache a successful load filled. -/
theorem JNI_OnUnload_resets_cache_witness :
    (JNI_OnUnload JavaVM.sound (JNI_OnLoad JavaVM.sound Cache.empty).cache).cache
      = Cache.empty :=
  JNI_OnUnload_resets_cache JavaVM.sound (JNI_OnLoad JavaVM.sound Cache.empty).cache rfl

/-- C16 (the code at the failing input): when the lookup of the class
`LonLatZoom` fails (and nothing else does), load does not return at once: the
check after the lookup reads `lonLatClass`, which is non-null, so load goes on
to the next step, `GetMethodID` on the null class reference, and returns
`JNI_ERR` only after it. -/
theorem failed_LonLatZoom_lookup_goes_on :
    (JNI_OnLoad (JavaVM.failing (.FindClass "com/mapbox/mapboxgl/lib/LonLatZoom"))
        Cache.empty).calls
      = [.GetEnv, .FindClass "com/mapbox/mapboxgl/lib/LonLat",
         .GetMethodID (some (.local "com/mapbox/mapboxgl/lib/LonLat")) "<init>" "(DD)V",
         .GetFieldID (some (.local "com/mapbox/mapboxgl/lib/LonLat")) "lon" "D",
         .GetFieldID (some (.local "com/mapbox/mapboxgl/lib/LonLat")) "lat" "D",
         .FindClass "com/mapbox/mapboxgl/lib/LonLatZoom",
         .GetMethodID none "<init>" "(DDD)V",
         .ExceptionDescribe]
    ∧ (JNI_OnLoad (JavaVM.failing (.FindClass "com/mapbox/mapboxgl/lib/LonLatZoom"))
        Cache.empty).code = JNI_ERR := by
  decide

/-- C17: from every state of the cache (the clean one and the one unload leaves
among them), if obtaining the environment and every lookup, the registration
of the table and every pinning of a successful load succeed, load returns
`JNI_VERSION_1_6`, every cached entry is non-null, and the five cached class
references are the global references the pinnings returned. -/
theorem JNI_OnLoad_populates_cache (vm : JavaVM) (cache : Cache) (hEnv : vm.getEnv = JNI_OK)
    (hok : ∀ c ∈ (JNI_OnLoad JavaVM.sound Cache.empty).calls, vm.succeeds c = true) :
    (JNI_OnLoad vm cache).code = JNI_VERSION_1_6
    ∧ (JNI_OnLoad vm cache).cache.nonNull = true
    ∧ (JNI_OnLoad vm cache).cache.classes
      = [some (.global "com/mapbox/mapboxgl/lib/LonLat"),
         some (.global "com/mapbox/mapboxgl/lib/LonLatZoom"),
         some (.global "java/lang/RuntimeException"),
         some (.global "java/lang/NullPointerException"),
         some (.global "java/util/ArrayList")] := by
  rw [JNI_OnLoad_of_succeeds vm cache hEnv hok]
  decide

/-- C17 at the state unload leaves, in a runtime where everything succeeds. -/
theorem JNI_OnLoad_populates_cache_witness :
    (JNI_OnLoad JavaVM.sound
        (JNI_OnUnload JavaVM.sound (JNI_OnLoad JavaVM.sound Cache.empty).cache).cache).code
      = JNI_VERSION_1_6 :=
  (JNI_OnLoad_populates_cache JavaVM.sound
    (JNI_OnUnload JavaVM.sound (JNI_OnLoad JavaVM.sound Cache.empty).cache).cache rfl
    (by decide)).1

/-- C20 (as the claim states it, refuted): after a successful load, unload
releases the global reference of `LonLat` first and that of `ArrayList` last:
the order in which load pinned them, not its reverse. -/
theorem unload_releases_lonLat_first :
    released (JNI_OnUnload JavaVM.sound (JNI_OnLoad JavaVM.sound Cache.empty).cache).calls
      = [some (.global "com/mapbox/mapboxgl/lib/LonLat"),
         some (.global "com/mapbox/mapboxgl/lib/LonLatZoom"),
         some (.global "java/lang/RuntimeException"),
         some (.global "java/lang/NullPointerException"),
         some (.global "java/util/ArrayList")]
    ∧ (released (JNI_OnUnload JavaVM.sound
        (JNI_OnLoad JavaVM.sound Cache.empty).cache).calls).head?
      ≠ some (some (.global "java/util/ArrayList")) := by
  decide

/-- C20 (amended): after a successful load, unload releases the pinned class
references in the order in which load pinned them: `lonLat`, `lonLatZoom`,
`runtimeException`, `nullPointerException`, `arrayList`. -/
theorem release_order_is_pin_order (vm : JavaVM) (cache : Cache) (hEnv : vm.getEnv = JNI_OK)
    (hok : ∀ c ∈ (JNI_OnLoad JavaVM.sound Cache.empty).calls, vm.succeeds c = true) :
    released (JNI_OnUnload vm (JNI_OnLoad vm cache).cache).calls
      = (pinned vm (JNI_OnLoad vm cache).calls).map some
    ∧ pinned vm (JNI_OnLoad vm cache).calls
      = [.global "com/mapbox/mapboxgl/lib/LonLat",
         .global "com/mapbox/mapboxgl/lib/LonLatZoom",
         .global "java/lang/RuntimeException",
         .global "java/lang/NullPointerException",
         .global "java/util/ArrayList"] := by
  have h1 : vm.succeeds (.FindClass "com/mapbox/mapboxgl/lib/LonLat") = true := hok _ (by decide)
  have h2 : vm.succeeds (.GetMethodID (some (.local "com/mapbox/mapboxgl/lib/LonLat")) "<init>" "(DD)V") = true := hok _ (by decide)
  have h3 : vm.succeeds (.GetFieldID (some (.local "com/mapbox/mapboxgl/lib/LonLat")) "lon" "D") = true := hok _ (by decide)
  have h4 : vm.succeeds (.GetFieldID (some (.local "com/mapbox/mapboxgl/lib/LonLat")) "lat" "D") = true := hok _ (by decide)
  have h5 : vm.succeeds (.FindClass "com/mapbox/mapboxgl/lib/LonLatZoom") = true := hok _ (by decide)
  have h6 : vm.succeeds (.GetMethodID (some (.local "com/mapbox/mapboxgl/lib/LonLatZoom")) "<init>" "(DDD)V") = true := hok _ (by decide)
  have h7 : vm.succeeds (.GetFieldID (some (.local "com/mapbox/mapboxgl/lib/LonLatZoom")) "lon" "D") = true := hok _ (by decide)
  have h8 : vm.succeeds (.GetFieldID (some (.local "com/mapbox/mapboxgl/lib/LonLatZoom")) "lat" "D") = true := hok _ (by decide)
  have h9 : vm.succeeds (.GetFieldID (some (.local "com/mapbox/mapboxgl/lib/LonLatZoom")) "zoom" "D") = true := hok _ (by decide)
  have h10 : vm.succeeds (.FindClass "com/mapbox/mapboxgl/lib/NativeMapView") = true := hok _ (by decide)
  have h11 : vm.succeeds (.GetMethodID (some (.local "com/mapbox/mapboxgl/lib/NativeMapView")) "onMapChanged" "()V") = true := hok _ (by decide)
  have h12 : vm.succeeds (.GetMethodID (some (.local "com/mapbox/mapboxgl/lib/NativeMapView")) "onFpsChanged" "(D)V") = true := hok _ (by decide)
  have h13 : vm.succeeds (.FindClass "java/lang/RuntimeException") = true := hok _ (by decide)
  have h14 : vm.succeeds (.FindClass "java/lang/NullPointerException") = true := hok _ (by decide)
  have h15 : vm.succeeds (.FindClass "java/util/List") = true := hok _ (by decide)
  have h16 : vm.succeeds (.GetMethodID (some (.local "java/util/List")) "toArray" "()[Ljava/lang/Object;") = true := hok _ (by decide)
  have h17 : vm.succeeds (.FindClass "java/util/ArrayList") = true := hok _ (by decide)
  have h18 : vm.succeeds (.GetMethodID (some (.local "java/util/ArrayList")) "<init>" "()V") = true := hok _ (by decide)
  have h19 : vm.succeeds (.GetMethodID (some (.local "java/util/ArrayList")) "add" "(Ljava/lang/Object;)Z") = true := hok _ (by decide)
  have h20 : vm.succeeds (.RegisterNatives (some (.local "com/mapbox/mapboxgl/lib/NativeMapView")) 59) = true := hok _ (by decide)
  have h21 : vm.succeeds (.NewGlobalRef (some (.local "com/mapbox/mapboxgl/lib/LonLat"))) = true := hok _ (by decide)
  have h22 : vm.succeeds (.NewGlobalRef (some (.local "com/mapbox/mapboxgl/lib/LonLatZoom"))) = true := hok _ (by decide)
  have h23 : vm.succeeds (.NewGlobalRef (some (.local "java/lang/RuntimeException"))) = true := hok _ (by decide)
  have h24 : vm.succeeds (.NewGlobalRef (some (.local "java/lang/NullPointerException"))) = true := hok _ (by decide)
  have h25 : vm.succeeds (.NewGlobalRef (some (.local "java/util/ArrayList"))) = true := hok _ (by decide)
  simp [JNI_OnLoad, JavaVM.FindClass, JavaVM.GetMethodID, JavaVM.GetFieldID, JavaVM.RegisterNatives,
    JavaVM.NewGlobalRef, ClassRef.name, methods_length, hEnv, h1, h2, h3, h4, h5, h6, h7, h8, h9,
    h10, h11, h12, h13, h14, h15, h16, h17, h18, h19, h20, h21, h22, h23, h24, h25, JNI_OnUnload,
    released, pinned]

/-- C20 (amended) in a runtime where everything succeeds, from the clean
cache. -/
theorem release_order_is_pin_order_witness :
    released (JNI_OnUnload JavaVM.sound (JNI_OnLoad JavaVM.sound Cache.empty).cache).calls
      = (pinned JavaVM.sound (JNI_OnLoad JavaVM.sound Cache.empty).calls).map some :=
  (release_order_is_pin_order JavaVM.sound Cache.empty rfl (by decide)).1

/-- C22: if obtaining the environment, every lookup and the registration of the
table succeed and load does not return `JNI_VERSION_1_6`, that is, a pinning
fails, then load returns `JNI_ERR`, and the references it releases are the
global references its earlier pinnings gave, each once and no other: no global
reference is left pinned. -/
theorem failed_pinning_releases_pinned (vm : JavaVM) (cache : Cache)
    (hEnv : vm.getEnv = JNI_OK)
    (hlook : ∀ c ∈ (JNI_OnLoad JavaVM.sound Cache.empty).calls,
      c.isPinning = false → vm.succeeds c = true)
    (hfail : (JNI_OnLoad vm cache).code ≠ JNI_VERSION_1_6) :
    (JNI_OnLoad vm cache).code = JNI_ERR
    ∧ released (JNI_OnLoad vm cache).calls = (pinned vm (JNI_OnLoad vm cache).calls).map some
    ∧ (pinned vm (JNI_OnLoad vm cache).calls).Nodup := by
  have h1 : vm.succeeds (.FindClass "com/mapbox/mapboxgl/lib/LonLat") = true := hlook _ (by decide) rfl
  have h2 : vm.succeeds (.GetMethodID (some (.local "com/mapbox/mapboxgl/lib/LonLat")) "<init>" "(DD)V") = true := hlook _ (by decide) rfl
  have h3 : vm.succeeds (.GetFieldID (some (.local "com/mapbox/mapboxgl/lib/LonLat")) "lon" "D") = true := hlook _ (by decide) rfl
  have h4 : vm.succeeds (.GetFieldID (some (.local "com/mapbox/mapboxgl/lib/LonLat")) "lat" "D") = true := hlook _ (by decide) rfl
  have h5 : vm.succeeds (.FindClass "com/mapbox/mapboxgl/lib/LonLatZoom") = true := hlook _ (by decide) rfl
  have h6 : vm.succeeds (.GetMethodID (some (.local "com/mapbox/mapboxgl/lib/LonLatZoom")) "<init>" "(DDD)V") = true := hlook _ (by decide) rfl
  have h7 : vm.succeeds (.GetFieldID (some (.local "com/mapbox/mapboxgl/lib/LonLatZoom")) "lon" "D") = true := hlook _ (by decide) rfl
  have h8 : vm.succeeds (.GetFieldID (some (.local "com/mapbox/mapboxgl/lib/LonLatZoom")) "lat" "D") = true := hlook _ (by decide) rfl
  have h9 : vm.succeeds (.GetFieldID (some (.local "com/mapbox/mapboxgl/lib/LonLatZoom")) "zoom" "D") = true := hlook _ (by decide) rfl
  have h10 : vm.succeeds (.FindClass "com/mapbox/mapboxgl/lib/NativeMapView") = true := hlook _ (by decide) rfl
  have h11 : vm.succeeds (.GetMethodID (some (.local "com/mapbox/mapboxgl/lib/NativeMapView")) "onMapChanged" "()V") = true := hlook _ (by decide) rfl
  have h12 : vm.succeeds (.GetMethodID (some (.local "com/mapbox/mapboxgl/lib/NativeMapView")) "onFpsChanged" "(D)V") = true := hlook _ (by decide) rfl
  have h13 : vm.succeeds (.FindClass "java/lang/RuntimeException") = true := hlook _ (by decide) rfl
  have h14 : vm.succeeds (.FindClass "java/lang/NullPointerException") = true := hlook _ (by decide) rfl
  have h15 : vm.succeeds (.FindClass "java/util/List") = true := hlook _ (by decide) rfl
  have h16 : vm.succeeds (.GetMethodID (some (.local "java/util/List")) "toArray" "()[Ljava/lang/Object;") = true := hlook _ (by decide) rfl
  have h17 : vm.succeeds (.FindClass "java/util/ArrayList") = true := hlook _ (by decide) rfl
  have h18 : vm.succeeds (.GetMethodID (some (.local "java/util/ArrayList")) "<init>" "()V") = true := hlook _ (by decide) rfl
  have h19 : vm.succeeds (.GetMethodID (some (.local "java/util/ArrayList")) "add" "(Ljava/lang/Object;)Z") = true := hlook _ (by decide) rfl
  have h20 : vm.succeeds (.RegisterNatives (some (.local "com/mapbox/mapboxgl/lib/NativeMapView")) 59) = true := hlook _ (by decide) rfl
  by_cases p1 : vm.succeeds (.NewGlobalRef (some (.local "com/mapbox/mapboxgl/lib/LonLat"))) = true
  · by_cases p2 : vm.succeeds (.NewGlobalRef (some (.local "com/mapbox/mapboxgl/lib/LonLatZoom"))) = true
    · by_cases p3 : vm.succeeds (.NewGlobalRef (some (.local "java/lang/RuntimeException"))) = true
      · by_cases p4 : vm.succeeds (.NewGlobalRef (some (.local "java/lang/NullPointerException"))) = true
        · by_cases p5 : vm.succeeds (.NewGlobalRef (some (.local "java/util/ArrayList"))) = true
          · exfalso
            apply hfail
            simp [JNI_OnLoad, JavaVM.FindClass, JavaVM.GetMethodID, JavaVM.GetFieldID,
              JavaVM.RegisterNatives, JavaVM.NewGlobalRef, ClassRef.name, methods_length, hEnv, h1, h2,
              h3, h4, h5, h6, h7, h8, h9, h10, h11, h12, h13, h14, h15, h16, h17, h18, h19, h20, p1, p2, p3, p4, p5]
          · simp [JNI_OnLoad, JavaVM.FindClass, JavaVM.GetMethodID, JavaVM.GetFieldID,
              JavaVM.RegisterNatives, JavaVM.NewGlobalRef, ClassRef.name, methods_length, hEnv, h1, h2,
              h3, h4, h5, h6, h7, h8, h9, h10, h11, h12, h13, h14, h15, h16, h17, h18, h19, h20, p1, p2, p3, p4, p5, released, pinned]
        · simp [JNI_OnLoad, JavaVM.FindClass, JavaVM.GetMethodID, JavaVM.GetFieldID,
              JavaVM.RegisterNatives, JavaVM.NewGlobalRef, ClassRef.name, methods_length, hEnv, h1, h2,
              h3, h4, h5, h6, h7, h8, h9, h10, h11, h12, h13, h14, h15, h16, h17, h18, h19, h20, p1, p2, p3, p4, released, pinned]
      · simp [JNI_OnLoad, JavaVM.FindClass, JavaVM.GetMethodID, JavaVM.GetFieldID,
              JavaVM.RegisterNatives, JavaVM.NewGlobalRef, ClassRef.name, methods_length, hEnv, h1, h2,
              h3, h4, h5, h6, h7, h8, h9, h10, h11, h12, h13, h14, h15, h16, h17, h18, h19, h20, p1, p2, p3, released, pinned]
    · simp [JNI_OnLoad, JavaVM.FindClass, JavaVM.GetMethodID, JavaVM.GetFieldID,
              JavaVM.RegisterNatives, JavaVM.NewGlobalRef, ClassRef.name, methods_length, hEnv, h1, h2,
              h3, h4, h5, h6, h7, h8, h9, h10, h11, h12, h13, h14, h15, h16, h17, h18, h19, h20, p1, p2, released, pinned]
  · simp [JNI_OnLoad, JavaVM.FindClass, JavaVM.GetMethodID, JavaVM.GetFieldID,
              JavaVM.RegisterNatives, JavaVM.NewGlobalRef, ClassRef.name, methods_length, hEnv, h1, h2,
              h3, h4, h5, h6, h7, h8, h9, h10, h11, h12, h13, h14, h15, h16, h17, h18, h19, h20, p1, released, pinned]

/-- C22 when the third pinning, that of `runtimeExceptionClass`, fails: the two
global references pinned before it are released. -/
theorem failed_pinning_releases_pinned_witness :
    released (JNI_OnLoad
        (JavaVM.failing (.NewGlobalRef (some (.local "java/lang/RuntimeException"))))
        Cache.empty).calls
      = [some (.global "com/mapbox/mapboxgl/lib/LonLat"),
         some (.global "com/mapbox/mapboxgl/lib/LonLatZoom")]
    ∧ (JNI_OnLoad
        (JavaVM.failing (.NewGlobalRef (some (.local "java/lang/RuntimeException"))))
        Cache.empty).code = JNI_ERR :=
  have h := failed_pinning_releases_pinned
    (JavaVM.failing (.NewGlobalRef (some (.local "java/lang/RuntimeException"))))
    Cache.empty rfl (by decide) (by decide)
  ⟨h.2.1.trans (by decide), h.1⟩

end Jni
